import Mathlib

/-!
# HelenOS: USB host controller scheduling and supporting libraries

Shallow embeddings of

* `uspace/drv/bus/usb/xhci/transfers.c` and `commands.h` (namespace `Xhci`),
* the operation table lookup of `uspace/lib/usbhost/include/usb/host/bus.h`
  with the table of `uspace/drv/bus/usb/ehci/ehci_bus.c` (namespace `UsbHost`),
* `uspace/lib/usb/src/dma_buffer.c` (namespace `Usb`),
* `uspace/lib/c/generic/adt/array.c` (namespace `Adt`; `Adt.SizeT` holds
  `array_realloc` and `array_reserve` with wrapping `size_t` arithmetic),
* `event_flags` of `uspace/srv/taskman/event.c` (namespace `Taskman`),
* `ui_menu_get_geom` of `uspace/lib/ui/src/menu.c` (namespace `Ui`),
* `uspace/srv/sysman/configuration.c` (namespace `Configuration`) and
  `uspace/srv/sysman/job_closure.c` (namespace `JobClosure`),
* three request handlers of `uspace/srv/devman/client_conn.c` (namespace `Devman`),
* `uspace/app/bdsh/cmds/modules/basename/basename.c` (namespace `Bdsh`).

All definitions come first, the theorems follow, grouped by namespace.

## xHCI transfer scheduling

The host controller state is the list of pending transfers together with the
sequence of calls the driver has made to its collaborators (the allocator, the
TRB ring, the doorbell, the batch layer).  The collaborators themselves are not
part of `transfers.c`; their answers are supplied by an environment record whose
functions may depend on everything that has been called so far.
-/

namespace Xhci

/-- Modelled from the spec: the error codes of errno.h (absent from the sources)
that transfers.c and its collaborators return, as distinct symbolic values. -/
inductive errno_t
  | EOK
  | ENOENT
  | ENOMEM
  | EINVAL
  | ENOTSUP
  | ENAK
  | EAGAIN
  | EIO
  deriving DecidableEq

/-- Modelled from the spec: the transfer types of usb/usb.h (absent from the
sources): control, isochronous, bulk and interrupt. -/
inductive usb_transfer_type_t
  | USB_TRANSFER_CONTROL
  | USB_TRANSFER_ISOCHRONOUS
  | USB_TRANSFER_BULK
  | USB_TRANSFER_INTERRUPT
  deriving DecidableEq

open errno_t usb_transfer_type_t

/-- The enumerators of `stage_dir_flag_t` (transfers.c:45-48), with their C values. -/
def STAGE_OUT : Nat := 0

/-- Second enumerator of `stage_dir_flag_t`. -/
def STAGE_IN : Nat := 1

/-- The constant `REQUEST_TYPE_DTD` (transfers.c:50). -/
def REQUEST_TYPE_DTD : Nat := 0x80

/-- The C macro `REQUEST_TYPE_IS_DEVICE_TO_HOST(rq)`, `(rq) & REQUEST_TYPE_DTD`
(transfers.c:51); the result is an integer used as a truth value. -/
def REQUEST_TYPE_IS_DEVICE_TO_HOST (rq : Nat) : Nat := rq &&& REQUEST_TYPE_DTD

/-- The enumerators of `data_stage_type_t` (transfers.c:66-70). -/
def DATA_STAGE_NO : Nat := 0

/-- Enumerator `DATA_STAGE_OUT = 2`. -/
def DATA_STAGE_OUT : Nat := 2

/-- Enumerator `DATA_STAGE_IN = 3`. -/
def DATA_STAGE_IN : Nat := 3

/-- Modelled from the spec: the TRB type codes of hw_struct/trb.h (absent from
the sources), numbered as in the xHCI specification, table "TRB Type
Definitions". -/
def XHCI_TRB_TYPE_NORMAL : Nat := 1

/-- Modelled from the spec: TRB type code of a Setup stage descriptor. -/
def XHCI_TRB_TYPE_SETUP_STAGE : Nat := 2

/-- Modelled from the spec: TRB type code of a Data stage descriptor. -/
def XHCI_TRB_TYPE_DATA_STAGE : Nat := 3

/-- Modelled from the spec: TRB type code of a Status stage descriptor. -/
def XHCI_TRB_TYPE_STATUS_STAGE : Nat := 4

/-- Modelled from the spec: the completion code Success of hw_struct/trb.h
(absent from the sources), numbered as in the xHCI specification. -/
def XHCI_TRBC_SUCCESS : Nat := 1

/-- Modelled from the spec: the completion code Stall. -/
def XHCI_TRBC_STALL_ERROR : Nat := 6

/-- Modelled from the spec: the completion code Short packet. -/
def XHCI_TRBC_SHORT_PACKET : Nat := 13

/-- Modelled from the spec: request type Standard of usb/request.h (absent from
the sources), as in USB 2.0 chapter 9. -/
def USB_REQUEST_TYPE_STANDARD : Nat := 0

/-- Modelled from the spec: standard request SET_CONFIGURATION. -/
def USB_DEVREQ_SET_CONFIGURATION : Nat := 9

/-- Modelled from the spec: standard request SET_INTERFACE. -/
def USB_DEVREQ_SET_INTERFACE : Nat := 11

/-- Modelled from the spec: the macro `SETUP_REQUEST_TYPE_GET_TYPE` of
usb/request.h (absent from the sources): bits 6:5 of bmRequestType. -/
def SETUP_REQUEST_TYPE_GET_TYPE (rt : Nat) : Nat := (rt / 32) % 4

/-- The 8-byte control request `usb_device_request_setup_packet_t` that the
setup buffer of a batch is read as (transfers.c:146-147). -/
structure usb_device_request_setup_packet_t where
  request_type : Nat
  request : Nat
  value : Nat
  index : Nat
  length : Nat
  deriving DecidableEq

/-- The fields of `endpoint_t` and of the enclosing `xhci_endpoint_t` that
transfers.c reads: `ep->transfer_type`, `ep->target.endpoint` and
`xhci_endpoint_get(ep)->device->slot_id`. -/
structure endpoint_t where
  transfer_type : usb_transfer_type_t
  target_endpoint : Nat
  slot_id : Nat
  deriving DecidableEq

/-- The fields of `usb_transfer_batch_t` that transfers.c reads. `buffer` is the
address of the caller's data. -/
structure usb_transfer_batch_t where
  ep : endpoint_t
  buffer : Nat
  buffer_size : Nat
  setup_buffer : usb_device_request_setup_packet_t
  setup_size : Nat
  deriving DecidableEq

/-- Modelled from the spec: the descriptor `xhci_trb_t` with the field macros of
hw_struct/trb.h (absent from the sources).  Each macro `TRB_CTRL_SET_X(trb, v)`
is a write of `v` to the field X and each reader macro reads its field; the bit
positions and widths of the fields inside the three hardware words are not
modelled.  `parameter` is the 64-bit parameter word as transfers.c accesses it
directly. -/
structure xhci_trb_t where
  parameter : Nat
  setup_wvalue : Nat
  setup_wlength : Nat
  setup_windex : Nat
  setup_breq : Nat
  setup_bmreqtype : Nat
  xfer_len : Nat
  td_size : Nat
  ioc : Nat
  idt : Nat
  trb_type : Nat
  trt : Nat
  dir : Nat
  completion_code : Nat
  transfer_length : Nat
  deriving DecidableEq

/-- The call `xhci_trb_clean(&trb)`: every field is zero. -/
def xhci_trb_clean : xhci_trb_t :=
  { parameter := 0, setup_wvalue := 0, setup_wlength := 0, setup_windex := 0,
    setup_breq := 0, setup_bmreqtype := 0, xfer_len := 0, td_size := 0, ioc := 0,
    idt := 0, trb_type := 0, trt := 0, dir := 0, completion_code := 0,
    transfer_length := 0 }

/-- The reader macro `TRB_COMPLETION_CODE(trb)`. -/
def TRB_COMPLETION_CODE (trb : xhci_trb_t) : Nat := trb.completion_code

/-- The reader macro `TRB_TRANSFER_LENGTH(trb)`. -/
def TRB_TRANSFER_LENGTH (trb : xhci_trb_t) : Nat := trb.transfer_length

/-- The structure `xhci_transfer_t`: the batch, the address of the DMA buffer
(0 is NULL), the direction flag and the tracked descriptor address. -/
structure xhci_transfer_t where
  batch : usb_transfer_batch_t
  hc_buffer : Nat
  direction : Nat
  interrupt_trb_phys : Nat
  deriving DecidableEq

/-- One call made by transfers.c to a collaborator, with its arguments and,
where the driver receives one, the answer. -/
inductive hc_call
  | usb_log_error
  | usb_log_warning
  | malloc (ok : Bool)
  | malloc32 (size : Nat) (addr : Nat)
  | memcpy (dst src n : Nat)
  | xhci_trb_ring_enqueue (slot_id ep : Nat) (trb : xhci_trb_t) (rc : errno_t) (phys : Nat)
  | xhci_device_configure (slot_id : Nat)
  | hc_ring_doorbell (slot_id target : Nat) (rc : errno_t)
  | usb_transfer_batch_finish_error (batch : usb_transfer_batch_t) (data size : Nat)
      (err : errno_t)
  | free32 (addr : Nat)
  | usb_transfer_batch_destroy (batch : usb_transfer_batch_t)
  | free
  deriving DecidableEq

/-- The part of `xhci_hc_t` that transfers.c works on: the list `hc->transfers`
of pending transfers in list order, and the calls made so far. -/
structure xhci_hc_t where
  transfers : List xhci_transfer_t
  calls : List hc_call
  deriving DecidableEq

/-- The collaborators of transfers.c that are not part of it.  Each answer may
depend on all calls made before it.

* `malloc`: whether `malloc(sizeof(xhci_transfer_t))` returns a non-NULL block;
* `malloc32`: the address `malloc32(size)` returns, 0 for NULL;
* `addr_to_phys`: physical address of a virtual address;
* `xhci_trb_ring_enqueue`: for the ring of (slot, endpoint), the descriptor and
  the old content of `*phys`: the return code and the new content of `*phys`;
* `xhci_endpoint_index`: the index of an endpoint in the device context;
* `hc_ring_doorbell`: the return code of ringing (slot, target);
* `word_bits`: the width of `size_t` and `uintptr_t`. -/
structure xhci_env where
  malloc : List hc_call → Bool
  malloc32 : List hc_call → Nat → Nat
  addr_to_phys : Nat → Nat
  xhci_trb_ring_enqueue : List hc_call → Nat → Nat → xhci_trb_t → Nat → errno_t × Nat
  xhci_endpoint_index : endpoint_t → Nat
  hc_ring_doorbell : List hc_call → Nat → Nat → errno_t
  word_bits : Nat

/-- Record a call. -/
def xhci_hc_t.call (hc : xhci_hc_t) (c : hc_call) : xhci_hc_t :=
  { hc with calls := hc.calls ++ [c] }

/-- The function `get_status_direction_flag` (transfers.c:57-64). -/
def get_status_direction_flag (bmRequestType wLength : Nat) : Nat :=
  if REQUEST_TYPE_IS_DEVICE_TO_HOST bmRequestType ≠ 0 ∧ wLength > 0 then STAGE_OUT
  else STAGE_IN

/-- The function `get_transfer_type` (transfers.c:75-85). -/
def get_transfer_type (bmRequestType wLength : Nat) : Nat :=
  if wLength = 0 then DATA_STAGE_NO
  else if REQUEST_TYPE_IS_DEVICE_TO_HOST bmRequestType ≠ 0 then DATA_STAGE_IN
  else DATA_STAGE_NO

/-- The function `configure_endpoint_needed` (transfers.c:87-94). -/
def configure_endpoint_needed (setup : usb_device_request_setup_packet_t) : Bool :=
  let request_type := SETUP_REQUEST_TYPE_GET_TYPE setup.request_type
  decide (request_type = USB_REQUEST_TYPE_STANDARD) &&
    (decide (setup.request = USB_DEVREQ_SET_CONFIGURATION)
      || decide (setup.request = USB_DEVREQ_SET_INTERFACE))

/-- The function `xhci_init_transfers` (transfers.c:96-102): the pending list
becomes empty. -/
def xhci_init_transfers (hc : xhci_hc_t) : errno_t × xhci_hc_t :=
  (EOK, { hc with transfers := [] })

/-- The function `xhci_transfer_alloc` (transfers.c:110-121).  The result is
`none` for a NULL return; the fresh transfer is zeroed except for the batch and
the DMA buffer, which is allocated only for a non-empty data buffer. -/
def xhci_transfer_alloc (env : xhci_env) (hc : xhci_hc_t) (batch : usb_transfer_batch_t) :
    xhci_hc_t × Option xhci_transfer_t :=
  let ok := env.malloc hc.calls
  let hc1 := hc.call (.malloc ok)
  if ok = false then (hc1, none)
  else if batch.buffer_size > 0 then
    let a := env.malloc32 hc1.calls batch.buffer_size
    (hc1.call (.malloc32 batch.buffer_size a),
      some { batch := batch, hc_buffer := a, direction := 0, interrupt_trb_phys := 0 })
  else
    (hc1, some { batch := batch, hc_buffer := 0, direction := 0, interrupt_trb_phys := 0 })

/-- The function `xhci_transfer_fini` (transfers.c:123-132) on a non-NULL
transfer. -/
def xhci_transfer_fini (hc : xhci_hc_t) (transfer : xhci_transfer_t) : xhci_hc_t :=
  let hc1 := if transfer.batch.buffer_size > 0 then hc.call (.free32 transfer.hc_buffer) else hc
  let hc2 := hc1.call (.usb_transfer_batch_destroy transfer.batch)
  hc2.call .free

/-- The libc call `memcpy(dst, src, n)` as transfers.c uses it: writing a
non-empty block to the NULL address is a fault (`none`). -/
def memcpy (hc : xhci_hc_t) (dst src n : Nat) : Option xhci_hc_t :=
  if dst = 0 ∧ n > 0 then none else some (hc.call (.memcpy dst src n))

/-- A call of `xhci_trb_ring_enqueue(ring, &trb, &phys)` on the ring
`hc->dcbaa_virt[slot_id].trs[ep]`: the return code and the new content of
`phys` as the ring gives them. -/
def xhci_trb_ring_enqueue (env : xhci_env) (hc : xhci_hc_t) (slot_id ep : Nat)
    (trb : xhci_trb_t) (phys : Nat) : xhci_hc_t × errno_t × Nat :=
  let r := env.xhci_trb_ring_enqueue hc.calls slot_id ep trb phys
  (hc.call (.xhci_trb_ring_enqueue slot_id ep trb r.1 r.2), r.1, r.2)

/-- A call of `hc_ring_doorbell(hc, slot_id, target)`. -/
def hc_ring_doorbell (env : xhci_env) (hc : xhci_hc_t) (slot_id target : Nat) :
    errno_t × xhci_hc_t :=
  let rc := env.hc_ring_doorbell hc.calls slot_id target
  (rc, hc.call (.hc_ring_doorbell slot_id target rc))

/-- The Setup stage descriptor that `xhci_schedule_control_transfer` builds
(transfers.c:157-174). -/
def control_trb_setup (setup : usb_device_request_setup_packet_t) : xhci_trb_t :=
  { xhci_trb_clean with
    setup_wvalue := setup.value
    setup_wlength := setup.length
    setup_windex := setup.index
    setup_breq := setup.request
    setup_bmreqtype := setup.request_type
    xfer_len := 8
    idt := 1
    trb_type := XHCI_TRB_TYPE_SETUP_STAGE
    trt := get_transfer_type setup.request_type setup.length }

/-- The direction the Data stage block stores in `transfer->direction`
(transfers.c:194-195). -/
def control_data_direction (setup : usb_device_request_setup_packet_t) : Nat :=
  if REQUEST_TYPE_IS_DEVICE_TO_HOST setup.request_type ≠ 0 then STAGE_IN else STAGE_OUT

/-- The Data stage descriptor (transfers.c:176-197): filled in only when
`setup->length > 0`, a clean descriptor otherwise. -/
def control_trb_data (env : xhci_env) (batch : usb_transfer_batch_t)
    (setup : usb_device_request_setup_packet_t) (transfer : xhci_transfer_t) : xhci_trb_t :=
  if setup.length > 0 then
    { xhci_trb_clean with
      parameter := env.addr_to_phys transfer.hc_buffer
      xfer_len := batch.buffer_size
      td_size := 1
      trb_type := XHCI_TRB_TYPE_DATA_STAGE
      dir := control_data_direction setup }
  else xhci_trb_clean

/-- The Status stage descriptor (transfers.c:199-210). -/
def control_trb_status (setup : usb_device_request_setup_packet_t) : xhci_trb_t :=
  { xhci_trb_clean with
    ioc := 1
    trb_type := XHCI_TRB_TYPE_STATUS_STAGE
    dir := get_status_direction_flag setup.request_type setup.length }

/-- The function `xhci_schedule_control_transfer` (transfers.c:134-234).  The
result is `none` when the function dereferences NULL (a failed allocation);
otherwise it is the return code and the new state. -/
def xhci_schedule_control_transfer (env : xhci_env) (hc : xhci_hc_t)
    (batch : usb_transfer_batch_t) : Option (errno_t × xhci_hc_t) :=
  if batch.setup_size = 0 then
    some (EINVAL, hc.call .usb_log_error)
  else if batch.ep.transfer_type ≠ USB_TRANSFER_CONTROL then
    some (EINVAL, hc.call .usb_log_error)
  else
    let setup := batch.setup_buffer
    match xhci_transfer_alloc env hc batch with
    | (_, none) => none
    | (hc1, some transfer) =>
      match (if transfer.direction = 0 then
          memcpy hc1 transfer.hc_buffer batch.buffer batch.buffer_size
        else some hc1) with
      | none => none
      | some hc2 =>
        let trb_setup := control_trb_setup setup
        let trb_data := control_trb_data env batch setup transfer
        let transfer1 :=
          if setup.length > 0 then { transfer with direction := control_data_direction setup }
          else transfer
        let trb_status := control_trb_status setup
        let slot_id := batch.ep.slot_id
        let ep := batch.ep.target_endpoint
        let dummy := 0
        let r1 := xhci_trb_ring_enqueue env hc2 slot_id ep trb_setup dummy
        let r2 :=
          if setup.length > 0 then xhci_trb_ring_enqueue env r1.1 slot_id ep trb_data r1.2.2
          else r1
        let r3 := xhci_trb_ring_enqueue env r2.1 slot_id ep trb_status
          transfer1.interrupt_trb_phys
        let transfer2 := { transfer1 with interrupt_trb_phys := r3.2.2 }
        let hc3 := { r3.1 with transfers := r3.1.transfers ++ [transfer2] }
        let hc4 :=
          if configure_endpoint_needed setup then hc3.call (.xhci_device_configure slot_id)
          else hc3
        let target := (env.xhci_endpoint_index batch.ep + 1) % 256
        some (hc_ring_doorbell env hc4 slot_id target)

/-- The opening check of the bulk, interrupt and isochronous schedulers
(transfers.c:238-240, 281-283, 323-325): a setup packet is reported with
`usb_log_warning` and otherwise ignored. -/
def warn_setup (hc : xhci_hc_t) (batch : usb_transfer_batch_t) : xhci_hc_t :=
  if batch.setup_size ≠ 0 then hc.call .usb_log_warning else hc

/-- The single descriptor built by the bulk and the interrupt scheduler
(transfers.c:253-265 and 296-308). -/
def normal_trb (env : xhci_env) (batch : usb_transfer_batch_t) (transfer : xhci_transfer_t) :
    xhci_trb_t :=
  { xhci_trb_clean with
    parameter := env.addr_to_phys transfer.hc_buffer
    xfer_len := batch.buffer_size
    td_size := 1
    ioc := 1
    trb_type := XHCI_TRB_TYPE_NORMAL }

/-- The function `xhci_schedule_bulk_transfer` (transfers.c:236-277). -/
def xhci_schedule_bulk_transfer (env : xhci_env) (hc : xhci_hc_t)
    (batch : usb_transfer_batch_t) : Option (errno_t × xhci_hc_t) :=
  let hc0 := warn_setup hc batch
  if batch.ep.transfer_type ≠ USB_TRANSFER_BULK then
    some (EINVAL, hc0.call .usb_log_error)
  else
    match xhci_transfer_alloc env hc0 batch with
    | (_, none) => none
    | (hc1, some transfer) =>
      match (if transfer.direction = 0 then
          memcpy hc1 transfer.hc_buffer batch.buffer batch.buffer_size
        else some hc1) with
      | none => none
      | some hc2 =>
        let trb := normal_trb env batch transfer
        let slot_id := batch.ep.slot_id
        let r := xhci_trb_ring_enqueue env hc2 slot_id batch.ep.target_endpoint trb
          transfer.interrupt_trb_phys
        let transfer1 := { transfer with interrupt_trb_phys := r.2.2 }
        let hc3 := { r.1 with transfers := r.1.transfers ++ [transfer1] }
        let target := (env.xhci_endpoint_index batch.ep + 1) % 256
        some (hc_ring_doorbell env hc3 slot_id target)

/-- The function `xhci_schedule_interrupt_transfer` (transfers.c:279-319). -/
def xhci_schedule_interrupt_transfer (env : xhci_env) (hc : xhci_hc_t)
    (batch : usb_transfer_batch_t) : Option (errno_t × xhci_hc_t) :=
  let hc0 := warn_setup hc batch
  if batch.ep.transfer_type ≠ USB_TRANSFER_INTERRUPT then
    some (EINVAL, hc0.call .usb_log_error)
  else
    match xhci_transfer_alloc env hc0 batch with
    | (_, none) => none
    | (hc1, some transfer) =>
      match (if transfer.direction = 0 then
          memcpy hc1 transfer.hc_buffer batch.buffer batch.buffer_size
        else some hc1) with
      | none => none
      | some hc2 =>
        let trb := normal_trb env batch transfer
        let slot_id := batch.ep.slot_id
        let r := xhci_trb_ring_enqueue env hc2 slot_id batch.ep.target_endpoint trb
          transfer.interrupt_trb_phys
        let transfer1 := { transfer with interrupt_trb_phys := r.2.2 }
        let hc3 := { r.1 with transfers := r.1.transfers ++ [transfer1] }
        let target := (env.xhci_endpoint_index batch.ep + 1) % 256
        some (hc_ring_doorbell env hc3 slot_id target)

/-- The function `xhci_schedule_isochronous_transfer` (transfers.c:321-335). -/
def xhci_schedule_isochronous_transfer (hc : xhci_hc_t) (batch : usb_transfer_batch_t) :
    errno_t × xhci_hc_t :=
  let hc0 := warn_setup hc batch
  if batch.ep.transfer_type ≠ USB_TRANSFER_ISOCHRONOUS then
    (EINVAL, hc0.call .usb_log_error)
  else
    (ENOTSUP, hc0.call .usb_log_error)

/-- The search loop of `xhci_handle_transfer_event` (transfers.c:342-350): walk
the pending list from its first link and stop at the first transfer whose
`interrupt_trb_phys` is `addr`.  The result is the position of the link the
loop stopped at and the transfer there, or `none` when the walk reaches the end
of the list. -/
def find_transfer (addr : Nat) : List xhci_transfer_t → Option (Nat × xhci_transfer_t)
  | [] => none
  | transfer :: rest =>
    if transfer.interrupt_trb_phys = addr then some (0, transfer)
    else (find_transfer addr rest).map (fun r => (r.1 + 1, r.2))

/-- The address `uintptr_t addr = trb->parameter` (transfers.c:339): the 64-bit
parameter converted to a pointer-sized integer. -/
def event_addr (env : xhci_env) (trb : xhci_trb_t) : Nat :=
  trb.parameter % 2 ^ env.word_bits

/-- The error code handed to the batch (transfers.c:360). -/
def completion_err (trb : xhci_trb_t) : errno_t :=
  if TRB_COMPLETION_CODE trb = XHCI_TRBC_SUCCESS then EOK else ENAK

/-- The size handed to the batch (transfers.c:361): a subtraction of `size_t`
values, which wraps modulo the word size. -/
def completion_size (env : xhci_env) (batch : usb_transfer_batch_t) (trb : xhci_trb_t) : Nat :=
  Int.toNat (((batch.buffer_size : Int) - (TRB_TRANSFER_LENGTH trb : Int)) % 2 ^ env.word_bits)

/-- The function `xhci_handle_transfer_event` (transfers.c:337-365). -/
def xhci_handle_transfer_event (env : xhci_env) (hc : xhci_hc_t) (trb : xhci_trb_t) :
    errno_t × xhci_hc_t :=
  let addr := event_addr env trb
  match find_transfer addr hc.transfers with
  | none => (ENOENT, hc.call .usb_log_warning)
  | some (i, transfer) =>
    let hc1 := { hc with transfers := hc.transfers.eraseIdx i }
    let batch := transfer.batch
    let err := completion_err trb
    let size := completion_size env batch trb
    let hc2 := hc1.call (.usb_transfer_batch_finish_error batch transfer.hc_buffer size err)
    (EOK, xhci_transfer_fini hc2 transfer)

/-- The descriptors handed to `xhci_trb_ring_enqueue`, in call order, each with
the ring (slot, endpoint) it was handed to, the return code of the ring and the
address the ring left in `*phys`. -/
def enqueued : List hc_call → List (Nat × Nat × xhci_trb_t × errno_t × Nat)
  | [] => []
  | .xhci_trb_ring_enqueue slot_id ep trb rc phys :: cs =>
    (slot_id, ep, trb, rc, phys) :: enqueued cs
  | _ :: cs => enqueued cs

/-- The doorbells rung, in call order, as (slot, target) pairs. -/
def doorbells : List hc_call → List (Nat × Nat)
  | [] => []
  | .hc_ring_doorbell slot_id target _ :: cs => (slot_id, target) :: doorbells cs
  | _ :: cs => doorbells cs

/-- The batches finished through `usb_transfer_batch_finish_error`, in call
order, with the data address, size and error code passed. -/
def finished : List hc_call → List (usb_transfer_batch_t × Nat × Nat × errno_t)
  | [] => []
  | .usb_transfer_batch_finish_error batch data size err :: cs =>
    (batch, data, size, err) :: finished cs
  | _ :: cs => finished cs

/-- Both allocations of `xhci_transfer_alloc` succeed when it is called in state
`hc` for `batch`: `malloc` returns a block and, for a non-empty data buffer,
`malloc32` returns a non-NULL address. -/
def alloc_succeeds (env : xhci_env) (hc : xhci_hc_t) (batch : usb_transfer_batch_t) : Prop :=
  env.malloc hc.calls = true ∧
    (batch.buffer_size > 0 →
      env.malloc32 (hc.calls ++ [.malloc true]) batch.buffer_size ≠ 0)

instance (env : xhci_env) (hc : xhci_hc_t) (batch : usb_transfer_batch_t) :
    Decidable (alloc_succeeds env hc batch) :=
  inferInstanceAs (Decidable (env.malloc hc.calls = true ∧
    (batch.buffer_size > 0 →
      env.malloc32 (hc.calls ++ [hc_call.malloc true]) batch.buffer_size ≠ 0)))

/-- A sample environment: allocations succeed, the DMA buffer is at 0x1000 and
identity mapped, the ring accepts every descriptor and places the n-th one at
0x2000 + 16 n, endpoint n has index 2 n, the doorbell answers EOK, and words
have 64 bits. -/
def sample_env : xhci_env where
  malloc := fun _ => true
  malloc32 := fun _ _ => 0x1000
  addr_to_phys := fun a => a
  xhci_trb_ring_enqueue := fun calls _ _ _ _ => (EOK, 0x2000 + 16 * (enqueued calls).length)
  xhci_endpoint_index := fun ep => 2 * ep.target_endpoint
  hc_ring_doorbell := fun _ _ _ => EOK
  word_bits := 64

/-- A controller with no pending transfer and no call made yet. -/
def sample_hc : xhci_hc_t := { transfers := [], calls := [] }

/-- A sample endpoint of the given type: endpoint 1 of the device in slot 3. -/
def sample_ep (t : usb_transfer_type_t) : endpoint_t :=
  { transfer_type := t, target_endpoint := 1, slot_id := 3 }

/-- A sample control batch: GET_DESCRIPTOR, device to host, wLength 64. -/
def sample_control_in : usb_transfer_batch_t :=
  { ep := { transfer_type := USB_TRANSFER_CONTROL, target_endpoint := 0, slot_id := 3 },
    buffer := 0x5000, buffer_size := 64,
    setup_buffer := { request_type := 0x80, request := 6, value := 0x100, index := 0,
                      length := 64 },
    setup_size := 8 }

/-- A sample control batch without data stage: SET_ADDRESS, wLength 0. -/
def sample_control_nodata : usb_transfer_batch_t :=
  { ep := { transfer_type := USB_TRANSFER_CONTROL, target_endpoint := 0, slot_id := 3 },
    buffer := 0, buffer_size := 0,
    setup_buffer := { request_type := 0, request := 5, value := 7, index := 0, length := 0 },
    setup_size := 8 }

/-- A sample data batch of 512 bytes on an endpoint of the given type, with the
given setup size. -/
def sample_data (t : usb_transfer_type_t) (setup_size : Nat) : usb_transfer_batch_t :=
  { ep := sample_ep t, buffer := 0x5000, buffer_size := 512,
    setup_buffer := { request_type := 0, request := 0, value := 0, index := 0, length := 0 },
    setup_size := setup_size }

/-- A controller with three pending transfers; the first and the third are
tracked under the same address 0x2010, the second under 0x2020. -/
def sample_pending : xhci_hc_t :=
  { transfers :=
      [{ batch := sample_data USB_TRANSFER_BULK 0, hc_buffer := 0x1000, direction := 0,
         interrupt_trb_phys := 0x2010 },
       { batch := sample_control_nodata, hc_buffer := 0, direction := 0,
         interrupt_trb_phys := 0x2020 },
       { batch := sample_data USB_TRANSFER_INTERRUPT 0, hc_buffer := 0x3000, direction := 0,
         interrupt_trb_phys := 0x2010 }],
    calls := [] }

/-- A transfer event for the descriptor at `addr`: completion code Success,
nothing left to transfer. -/
def sample_event (addr : Nat) : xhci_trb_t :=
  { xhci_trb_clean with parameter := addr, completion_code := XHCI_TRBC_SUCCESS }

/-- The calls of `xhci_device_configure`, in call order, by slot. -/
def configured : List hc_call → List Nat
  | [] => []
  | .xhci_device_configure slot_id :: cs => slot_id :: configured cs
  | _ :: cs => configured cs

/-- A completion event for the descriptor at `addr` with the given completion
code and remaining length. -/
def sample_completion (addr code len : Nat) : xhci_trb_t :=
  { xhci_trb_clean with parameter := addr, completion_code := code, transfer_length := len }

/-- A sample environment whose ring has no free slot: `xhci_trb_ring_enqueue`
returns ENOMEM and leaves `*phys` as it was; everything else is as in
`sample_env`. -/
def ring_full_env : xhci_env :=
  { sample_env with xhci_trb_ring_enqueue := fun _ _ _ _ phys => (ENOMEM, phys) }

/-- A sample environment in which `malloc` returns NULL; everything else is as
in `sample_env`. -/
def malloc_null_env : xhci_env :=
  { sample_env with malloc := fun _ => false }

/-- A sample environment whose ring has one free slot: the first descriptor is
accepted and placed at 0x2000, every later one is refused with ENOMEM. -/
def ring_one_slot_env : xhci_env :=
  { sample_env with
    xhci_trb_ring_enqueue := fun calls _ _ _ phys =>
      if (enqueued calls).length = 0 then (EOK, 0x2000) else (ENOMEM, phys) }

/-- A sample control batch: the standard request SET_CONFIGURATION 1, without
data stage. -/
def sample_set_configuration : usb_transfer_batch_t :=
  { ep := { transfer_type := USB_TRANSFER_CONTROL, target_endpoint := 0, slot_id := 3 },
    buffer := 0, buffer_size := 0,
    setup_buffer := { request_type := 0, request := 9, value := 1, index := 0, length := 0 },
    setup_size := 8 }

/-- The constant `XHCI_DEFAULT_TIMEOUT` (commands.h:44). -/
def XHCI_DEFAULT_TIMEOUT : Int := 1000000

/-- The constant `XHCI_BLOCK_INDEFINITELY` (commands.h:45). -/
def XHCI_BLOCK_INDEFINITELY : Int := 0

/-- The enumeration `xhci_cmd_type_t` (commands.h:51-67). -/
inductive xhci_cmd_type_t
  | XHCI_CMD_ENABLE_SLOT
  | XHCI_CMD_DISABLE_SLOT
  | XHCI_CMD_ADDRESS_DEVICE
  | XHCI_CMD_CONFIGURE_ENDPOINT
  | XHCI_CMD_EVALUATE_CONTEXT
  | XHCI_CMD_RESET_ENDPOINT
  | XHCI_CMD_STOP_ENDPOINT
  | XHCI_CMD_SET_TR_DEQUEUE_POINTER
  | XHCI_CMD_RESET_DEVICE
  | XHCI_CMD_FORCE_EVENT
  | XHCI_CMD_NEGOTIATE_BANDWIDTH
  | XHCI_CMD_SET_LATENCY_TOLERANCE_VALUE
  | XHCI_CMD_GET_PORT_BANDWIDTH
  | XHCI_CMD_FORCE_HEADER
  | XHCI_CMD_NO_OP
  deriving DecidableEq

/-- The structure `xhci_cmd_t` (commands.h:69-104): the header fields `cmd`,
`timeout` (a signed `suseconds_t`), `trb`, `trb_phys`, `async` and `completed`,
followed by the command arguments.  The list link, the mutex and the condition
variable of the header carry no data of their own and are left out; pointers
are addresses. -/
structure xhci_cmd_t where
  cmd : xhci_cmd_type_t
  timeout : Int
  trb : xhci_trb_t
  trb_phys : Nat
  async : Bool
  completed : Bool
  slot_id : Nat
  endpoint_id : Nat
  stream_id : Nat
  input_ctx : Nat
  bandwidth_ctx : Nat
  dequeue_ptr : Nat
  tcs : Nat
  susp : Nat
  device_speed : Nat
  status : Nat
  deconfigure : Bool
  deriving DecidableEq

/-- The function `xhci_cmd_sync_inline_wrapper` (commands.h:125-141).  The
function `xhci_cmd_sync` is not part of the header and is a parameter: from the
controller state and the command it is handed it gives the error code and the
new controller state.  Initialising the link, the mutex and the condition
variable changes none of the modelled fields, and `xhci_cmd_fini` only releases
the local copy of the command. -/
def xhci_cmd_sync_inline_wrapper {σ : Type} (xhci_cmd_sync : σ → xhci_cmd_t → Int × σ)
    (hc : σ) (cmd : xhci_cmd_t) : Int × σ :=
  let cmd1 :=
    if cmd.timeout = 0 then { cmd with timeout := XHCI_DEFAULT_TIMEOUT } else cmd
  let err := xhci_cmd_sync hc cmd1
  err

/-- The compound literal of the macro `xhci_cmd_sync_inline` (commands.h:154-156):
the command type is set and every field that is not named is zero. -/
def xhci_cmd_zeroed (command : xhci_cmd_type_t) : xhci_cmd_t :=
  { cmd := command, timeout := 0, trb := xhci_trb_clean, trb_phys := 0, async := false,
    completed := false, slot_id := 0, endpoint_id := 0, stream_id := 0, input_ctx := 0,
    bandwidth_ctx := 0, dequeue_ptr := 0, tcs := 0, susp := 0, device_speed := 0,
    status := 0, deconfigure := false }

/-- A stand-in for `xhci_cmd_sync` that records the commands it is handed and
reports success. -/
def sample_cmd_sync (hc : List xhci_cmd_t) (cmd : xhci_cmd_t) : Int × List xhci_cmd_t :=
  (0, hc ++ [cmd])

end Xhci

/-! # Bus operation tables (uspace/lib/usbhost/include/usb/host/bus.h) -/

namespace UsbHost

/-- A function that a slot of an operation table points to: the functions that
`ehci_bus_ops` names (ehci_bus.c:161-173), and `other n` for any other
function. -/
inductive bus_fn
  | ehci_endpoint_destroy
  | ehci_endpoint_create
  | ehci_register_ep
  | ehci_unregister_ep
  | ehci_ep_toggle_set
  | ehci_ep_toggle_get
  | bandwidth_count_usb11
  | ehci_create_batch
  | ehci_destroy_batch
  | other (n : Nat)
  deriving DecidableEq

/-- The structure `bus_ops_t` (bus.h:91-119).  `parent` is the address of the
parent table, 0 for NULL; a slot is `none` when the function pointer is NULL. -/
structure bus_ops_t where
  parent : Nat
  reserve_default_address : Option bus_fn
  release_default_address : Option bus_fn
  reset_toggle : Option bus_fn
  device_enumerate : Option bus_fn
  device_remove : Option bus_fn
  device_online : Option bus_fn
  device_offline : Option bus_fn
  device_find_endpoint : Option bus_fn
  endpoint_create : Option bus_fn
  endpoint_register : Option bus_fn
  endpoint_unregister : Option bus_fn
  endpoint_destroy : Option bus_fn
  endpoint_get_toggle : Option bus_fn
  endpoint_set_toggle : Option bus_fn
  endpoint_count_bw : Option bus_fn
  batch_create : Option bus_fn
  batch_destroy : Option bus_fn
  deriving DecidableEq

/-- The macro `BUS_OPS_LOOKUP(start, fn)` (bus.h:124):
`ops = start; while (ops && ops->fn == NULL) ops = ops->parent; ops`.
`mem` gives the table stored at an address, `fn` selects the slot, and the
first argument bounds the number of loop tests; the result is `none` when the
bound is used up before the loop ends, and the final value of `ops` otherwise
(0 for NULL). -/
def BUS_OPS_LOOKUP (mem : Nat → bus_ops_t) (fn : bus_ops_t → Option bus_fn) :
    Nat → Nat → Option Nat
  | 0, _ => none
  | fuel + 1, ops =>
    if ops ≠ 0 ∧ fn (mem ops) = none then BUS_OPS_LOOKUP mem fn fuel (mem ops).parent
    else some ops

/-- The addresses `chain` are the tables reached from `start` by following
`parent` until NULL: a finite chain, hence one without a cycle. -/
def ops_chain (mem : Nat → bus_ops_t) : Nat → List Nat → Prop
  | start, [] => start = 0
  | start, a :: rest => start = a ∧ a ≠ 0 ∧ ops_chain mem (mem a).parent rest

/-- The table `ehci_bus_ops` (ehci_bus.c:161-173); `usb2_bus_ops` is the address
of the parent table, which is defined outside the sources at hand. -/
def ehci_bus_ops (usb2_bus_ops : Nat) : bus_ops_t :=
  { parent := usb2_bus_ops
    reserve_default_address := none
    release_default_address := none
    reset_toggle := none
    device_enumerate := none
    device_remove := none
    device_online := none
    device_offline := none
    device_find_endpoint := none
    endpoint_create := some .ehci_endpoint_create
    endpoint_register := some .ehci_register_ep
    endpoint_unregister := some .ehci_unregister_ep
    endpoint_destroy := some .ehci_endpoint_destroy
    endpoint_get_toggle := some .ehci_ep_toggle_get
    endpoint_set_toggle := some .ehci_ep_toggle_set
    endpoint_count_bw := some .bandwidth_count_usb11
    batch_create := some .ehci_create_batch
    batch_destroy := some .ehci_destroy_batch }

/-- A table with every slot NULL and the given parent. -/
def empty_bus_ops (parent : Nat) : bus_ops_t :=
  { parent := parent
    reserve_default_address := none
    release_default_address := none
    reset_toggle := none
    device_enumerate := none
    device_remove := none
    device_online := none
    device_offline := none
    device_find_endpoint := none
    endpoint_create := none
    endpoint_register := none
    endpoint_unregister := none
    endpoint_destroy := none
    endpoint_get_toggle := none
    endpoint_set_toggle := none
    endpoint_count_bw := none
    batch_create := none
    batch_destroy := none }

/-- A sample memory: `ehci_bus_ops` at address 0x100 with its parent at 0x200,
a table without parent that sets only `reserve_default_address` and
`endpoint_register`. -/
def sample_mem (addr : Nat) : bus_ops_t :=
  if addr = 0x100 then ehci_bus_ops 0x200
  else if addr = 0x200 then
    { empty_bus_ops 0 with
      reserve_default_address := some (.other 1)
      endpoint_register := some (.other 2) }
  else empty_bus_ops 0

end UsbHost

/-! # DMA buffers (uspace/lib/usb/src/dma_buffer.c) -/

namespace Usb

/-- Modelled from the spec: the policy flag "must fit below a 4 GiB physical
boundary" of usb/dma_buffer.h (absent from the sources), bit 0 of the flags. -/
def DMA_POLICY_F_4GiB : Nat := 1

/-- Modelled from the spec: the policy flag "must be physically contiguous" of
usb/dma_buffer.h (absent from the sources), bit 1 of the flags. -/
def DMA_POLICY_F_CONTIGUOUS : Nat := 2

/-- The structure `dma_policy_t`: its `flags` field. -/
structure dma_policy_t where
  flags : Nat
  deriving DecidableEq

/-- What `dma_buffer_check_policy` takes from its surroundings: the page size,
the width of `size_t` and `uintptr_t`, and the address space, where
`as_get_physical_mapping virt` is the physical address that the call
`as_get_physical_mapping(virt, &phys)` stores, or `none` when the call returns
an error. -/
structure dma_env where
  PAGE_SIZE : Nat
  word_bits : Nat
  as_get_physical_mapping : Nat → Option Nat

/-- Modelled from the spec: the test `(phys & DMAMEM_4GiB) != 0`.  The mask
DMAMEM_4GiB of ddi.h (absent from the sources) selects the bits of a physical
address from bit 32 upwards, so the test holds when the address is not below
the 4 GiB boundary. -/
def phys_above_4GiB (env : dma_env) (phys : Nat) : Bool :=
  decide (2 ^ 32 ≤ phys % 2 ^ env.word_bits)

/-- The loop of `dma_buffer_check_policy` (dma_buffer.c:158-172), entered with
the current `virt`, `size` and `phys`.  `size -= PAGE_SIZE` and
`phys - last_phys` are unsigned and wrap.  The first argument bounds the number
of loop tests; the result is `none` when the bound is used up, else `some true`
when the loop ends (all checks passed) and `some false` when it jumps to
`violated` or `error`. -/
def check_policy_loop (env : dma_env) (check_4gib check_contiguous : Bool) :
    Nat → Nat → Nat → Nat → Option Bool
  | 0, _, _, _ => none
  | fuel + 1, virt, size, phys =>
    if size ≤ env.PAGE_SIZE then
      let virt1 := (virt + env.PAGE_SIZE) % 2 ^ env.word_bits
      let size1 := Int.toNat (((size : Int) - (env.PAGE_SIZE : Int)) % 2 ^ env.word_bits)
      let last_phys := phys
      match env.as_get_physical_mapping virt1 with
      | none => some false
      | some phys1 =>
        if check_contiguous = true ∧
            Int.toNat (((phys1 : Int) - (last_phys : Int)) % 2 ^ env.word_bits)
              ≠ env.PAGE_SIZE then
          some false
        else if check_4gib = true ∧ phys_above_4GiB env phys1 = true then
          some false
        else
          check_policy_loop env check_4gib check_contiguous fuel virt1 size1 phys1
    else some true

/-- The function `dma_buffer_check_policy` (dma_buffer.c:133-181); `fuel` bounds
the number of loop tests. -/
def dma_buffer_check_policy (env : dma_env) (fuel : Nat) (buffer size : Nat)
    (policy : dma_policy_t) : Option Bool :=
  if buffer % env.PAGE_SIZE ≠ 0 then some false
  else
    let check_4gib := decide (policy.flags &&& DMA_POLICY_F_4GiB ≠ 0)
    let check_contiguous := decide (policy.flags &&& DMA_POLICY_F_CONTIGUOUS ≠ 0)
    if check_contiguous = true ∨ check_4gib = true then
      match env.as_get_physical_mapping buffer with
      | none => some false
      | some phys =>
        if check_4gib = true ∧ phys_above_4GiB env phys = true then some false
        else check_policy_loop env check_4gib check_contiguous fuel buffer size phys
    else some true

/-- A sample address space with pages of 4096 bytes and 64-bit words: the page
at 0x10000 is mapped to the physical address 0x1000, the page at 0x11000 to
0x100000000 (4 GiB), and nothing else is mapped. -/
def sample_dma_env : dma_env :=
  { PAGE_SIZE := 4096
    word_bits := 64
    as_get_physical_mapping := fun virt =>
      if virt = 0x10000 then some 0x1000
      else if virt = 0x11000 then some 0x100000000
      else none }

end Usb

/-! # Dynamic arrays (uspace/lib/c/generic/adt/array.c) -/

namespace Adt

open Xhci.errno_t

/-- The structure `array_t` of adt/array.h for items of type `α`.  The buffer
`_data` is seen item by item: `_data i` is the item stored in slot `i`, also
for slots that hold no item yet.  `_item_size` is the size of an item in bytes,
`capacity` the number of slots allocated and `size` the number of items. -/
structure array_t (α : Type) where
  _data : Nat → α
  _item_size : Nat
  capacity : Nat
  size : Nat

/-- The libc call `memmove(dst, src, n)` inside one buffer, in items: the `n`
slots from `dst` on receive what the `n` slots from `src` on held before the
call, also when the two ranges overlap. -/
def memmove {α : Type} (data : Nat → α) (dst src n : Nat) : Nat → α :=
  fun i => if dst ≤ i ∧ i < dst + n then data (src + (i - dst)) else data i

/-- The function `array_realloc` (array.c:46-58) for arrays whose byte counts
stay in the range of `size_t`; `SizeT.array_realloc` has the wrapping
arithmetic of the source.  `r` is the outcome of the call of `realloc`, if one
is made: `none` when it returns NULL, and otherwise the content of the new
block where `realloc` leaves it unspecified; the slots that both the old and
the new block have keep their items. -/
def array_realloc {α : Type} (r : Option (Nat → α)) (da : array_t α) (capacity : Nat) :
    Xhci.errno_t × array_t α :=
  if capacity = da.capacity then (EOK, da)
  else
    match r with
    | some fresh =>
      (EOK, { da with
        _data := fun i => if i < min da.capacity capacity then da._data i else fresh i
        capacity := capacity })
    | none => (ENOMEM, da)

/-- The function `array_reserve` (array.c:131-144) for arrays whose byte counts
stay in the range of `size_t`; `SizeT.array_reserve` has the wrapping
arithmetic of the source. -/
def array_reserve {α : Type} (r : Option (Nat → α)) (da : array_t α) (capacity : Nat) :
    Xhci.errno_t × array_t α :=
  let factor := 2
  let new_capacity :=
    if capacity > da.capacity then max (da.capacity * factor) capacity
    else if capacity < da.capacity / factor then min (da.capacity / factor) capacity
    else capacity
  array_realloc r da new_capacity

/-- The function `_array_shift` (array.c:163-172); `none` when the assertion
`da->capacity >= da->size + offset` fails.  The item count `da->size - index`
is the one of the source for `index <= da->size`. -/
def _array_shift {α : Type} (da : array_t α) (index offset : Nat) : Option (array_t α) :=
  if da.capacity ≥ da.size + offset then
    some { da with
      _data := memmove da._data (index + offset) index (da.size - index)
      size := da.size + offset }
  else none

/-- The function `_array_unshift` (array.c:182-189).  The item count
`da->size - index - offset` and the new size `da->size - offset` are the ones
of the source for `index + offset <= da->size`. -/
def _array_unshift {α : Type} (da : array_t α) (index offset : Nat) : array_t α :=
  { da with
    _data := memmove da._data index (index + offset) (da.size - index - offset)
    size := da.size - offset }

/-- The function `array_remove` (array.c:68-74); `none` when one of its two
assertions fails. -/
def array_remove {α : Type} (r : Option (Nat → α)) (da : array_t α) (index : Nat) :
    Option (array_t α) :=
  if index < da.size then
    let da1 := _array_unshift da index 1
    let rc := array_reserve r da1 da1.size
    if rc.1 = EOK then some rc.2 else none
  else none

/-- The function `array_clear` (array.c:77-80). -/
def array_clear {α : Type} (da : array_t α) : array_t α :=
  { da with size := 0 }

/-- The function `array_clear_range` (array.c:88-96); `none` when one of its
three assertions fails.  The function is modelled for `begin <= end`: for
`begin > end` the `size_t` difference `end - begin` of the source wraps and the
result is `none` as well. -/
def array_clear_range {α : Type} (r : Option (Nat → α)) (da : array_t α) (begin_ end_ : Nat) :
    Option (array_t α) :=
  if begin_ < da.size ∧ end_ ≤ da.size ∧ begin_ ≤ end_ then
    let da1 := _array_unshift da begin_ (end_ - begin_)
    let rc := array_reserve r da1 da1.size
    if rc.1 = EOK then some rc.2 else none
  else none

/-- Modelled from the spec: the macro `array_at(da, type, index)` of adt/array.h
(absent from the sources), the item in slot `index`. -/
def array_at {α : Type} (da : array_t α) (index : Nat) : α :=
  da._data index

/-- Modelled from the spec: the macro `array_insert(da, type, index, value)` of
adt/array.h (absent from the sources): reserve room for one more item and, if
that succeeds, shift the items from `index` on by one slot and store `value`
in slot `index`; the value of the macro is the return code of
`array_reserve`.  `none` when the assertion of `_array_shift` fails. -/
def array_insert {α : Type} (r : Option (Nat → α)) (da : array_t α) (index : Nat) (value : α) :
    Option (Xhci.errno_t × array_t α) :=
  let rc := array_reserve r da (da.size + 1)
  if rc.1 = EOK then
    match _array_shift rc.2 index 1 with
    | none => none
    | some da1 =>
      some (EOK, { da1 with _data := fun i => if i = index then value else da1._data i })
  else some (rc.1, rc.2)

/-- Modelled from the spec: the macro `array_append(da, type, value)` of
adt/array.h (absent from the sources): `array_insert` at index `da->size`. -/
def array_append {α : Type} (r : Option (Nat → α)) (da : array_t α) (value : α) :
    Option (Xhci.errno_t × array_t α) :=
  array_insert r da da.size value

/-- The contents of an array: the items in slots 0 to `size - 1`. -/
def contents {α : Type} (da : array_t α) : List α :=
  (List.range da.size).map da._data

/-- The array of the tests (test/adt/array.c) after appending the items of
`items`: capacity and size are the number of items. -/
def sample_array (items : List Nat) : array_t Nat :=
  { _data := fun i => items.getD i 0, _item_size := 4, capacity := items.length,
    size := items.length }

end Adt

namespace Adt

open Xhci.errno_t

/-- The libc call `memcpy(dst, src, n)` in items, for ranges that do not
overlap: the `n` slots of the destination buffer from slot `dst` on receive the
first `n` items of the source block `src_data`. -/
def memcpy {α : Type} (dst_data src_data : Nat → α) (dst n : Nat) : Nat → α :=
  fun i => if dst ≤ i ∧ i < dst + n then src_data (i - dst) else dst_data i

/-- The function `array_concat` (array.c:106-121).  The two arguments are
pointers, which may be equal; `mem` gives the array stored at an address.  The
result is `none` when the assertion on the item sizes fails, and when `memcpy`
would write behind the last slot of the buffer of `da1` or read behind the last
slot of the buffer of `da2`; otherwise it is the return code with the arrays
after the call. -/
def array_concat {α : Type} (r : Option (Nat → α)) (mem : Nat → array_t α) (da1 da2 : Nat) :
    Option (Xhci.errno_t × (Nat → array_t α)) :=
  if (mem da1)._item_size = (mem da2)._item_size then
    let rc := array_reserve r (mem da1) ((mem da1).size + (mem da2).size)
    let mem1 := Function.update mem da1 rc.2
    if rc.1 ≠ EOK then some (rc.1, mem1)
    else if (mem1 da1).size + (mem1 da2).size ≤ (mem1 da1).capacity ∧
        (mem1 da2).size ≤ (mem1 da2).capacity then
      let data := memcpy (mem1 da1)._data (mem1 da2)._data (mem1 da1).size (mem1 da2).size
      let mem2 := Function.update mem1 da1 { mem1 da1 with _data := data }
      let mem3 := Function.update mem2 da1
        { mem2 da1 with size := (mem2 da1).size + (mem2 da2).size }
      some (EOK, mem3)
    else none
  else none

/-- A sample memory for `array_concat`: the array 10, 99 at address 1, the
array 30, 31 at address 2. -/
def sample_arrays (addr : Nat) : array_t Nat :=
  if addr = 1 then sample_array [10, 99] else sample_array [30, 31]

end Adt

namespace Xhci

open usb_transfer_type_t

/-- A sample control batch with an OUT data stage: a class request, host to
device, wLength 8. -/
def sample_control_out : usb_transfer_batch_t :=
  { ep := { transfer_type := USB_TRANSFER_CONTROL, target_endpoint := 0, slot_id := 3 },
    buffer := 0x5000, buffer_size := 8,
    setup_buffer := { request_type := 0x21, request := 0x20, value := 0, index := 0,
                      length := 8 },
    setup_size := 8 }

end Xhci

namespace Usb

/-- A sample address space that agrees with `sample_dma_env` on the page at
0x10000 and maps the page after it, at 0x11000, to the physical address 0x2000,
below 4 GiB and contiguous with the first. -/
def low_dma_env : dma_env :=
  { PAGE_SIZE := 4096
    word_bits := 64
    as_get_physical_mapping := fun virt =>
      if virt = 0x10000 then some 0x1000
      else if virt = 0x11000 then some 0x2000
      else none }

/-- A sample address space that agrees with `sample_dma_env` on the page at
0x10000 and maps nothing else. -/
def single_page_dma_env : dma_env :=
  { PAGE_SIZE := 4096
    word_bits := 64
    as_get_physical_mapping := fun virt =>
      if virt = 0x10000 then some 0x1000 else none }

end Usb

namespace Taskman

/-- The enumeration `task_exit_t` as event.c and task.c use it; the header
that declares it is absent from the sources. -/
inductive task_exit_t where
  | TASK_EXIT_RUNNING
  | TASK_EXIT_NORMAL
  | TASK_EXIT_UNEXPECTED
  deriving DecidableEq, Repr

/-- The enumeration of `task_t.retval_type` as event.c uses it; the header
that declares it is absent from the sources. -/
inductive retval_t where
  | RVAL_UNSET
  | RVAL_SET
  | RVAL_SET_EXIT
  deriving DecidableEq, Repr

/-- Modelled from the spec: the empty flag set of `task_wait_flag_t` (task.h,
absent from the sources). -/
def TASK_WAIT_NONE : Nat := 0

/-- Modelled from the spec: the flag "the task has exited" of
`task_wait_flag_t` (task.h, absent from the sources), bit 0. -/
def TASK_WAIT_EXIT : Nat := 1

/-- Modelled from the spec: the flag "the task has set its return value" of
`task_wait_flag_t` (task.h, absent from the sources), bit 1. -/
def TASK_WAIT_RETVAL : Nat := 2

/-- The fields of `task_t` that `event_flags` reads. -/
structure task_t where
  exit : task_exit_t
  retval_type : retval_t
  deriving DecidableEq

/-- The complement `~x` of a 32-bit flag word. -/
def flag_not (x : Nat) : Nat := 0xFFFFFFFF ^^^ (x % 2 ^ 32)

/-- The function `event_flags` (event.c:69-86). -/
def event_flags (task : task_t) : Nat :=
  let flags := TASK_WAIT_NONE
  let flags1 :=
    if task.retval_type = retval_t.RVAL_SET then flags ||| TASK_WAIT_RETVAL else flags
  if task.exit ≠ task_exit_t.TASK_EXIT_RUNNING then
    let flags2 := flags1 ||| TASK_WAIT_EXIT
    if task.retval_type = retval_t.RVAL_SET_EXIT then flags2 ||| TASK_WAIT_RETVAL
    else flags2 &&& flag_not TASK_WAIT_RETVAL
  else flags1

/-- A flag word contains a flag when their bitwise AND is not zero. -/
def has_flag (flags flag : Nat) : Prop := flags &&& flag ≠ 0

instance (flags flag : Nat) : Decidable (has_flag flags flag) :=
  inferInstanceAs (Decidable (flags &&& flag ≠ 0))

end Taskman

namespace Ui

/-- The constant `menu_frame_w` (menu.c:55). -/
def menu_frame_w : Int := 4

/-- The constant `menu_frame_h` (menu.c:56). -/
def menu_frame_h : Int := 4

/-- The constant `menu_frame_w_text` (menu.c:57). -/
def menu_frame_w_text : Int := 2

/-- The constant `menu_frame_h_text` (menu.c:58). -/
def menu_frame_h_text : Int := 1

/-- The structure `gfx_coord2_t`: a point with coordinates of type
`gfx_coord_t`, here unbounded integers. -/
structure gfx_coord2_t where
  x : Int
  y : Int
  deriving DecidableEq

/-- The structure `gfx_rect_t`: top-left corner `p0`, bottom-right corner
`p1`. -/
structure gfx_rect_t where
  p0 : gfx_coord2_t
  p1 : gfx_coord2_t
  deriving DecidableEq

/-- The structure `ui_menu_geom_t`. -/
structure ui_menu_geom_t where
  outer_rect : gfx_rect_t
  entries_rect : gfx_rect_t
  deriving DecidableEq

/-- The fields of `ui_menu_t` that `ui_menu_get_geom` reads; `textmode` is
`menu->mbar->res->textmode`. -/
structure ui_menu_t where
  textmode : Bool
  max_w : Int
  total_h : Int
  deriving DecidableEq

/-- The function `ui_menu_get_geom` (menu.c:162-188): the structure that the
call stores through `geom`. -/
def ui_menu_get_geom (menu : ui_menu_t) (spos : gfx_coord2_t) : ui_menu_geom_t :=
  let frame_w := if menu.textmode then menu_frame_w_text else menu_frame_w
  let frame_h := if menu.textmode then menu_frame_h_text else menu_frame_h
  let edim : gfx_coord2_t := { x := menu.max_w, y := menu.total_h }
  let outer_rect : gfx_rect_t :=
    { p0 := spos
      p1 := { x := spos.x + edim.x + 2 * frame_w, y := spos.y + edim.y + 2 * frame_h } }
  let entries_p0 : gfx_coord2_t := { x := spos.x + frame_w, y := spos.y + frame_h }
  let entries_rect : gfx_rect_t :=
    { p0 := entries_p0
      p1 := { x := entries_p0.x + edim.x, y := entries_p0.x + edim.y } }
  { outer_rect := outer_rect, entries_rect := entries_rect }

/-- A sample menu in graphics mode whose entries are 100 wide and 50 high in
total. -/
def sample_menu : ui_menu_t :=
  { textmode := false, max_w := 100, total_h := 50 }

end Ui

namespace Configuration

/-- The return codes of `configuration_add_unit`. -/
inductive errno_t where
  | EOK
  | EEXISTS
  deriving DecidableEq, Repr

/-- The unit states that the sources under srv/sysman name; the header
unit.h that declares them is absent from the sources. -/
inductive unit_state_t where
  | STATE_EMBRYO
  | STATE_STARTED
  | STATE_STOPPED
  | STATE_FAILED
  deriving DecidableEq, Repr

/-- The dependency states that configuration.c names; the header dep.h that
declares them is absent from the sources. -/
inductive dep_state_t where
  | DEP_EMBRYO
  | DEP_VALID
  deriving DecidableEq, Repr

/-- The fields of `unit_dependency_t` that configuration.c reads: the address
of the unit depended on (0 while unresolved) and the state of the edge. -/
structure unit_dependency_t where
  dependency : Nat
  state : dep_state_t
  deriving DecidableEq

/-- The fields of `unit_t` that configuration.c reads and writes. -/
structure unit_t where
  name : String
  handle : Nat
  state : unit_state_t
  dependencies : List unit_dependency_t
  deriving DecidableEq

/-- The state that configuration.c works on: the memory holding the units
(`mem p` is the unit at address `p`), the list `units`, the two hash tables
`units_by_name` and `units_by_handle` as the addresses of the units linked into
them, and the addresses that `unit_destroy` has freed.  The memory of a freed
unit keeps its last content. -/
structure configuration_t where
  mem : Nat → unit_t
  units : List Nat
  units_by_name : List Nat
  units_by_handle : List Nat
  destroyed : List Nat

/-- The function `configuration_init` (configuration.c:117-121) on a memory
`mem`: both tables are created empty; the list `units` is initialised empty
(configuration.c:42). -/
def configuration_init (mem : Nat → unit_t) : configuration_t :=
  { mem := mem, units := [], units_by_name := [], units_by_handle := [], destroyed := [] }

/-- Modelled from the spec: `hash_table_insert_unique` of adt/hash_table.h
(absent from the sources) for the table `units_by_name`: the item is linked in
unless an item equal to it is present, and `units_by_name_ht_equal`
(configuration.c:92-97) compares unit addresses.  The result is the new table
and whether the item was inserted. -/
def hash_table_insert_unique (table : List Nat) (item : Nat) : List Nat × Bool :=
  if item ∈ table then (table, false) else (table ++ [item], true)

/-- Modelled from the spec: `hash_table_insert` of adt/hash_table.h (absent
from the sources). -/
def hash_table_insert (table : List Nat) (item : Nat) : List Nat :=
  table ++ [item]

/-- Modelled from the spec: `hash_table_remove_item` of adt/hash_table.h
(absent from the sources): the item is unlinked from the table. -/
def hash_table_remove_item (table : List Nat) (item : Nat) : List Nat :=
  table.erase item

/-- Modelled from the spec: `list_remove` of adt/list.h (absent from the
sources). -/
def list_remove (l : List Nat) (item : Nat) : List Nat :=
  l.erase item

/-- The function `configuration_add_unit` (configuration.c:123-141) for the
unit at address `unit`; `none` when one of its assertions fails. -/
def configuration_add_unit (c : configuration_t) (unit : Nat) :
    Option (errno_t × configuration_t) :=
  if unit ≠ 0 ∧ (c.mem unit).state = unit_state_t.STATE_EMBRYO ∧ (c.mem unit).handle = 0 then
    let r := hash_table_insert_unique c.units_by_name unit
    if r.2 then
      let mem1 := Function.update c.mem unit { c.mem unit with handle := unit }
      some (errno_t.EOK,
        { c with
          mem := mem1
          units_by_name := r.1
          units_by_handle := hash_table_insert c.units_by_handle unit
          units := c.units ++ [unit] })
    else some (errno_t.EEXISTS, c)
  else none

/-- The function `configuration_commit_unit` (configuration.c:147-160). -/
def configuration_commit_unit (c : configuration_t) (unit : Nat) : configuration_t :=
  let u := c.mem unit
  let state1 :=
    if u.state = unit_state_t.STATE_EMBRYO then unit_state_t.STATE_STOPPED else u.state
  let deps1 := u.dependencies.map (fun dep =>
    if dep.state = dep_state_t.DEP_EMBRYO then { dep with state := dep_state_t.DEP_VALID }
    else dep)
  { c with mem := Function.update c.mem unit { u with state := state1, dependencies := deps1 } }

/-- The function `configuration_commit` (configuration.c:163-173):
`hash_table_apply` calls `configuration_commit_unit` for every item of
`units_by_name`. -/
def configuration_commit (c : configuration_t) : configuration_t :=
  c.units_by_name.foldl configuration_commit_unit c

/-- The function `configuration_rollback_unit` (configuration.c:175-193).
`dep_remove_dependency` (dep.c, absent from the sources) takes the edge out of
the list of dependencies; `unit_destroy` (unit.c, absent from the sources)
frees the unit. -/
def configuration_rollback_unit (c : configuration_t) (unit : Nat) : configuration_t :=
  let u := c.mem unit
  let deps1 := u.dependencies.filter (fun dep => decide (dep.state ≠ dep_state_t.DEP_EMBRYO))
  let c1 := { c with mem := Function.update c.mem unit { u with dependencies := deps1 } }
  if u.state = unit_state_t.STATE_EMBRYO then
    { c1 with
      units_by_name := hash_table_remove_item c1.units_by_name unit
      units := list_remove c1.units unit
      destroyed := c1.destroyed ++ [unit] }
  else c1

/-- The function `configuration_rollback` (configuration.c:199-205):
`hash_table_apply` calls `configuration_rollback_unit` for every item that
`units_by_name` holds when the call starts. -/
def configuration_rollback (c : configuration_t) : configuration_t :=
  c.units_by_name.foldl configuration_rollback_unit c

/-- The function `configuration_find_unit_by_name` (configuration.c:250-258):
`hash_table_find` gives the first item whose name equals the key
(`units_by_name_ht_key_equal`, configuration.c:99-103); `none` is NULL. -/
def configuration_find_unit_by_name (c : configuration_t) (name : String) : Option Nat :=
  c.units_by_name.find? (fun unit => decide ((c.mem unit).name = name))

/-- The function `configuration_find_unit_by_handle` (configuration.c:260-268):
`hash_table_find` gives the first item whose handle equals the key
(`units_by_handle_ht_key_equal`, configuration.c:67-71); `none` is NULL. -/
def configuration_find_unit_by_handle (c : configuration_t) (handle : Nat) : Option Nat :=
  c.units_by_handle.find? (fun unit => decide ((c.mem unit).handle = handle))

/-- A sample memory: a new unit named "a" at address 1 and a new unit named
"b" at address 2 (every other address holds a unit named "b" as well, which no
sample uses). -/
def sample_units (addr : Nat) : unit_t :=
  if addr = 1 then
    { name := "a", handle := 0, state := unit_state_t.STATE_EMBRYO, dependencies := [] }
  else
    { name := "b", handle := 0, state := unit_state_t.STATE_EMBRYO, dependencies := [] }

/-- The configuration after adding unit 1 and committing it, then adding
unit 2 without committing it. -/
def sample_configuration : Option configuration_t :=
  (configuration_add_unit (configuration_init sample_units) 1).bind (fun r1 =>
    (configuration_add_unit (configuration_commit r1.2) 2).map (fun r2 => r2.2))

end Configuration

namespace Devman

/-- The error codes that the three handlers pass on. -/
inductive errno_t where
  | EOK
  | ENOENT
  | ENOMEM
  | EREFUSED
  | EINVAL
  | EIO
  deriving DecidableEq, Repr

/-- The function states of devman.h (absent from the sources); client_conn.c
tests for FUN_REMOVED. -/
inductive fun_state_t where
  | FUN_INIT
  | FUN_ON_LINE
  | FUN_OFF_LINE
  | FUN_REMOVED
  deriving DecidableEq, Repr

/-- The device states of devman.h (absent from the sources); client_conn.c
tests for DEVICE_REMOVED. -/
inductive dev_state_t where
  | DEVICE_NOT_INITIALIZED
  | DEVICE_USABLE
  | DEVICE_NOT_PRESENT
  | DEVICE_INVALID
  | DEVICE_REMOVED
  deriving DecidableEq, Repr

/-- The fields of `fun_node_t` that `devman_function_get_handle` reads. -/
structure fun_node_t where
  state : fun_state_t
  handle : Nat
  deriving DecidableEq

/-- The field of `dev_node_t` that `devman_dev_get_functions` reads. -/
structure dev_node_t where
  state : dev_state_t
  deriving DecidableEq

/-- The two calls a handler answers: the request (`icall_handle`) and the data
transfer (`chandle`). -/
inductive call_handle_t where
  | icall_handle
  | chandle
  deriving DecidableEq, Repr

/-- A call that a handler makes, with the values handed over. -/
inductive client_call where
  | fibril_rwlock_read_lock
  | fibril_rwlock_read_unlock
  | async_answer_0 (handle : call_handle_t) (rc : errno_t)
  | async_answer_1 (handle : call_handle_t) (rc : errno_t) (arg1 : Nat)
  | malloc
  | free
  | fun_del_ref
  deriving DecidableEq

/-- What the callees of a handler answer: the return code of
`async_data_write_accept`, the node that `find_fun_node_by_path` finds (`none`
is NULL), whether `async_data_read_receive` succeeds, the node that
`find_dev_node_no_lock` finds, whether `driver_find` finds a driver, whether
`malloc` succeeds, the return codes of `dev_get_functions` and
`driver_get_devices`, the size they store and the return code of
`async_data_read_finalize`. -/
structure client_env where
  async_data_write_accept : errno_t
  find_fun_node_by_path : Option fun_node_t
  async_data_read_receive : Bool
  find_dev_node_no_lock : Option dev_node_t
  driver_find : Bool
  malloc : Bool
  dev_get_functions : errno_t
  driver_get_devices : errno_t
  act_size : Nat
  async_data_read_finalize : errno_t

/-- The function `devman_function_get_handle` (client_conn.c:64-100): the
calls it makes, in order. -/
def devman_function_get_handle (env : client_env) : List client_call :=
  let rc := env.async_data_write_accept
  if rc ≠ errno_t.EOK then [.async_answer_0 .icall_handle rc]
  else
    match env.find_fun_node_by_path with
    | none => [.free, .async_answer_0 .icall_handle errno_t.ENOENT]
    | some fn =>
      if fn.state = fun_state_t.FUN_REMOVED then
        [.free, .fibril_rwlock_read_lock, .fibril_rwlock_read_unlock,
          .async_answer_0 .icall_handle errno_t.ENOENT]
      else
        [.free, .fibril_rwlock_read_lock, .fibril_rwlock_read_unlock, .fun_del_ref,
          .async_answer_1 .icall_handle errno_t.EOK fn.handle]

/-- The function `devman_dev_get_functions` (client_conn.c:361-407): the calls
it makes, in order. -/
def devman_dev_get_functions (env : client_env) : List client_call :=
  if ¬ env.async_data_read_receive then
    [.async_answer_0 .chandle errno_t.EREFUSED, .async_answer_0 .icall_handle errno_t.EREFUSED]
  else
    let locked : List client_call := [.fibril_rwlock_read_lock]
    if env.find_dev_node_no_lock = none ∨
        env.find_dev_node_no_lock.map (fun d => d.state) = some dev_state_t.DEVICE_REMOVED then
      locked ++ [.fibril_rwlock_read_unlock, .async_answer_0 .chandle errno_t.ENOENT,
        .async_answer_0 .icall_handle errno_t.ENOENT]
    else if ¬ env.malloc then
      locked ++ [.malloc, .fibril_rwlock_read_unlock, .async_answer_0 .chandle errno_t.ENOMEM,
        .async_answer_0 .icall_handle errno_t.ENOMEM]
    else
      let rc := env.dev_get_functions
      if rc ≠ errno_t.EOK then
        locked ++ [.malloc, .fibril_rwlock_read_unlock, .async_answer_0 .chandle rc,
          .async_answer_0 .icall_handle rc]
      else
        locked ++ [.malloc, .fibril_rwlock_read_unlock, .free,
          .async_answer_1 .icall_handle env.async_data_read_finalize env.act_size]

/-- The function `devman_driver_get_devices` (client_conn.c:541-579): the calls
it makes, in order. -/
def devman_driver_get_devices (env : client_env) : List client_call :=
  if ¬ env.async_data_read_receive then
    [.async_answer_0 .icall_handle errno_t.EREFUSED]
  else if ¬ env.driver_find then
    [.async_answer_0 .chandle errno_t.ENOENT, .async_answer_0 .icall_handle errno_t.ENOENT]
  else if ¬ env.malloc then
    [.malloc, .async_answer_0 .chandle errno_t.ENOMEM,
      .async_answer_0 .icall_handle errno_t.ENOMEM]
  else
    let rc := env.driver_get_devices
    if rc ≠ errno_t.EOK then
      [.malloc, .fibril_rwlock_read_unlock, .async_answer_0 .chandle rc,
        .async_answer_0 .icall_handle rc]
    else
      [.malloc, .free, .async_answer_1 .icall_handle env.async_data_read_finalize env.act_size]

/-- The number of read locks of `device_tree.rwlock` that the caller holds
after the calls, starting from `held`; `none` when a call releases the lock
while the caller holds none. -/
def read_locks_held : List client_call → Nat → Option Nat
  | [], held => some held
  | .fibril_rwlock_read_lock :: cs, held => read_locks_held cs (held + 1)
  | .fibril_rwlock_read_unlock :: cs, held =>
    if held = 0 then none else read_locks_held cs (held - 1)
  | _ :: cs, held => read_locks_held cs held

/-- A sample request for which `driver_get_devices` fails with EIO after the
driver was found and the buffer allocated. -/
def sample_client_env : client_env :=
  { async_data_write_accept := errno_t.EOK
    find_fun_node_by_path := some { state := fun_state_t.FUN_ON_LINE, handle := 7 }
    async_data_read_receive := true
    find_dev_node_no_lock := some { state := dev_state_t.DEVICE_USABLE }
    driver_find := true
    malloc := true
    dev_get_functions := errno_t.EIO
    driver_get_devices := errno_t.EIO
    act_size := 0
    async_data_read_finalize := errno_t.EOK }

end Devman

namespace Bdsh

/-- The return values of a command entry point (cmds.h, absent from the
sources). -/
inductive cmd_status where
  | CMD_FAILURE
  | CMD_SUCCESS
  deriving DecidableEq, Repr

/-- The terminating character of a C string. -/
def NUL : Char := Char.ofNat 0

/-- The C string that starts at offset `off` of a buffer: the characters up to
the first NUL. -/
def cstr (buf : List Char) (off : Nat) : List Char :=
  (buf.drop off).takeWhile (fun ch => decide (ch ≠ NUL))

/-- Modelled from the spec: `str_length` of str.h (absent from the sources),
the number of characters of a string. -/
def str_length (s : List Char) : Nat := s.length

/-- Modelled from the spec: `str_rchr` of str.h (absent from the sources): the
offset of the last occurrence of `ch` in `s`, `none` (NULL) when there is
none. -/
def str_rchr (s : List Char) (ch : Char) : Option Nat :=
  (List.range s.length).reverse.find? (fun i => decide (s.get? i = some ch))

/-- Whether the string `n` stands at the start of `hs`. -/
def starts_with : List Char → List Char → Bool
  | _, [] => true
  | [], _ :: _ => false
  | h :: hs, c :: n => decide (h = c) && starts_with hs n

/-- Modelled from the spec: `str_str` of str.h (absent from the sources): the
offset of the first occurrence of `n` in `hs`, `none` (NULL) when there is
none. -/
def str_str (hs n : List Char) : Option Nat :=
  (List.range (hs.length + 1)).find? (fun i => starts_with (hs.drop i) n)

/-- The function `gnu_basename` (basename.c:32-36): the offset in `path` of the
pointer it returns. -/
def gnu_basename (path : List Char) : Nat :=
  match str_rchr path (Char.ofNat 47) with
  | some base => base + 1
  | none => 0

/-- The conversion `(int) x` of a `size_t` difference: the low 32 bits, read
as a signed number. -/
def to_int (x : Int) : Int := (x + 2 ^ 31) % 2 ^ 32 - 2 ^ 31

/-- What a call of `cmd_basename` leaves: the return value, the line written
to standard output (`none` when nothing is written), the buffer of `argv[1]`
with its terminator after the call, the offset in that buffer of the pointer
handed to `str_str` and the offset of the NUL that line 72 stores (`none` when
the statement is not reached). -/
structure basename_result where
  status : cmd_status
  stdout : Option (List Char)
  buffer : List Char
  search : Option Nat
  store : Option Nat
  deriving DecidableEq

/-- The function `cmd_basename` (basename.c:39-79) for arguments without NUL
characters.  Offsets are relative to the start of `argv[1]`; the result is
`none` when the pointer handed to `str_str` lies before the start of
`argv[1]`. -/
def cmd_basename (argv : List (List Char)) : Option basename_result :=
  let argc := argv.length
  if argc < 2 then
    some { status := cmd_status.CMD_FAILURE, stdout := none, buffer := [], search := none,
           store := none }
  else
    let path := argv.getD 1 []
    let buffer := path ++ [NUL]
    let c := gnu_basename path
    if argc > 2 then
      let suffix := argv.getD 2 []
      let len_c := str_length (cstr buffer c)
      let start : Int := (c : Int) + (len_c : Int) - (str_length suffix : Int)
      if start < 0 then none
      else
        let found := (str_str (cstr buffer start.toNat) suffix).map (fun k => start.toNat + k)
        match found with
        | some f =>
          if (f : Int) - (c : Int) = to_int ((len_c : Int) - (str_length suffix : Int)) then
            let buffer1 := buffer.set f NUL
            some { status := cmd_status.CMD_SUCCESS, stdout := some (cstr buffer1 c),
                   buffer := buffer1, search := some start.toNat, store := some f }
          else
            some { status := cmd_status.CMD_SUCCESS, stdout := some (cstr buffer c),
                   buffer := buffer, search := some start.toNat, store := none }
        | none =>
          some { status := cmd_status.CMD_SUCCESS, stdout := some (cstr buffer c),
                 buffer := buffer, search := some start.toNat, store := none }
    else
      some { status := cmd_status.CMD_SUCCESS, stdout := some (cstr buffer c),
             buffer := buffer, search := none, store := none }

end Bdsh

namespace JobClosure

/-- The return codes that job_closure.c produces. -/
inductive errno_t where
  | EOK
  | ENOMEM
  | ENOTSUP
  deriving DecidableEq, Repr

/-- The unit states that the sources under srv/sysman name; the header
unit.h that declares them is absent from the sources. -/
inductive unit_state_t where
  | STATE_EMBRYO
  | STATE_STARTED
  | STATE_STOPPED
  | STATE_FAILED
  deriving DecidableEq, Repr

/-- The direction of a traversal (job_closure.c:44-47). -/
inductive bfs_direction where
  | BFS_FORWARD
  | BFS_BACKWARD
  deriving DecidableEq, Repr

/-- The functions that `bfs_ops_t.visit` points to in job_closure.c. -/
inductive bfs_visit where
  | visit_propagate_job
  | visit_isolate
  deriving DecidableEq, Repr

/-- The structure `bfs_ops_t` (job_closure.c:43-57); its `clean` member is
`traverse_clean` in both instances. -/
structure bfs_ops_t where
  direction : bfs_direction
  visit : bfs_visit
  deriving DecidableEq

/-- The fields of `unit_edge_t` that job_closure.c reads: the addresses of the
units the edge leaves (`input`) and reaches (`output`). -/
structure unit_edge_t where
  input : Nat
  output : Nat
  deriving DecidableEq

/-- The fields of `unit_t` that job_closure.c reads and writes; `bfs_data` is
the address of a job, `none` for NULL. -/
structure unit_t where
  bfs_tag : Bool
  bfs_data : Option Nat
  edges_in : List unit_edge_t
  edges_out : List unit_edge_t
  deriving DecidableEq

/-- The fields of `job_t` that job_closure.c reads and writes. -/
structure job_t where
  unit : Nat
  target_state : unit_state_t
  blocked_jobs : List Nat
  blocked_jobs_count : Nat
  blocking_jobs : Nat
  refcnt : Nat
  deriving DecidableEq

/-- The memory that `job_create_closure` works on: the units and jobs by
address, the units of the repository in the order of `repo_foreach`, the array
that `job_closure` points to, the address that the next `job_create` returns
and the number of allocation requests made so far. -/
structure sysman_t where
  units : Nat → unit_t
  jobs : Nat → job_t
  repo : List Nat
  closure : List Nat
  next_job : Nat
  allocs : Nat

/-- How a call ends: it returns, an assertion fails, it reads through an
invalid pointer, or the bound on loop iterations is used up. -/
inductive result (α : Type) where
  | ok (a : α)
  | assertion_failed
  | fault
  | out_of_fuel
  deriving DecidableEq, Repr

/-- Continue with `f` when the call returns. -/
def result.bind {α β : Type} (r : result α) (f : α → result β) : result β :=
  match r with
  | .ok a => f a
  | .assertion_failed => .assertion_failed
  | .fault => .fault
  | .out_of_fuel => .out_of_fuel

/-- Apply `f` to what the call returns. -/
def result.map {α β : Type} (f : α → β) (r : result α) : result β :=
  r.bind (fun a => .ok (f a))

/-- Modelled from the spec: the flag CLOSURE_ISOLATE of job_closure.h (absent
from the sources). -/
def CLOSURE_ISOLATE : Nat := 1

/-- Store into `u->bfs_data`. -/
def set_bfs_data (s : sysman_t) (u : Nat) (job : Option Nat) : sysman_t :=
  { s with units := Function.update s.units u { s.units u with bfs_data := job } }

/-- Store into `u->bfs_tag`. -/
def set_bfs_tag (s : sysman_t) (u : Nat) (tag : Bool) : sysman_t :=
  { s with units := Function.update s.units u { s.units u with bfs_tag := tag } }

/-- Modelled from the spec: `job_add_ref` of job.c (absent from the sources). -/
def job_add_ref (s : sysman_t) (job : Nat) : sysman_t :=
  { s with
    jobs := Function.update s.jobs job { s.jobs job with refcnt := (s.jobs job).refcnt + 1 } }

/-- Modelled from the spec: `job_del_ref` of job.c (absent from the sources);
nothing happens for a NULL job. -/
def job_del_ref (s : sysman_t) (job : Option Nat) : sysman_t :=
  match job with
  | none => s
  | some j =>
    { s with jobs := Function.update s.jobs j { s.jobs j with refcnt := (s.jobs j).refcnt - 1 } }

/-- Modelled from the spec: `job_create` of job.c (absent from the sources).
The allocation succeeds when `alloc` says so for the running number of the
request; the new job holds one reference.  `none` is NULL. -/
def job_create (alloc : Nat → Bool) (s : sysman_t) (u : Nat) (target_state : unit_state_t) :
    Option Nat × sysman_t :=
  if alloc s.allocs then
    (some s.next_job,
      { s with
        allocs := s.allocs + 1
        next_job := s.next_job + 1
        jobs := Function.update s.jobs s.next_job
          { unit := u, target_state := target_state, blocked_jobs := [],
            blocked_jobs_count := 0, blocking_jobs := 0, refcnt := 1 } })
  else (none, { s with allocs := s.allocs + 1 })

/-- The call `array_append(closure, job_t *, job)`: it fails with ENOMEM when
the allocation does. -/
def array_append (alloc : Nat → Bool) (s : sysman_t) (job : Nat) : errno_t × sysman_t :=
  if alloc s.allocs then
    (errno_t.EOK, { s with allocs := s.allocs + 1, closure := s.closure ++ [job] })
  else (errno_t.ENOMEM, { s with allocs := s.allocs + 1 })

/-- The function `job_add_blocked_job` (job_closure.c:63-79). -/
def job_add_blocked_job (alloc : Nat → Bool) (s : sysman_t) (blocking_job blocked_job : Nat) :
    result (errno_t × sysman_t) :=
  if (s.jobs blocking_job).blocked_jobs.length ≠ (s.jobs blocking_job).blocked_jobs_count then
    .assertion_failed
  else if alloc s.allocs then
    let s1 := { s with
      allocs := s.allocs + 1
      jobs := Function.update s.jobs blocking_job
        { s.jobs blocking_job with
          blocked_jobs := (s.jobs blocking_job).blocked_jobs ++ [blocked_job] } }
    let s2 := job_add_ref s1 blocked_job
    let s3 := { s2 with
      jobs := Function.update s2.jobs blocking_job
        { s2.jobs blocking_job with
          blocked_jobs_count := (s2.jobs blocking_job).blocked_jobs_count + 1 } }
    let s4 := { s3 with
      jobs := Function.update s3.jobs blocked_job
        { s3.jobs blocked_job with blocking_jobs := (s3.jobs blocked_job).blocking_jobs + 1 } }
    .ok (errno_t.EOK, s4)
  else .ok (errno_t.ENOMEM, { s with allocs := s.allocs + 1 })

/-- The label `finish` of the two visitors (job_closure.c:133-137, 174-179). -/
def visit_finish (rc : errno_t) (s : sysman_t) (created_job : Option Nat) :
    errno_t × sysman_t :=
  if rc ≠ errno_t.EOK then (rc, job_del_ref s created_job) else (rc, s)

/-- The function `visit_propagate_job` (job_closure.c:88-138); `e` is `none`
for a NULL edge.  `array_last` of an empty closure is a fault. -/
def visit_propagate_job (alloc : Nat → Bool) (ops : bfs_ops_t) (s : sysman_t) (u : Nat)
    (e : Option unit_edge_t) : result (errno_t × sysman_t) :=
  match e with
  | none =>
    if (s.units u).bfs_data ≠ none then .ok (visit_finish errno_t.EOK s none)
    else
      match s.closure.getLast? with
      | none => .fault
      | some first_job =>
        let s1 := job_add_ref s first_job
        let s2 := set_bfs_data s1 u (some first_job)
        .ok (visit_finish errno_t.EOK s2 none)
  | some e =>
    let job :=
      if ops.direction = bfs_direction.BFS_FORWARD then (s.units e.input).bfs_data
      else (s.units e.output).bfs_data
    match job with
    | none => .assertion_failed
    | some job =>
      match (s.units u).bfs_data with
      | none =>
        match job_create alloc s u (s.jobs job).target_state with
        | (none, s1) => .ok (visit_finish errno_t.ENOMEM s1 none)
        | (some created_job, s1) =>
          let r := array_append alloc s1 created_job
          if r.1 ≠ errno_t.EOK then .ok (visit_finish r.1 r.2 (some created_job))
          else
            let s2 := job_add_ref r.2 created_job
            let s3 := set_bfs_data s2 u (some created_job)
            (job_add_blocked_job alloc s3 created_job job).bind (fun x =>
              .ok (visit_finish x.1 x.2 (some created_job)))
      | some u_job =>
        (job_add_blocked_job alloc s u_job job).bind (fun x =>
          .ok (visit_finish x.1 x.2 none))

/-- The function `visit_isolate` (job_closure.c:140-180). -/
def visit_isolate (alloc : Nat → Bool) (ops : bfs_ops_t) (s : sysman_t) (u : Nat)
    (e : Option unit_edge_t) : result (errno_t × sysman_t) :=
  if e = none ∧ (s.units u).bfs_data = none then
    match job_create alloc s u unit_state_t.STATE_STOPPED with
    | (none, s1) => .ok (visit_finish errno_t.ENOMEM s1 none)
    | (some created_job, s1) =>
      let r := array_append alloc s1 created_job
      if r.1 ≠ errno_t.EOK then .ok (visit_finish r.1 r.2 (some created_job))
      else
        (visit_propagate_job alloc ops r.2 u e).bind (fun x =>
          .ok (visit_finish x.1 x.2 (some created_job)))
  else
    (visit_propagate_job alloc ops s u e).bind (fun x => .ok (visit_finish x.1 x.2 none))

/-- The call `ops->visit(u, e, ops, arg)`. -/
def ops_visit (alloc : Nat → Bool) (ops : bfs_ops_t) (s : sysman_t) (u : Nat)
    (e : Option unit_edge_t) : result (errno_t × sysman_t) :=
  match ops.visit with
  | .visit_propagate_job => visit_propagate_job alloc ops s u e
  | .visit_isolate => visit_isolate alloc ops s u e

/-- The function `traverse_clean` (job_closure.c:182-187). -/
def traverse_clean (s : sysman_t) (u : Nat) : sysman_t :=
  let job := (s.units u).bfs_data
  set_bfs_data (job_del_ref s job) u none

/-- The loops over the edges of one unit in
`bfs_traverse_component_internal` (job_closure.c:211-221, 223-233): the return
code of the last visit, the memory and the queue `units_fifo`. -/
def visit_edges (alloc : Nat → Bool) (ops : bfs_ops_t) :
    List unit_edge_t → sysman_t → List Nat → result (errno_t × sysman_t × List Nat)
  | [], s, units_fifo => .ok (errno_t.EOK, s, units_fifo)
  | e :: es, s, units_fifo =>
    let u := if ops.direction = bfs_direction.BFS_FORWARD then e.output else e.input
    let tagged := (s.units u).bfs_tag
    let s1 := if tagged then s else set_bfs_tag s u true
    let fifo1 := if tagged then units_fifo else units_fifo ++ [u]
    match ops_visit alloc ops s1 u (some e) with
    | .ok (rc, s2) =>
      if rc ≠ errno_t.EOK then .ok (rc, s2, fifo1) else visit_edges alloc ops es s2 fifo1
    | .assertion_failed => .assertion_failed
    | .fault => .fault
    | .out_of_fuel => .out_of_fuel

/-- The loop `while (!list_empty(&units_fifo))` of
`bfs_traverse_component_internal` (job_closure.c:205-236); the first argument
bounds the number of loop tests.  The result holds the queue as it is at the
label `finish`. -/
def bfs_loop (alloc : Nat → Bool) (ops : bfs_ops_t) :
    Nat → sysman_t → List Nat → result (errno_t × sysman_t × List Nat)
  | 0, _, _ => .out_of_fuel
  | _ + 1, s, [] => .ok (errno_t.EOK, s, [])
  | fuel + 1, s, unit :: rest =>
    let edges :=
      if ops.direction = bfs_direction.BFS_FORWARD then (s.units unit).edges_out
      else (s.units unit).edges_in
    match visit_edges alloc ops edges s rest with
    | .ok (rc, s1, fifo1) =>
      if rc ≠ errno_t.EOK then .ok (rc, s1, fifo1) else bfs_loop alloc ops fuel s1 fifo1
    | .assertion_failed => .assertion_failed
    | .fault => .fault
    | .out_of_fuel => .out_of_fuel

/-- The function `bfs_traverse_component_internal` (job_closure.c:189-247);
`fuel` bounds the number of tests of its `while` loop. -/
def bfs_traverse_component_internal (alloc : Nat → Bool) (ops : bfs_ops_t) (fuel : Nat)
    (s : sysman_t) (origin : Nat) : result (errno_t × sysman_t) :=
  (ops_visit alloc ops s origin none).bind (fun x =>
    if x.1 ≠ errno_t.EOK then .ok (x.1, x.2)
    else
      let s1 := set_bfs_tag x.2 origin true
      (bfs_loop alloc ops fuel s1 [origin]).bind (fun y =>
        .ok (y.1, y.2.2.foldl traverse_clean y.2.1)))

/-- The loop `repo_foreach(u) { u->bfs_tag = false; }`. -/
def clear_bfs_tags (s : sysman_t) : sysman_t :=
  s.repo.foldl (fun s1 u => set_bfs_tag s1 u false) s

/-- The check `repo_foreach(u) { assert(u->bfs_tag == false); }`. -/
def bfs_tags_clear (s : sysman_t) : Bool :=
  s.repo.all (fun u => (s.units u).bfs_tag = false)

/-- The function `bfs_traverse_component` (job_closure.c:249-262). -/
def bfs_traverse_component (alloc : Nat → Bool) (ops : bfs_ops_t) (fuel : Nat)
    (s : sysman_t) (origin : Nat) : result (errno_t × sysman_t) :=
  if bfs_tags_clear s then
    (bfs_traverse_component_internal alloc ops fuel s origin).bind (fun x =>
      .ok (x.1, clear_bfs_tags x.2))
  else .assertion_failed

/-- The loop over the origins in `bfs_traverse_all` (job_closure.c:272-281). -/
def bfs_traverse_all_loop (alloc : Nat → Bool) (ops : bfs_ops_t) (fuel : Nat) :
    List Nat → sysman_t → result (errno_t × sysman_t)
  | [], s => .ok (errno_t.EOK, s)
  | origin :: rest, s =>
    if (s.units origin).bfs_tag = true then bfs_traverse_all_loop alloc ops fuel rest s
    else
      match bfs_traverse_component_internal alloc ops fuel s origin with
      | .ok (rc, s1) =>
        if rc ≠ errno_t.EOK then .ok (rc, s1)
        else bfs_traverse_all_loop alloc ops fuel rest s1
      | .assertion_failed => .assertion_failed
      | .fault => .fault
      | .out_of_fuel => .out_of_fuel

/-- The function `bfs_traverse_all` (job_closure.c:264-289). -/
def bfs_traverse_all (alloc : Nat → Bool) (ops : bfs_ops_t) (fuel : Nat) (s : sysman_t) :
    result (errno_t × sysman_t) :=
  if bfs_tags_clear s then
    (bfs_traverse_all_loop alloc ops fuel s.repo s).bind (fun x =>
      .ok (x.1, clear_bfs_tags x.2))
  else .assertion_failed

/-- The final loop of `job_create_closure` (job_closure.c:352-357) over the
jobs of the closure that are left to visit. -/
def closure_clean : List Nat → sysman_t → result sysman_t
  | [], s => .ok s
  | job_it :: rest, s =>
    let j := (s.units (s.jobs job_it).unit).bfs_data
    if j = some job_it then
      closure_clean rest (set_bfs_data (job_del_ref s j) (s.jobs job_it).unit none)
    else .assertion_failed

/-- The function `job_create_closure` (job_closure.c:301-360) for the job at
address `main_job`; `fuel` bounds the number of loop tests of each traversal. -/
def job_create_closure (alloc : Nat → Bool) (fuel : Nat) (s : sysman_t) (main_job : Nat)
    (flags : Nat) : result (errno_t × sysman_t) :=
  if flags &&& CLOSURE_ISOLATE ≠ 0 ∧
      (s.jobs main_job).target_state ≠ unit_state_t.STATE_STARTED then
    .ok (errno_t.ENOTSUP, s)
  else
    let r := array_append alloc s main_job
    if r.1 ≠ errno_t.EOK then .ok (r.1, r.2)
    else
      let s1 := job_add_ref r.2 main_job
      let direction : Option bfs_direction :=
        match (s1.jobs main_job).target_state with
        | .STATE_STARTED => some bfs_direction.BFS_FORWARD
        | .STATE_STOPPED => some bfs_direction.BFS_BACKWARD
        | _ => none
      match direction with
      | none => .assertion_failed
      | some d =>
        (bfs_traverse_component alloc { direction := d, visit := .visit_propagate_job } fuel s1
            (s1.jobs main_job).unit).bind (fun x =>
          (if flags &&& CLOSURE_ISOLATE ≠ 0 then
              bfs_traverse_all alloc
                { direction := bfs_direction.BFS_BACKWARD, visit := .visit_isolate } fuel x.2
            else .ok x).bind (fun y =>
            (closure_clean y.2.closure y.2).bind (fun s2 => .ok (y.1, s2))))

/-- A sample repository: unit 1 has edges to unit 2 and to unit 3, and the
job at address 100 is a request to start unit 1.  No unit has a tag or a job,
and the closure is empty. -/
def sample_sysman : sysman_t :=
  { units := fun u =>
      if u = 1 then
        { bfs_tag := false, bfs_data := none, edges_in := [],
          edges_out := [{ input := 1, output := 2 }, { input := 1, output := 3 }] }
      else if u = 2 then
        { bfs_tag := false, bfs_data := none, edges_in := [{ input := 1, output := 2 }],
          edges_out := [] }
      else
        { bfs_tag := false, bfs_data := none, edges_in := [{ input := 1, output := 3 }],
          edges_out := [] }
    jobs := fun _ =>
      { unit := 1, target_state := unit_state_t.STATE_STARTED, blocked_jobs := [],
        blocked_jobs_count := 0, blocking_jobs := 0, refcnt := 1 }
    repo := [1, 2, 3]
    closure := []
    next_job := 101
    allocs := 0 }

/-- Every allocation succeeds. -/
def alloc_always (_ : Nat) : Bool := true

/-- Every allocation succeeds except request number 4, counted from 0; in the
sample that is the `job_create` for unit 3. -/
def alloc_fifth_fails (n : Nat) : Bool := decide (n ≠ 4)

end JobClosure

namespace Xhci

open usb_transfer_type_t

/-- A controller with three pending transfers: a control transfer without data
tracked under 0x2020, then a 512-byte bulk transfer and a control transfer with
a buffer of 0 bytes, both tracked under 0x2010. -/
def sample_pending_duplicate : xhci_hc_t :=
  { transfers :=
      [{ batch := sample_control_nodata, hc_buffer := 0, direction := 0,
         interrupt_trb_phys := 0x2020 },
       { batch := sample_data USB_TRANSFER_BULK 0, hc_buffer := 0x1000, direction := 0,
         interrupt_trb_phys := 0x2010 },
       { batch := sample_control_nodata, hc_buffer := 0, direction := 0,
         interrupt_trb_phys := 0x2010 }],
    calls := [] }

end Xhci

namespace Adt.SizeT

open Xhci.errno_t

/-- The number of bytes of the block behind `da->_data`: the byte count that
the last `array_realloc` handed to `realloc`, 0 for the NULL buffer of a fresh
array.  `word_bits` is the width of `size_t`. -/
def block_size {α : Type} (word_bits : Nat) (da : array_t α) : Nat :=
  (da._item_size * da.capacity) % 2 ^ word_bits

/-- The function `array_realloc` (array.c:46-58) with the `size_t` arithmetic
of the source: the byte count `da->_item_size * capacity` handed to `realloc`
wraps modulo `2 ^ word_bits`.  `r` is the outcome of the call of `realloc`, if
one is made: `none` when it returns NULL, and otherwise the content of memory
outside the bytes that `realloc` preserves.  A slot keeps its item when it lies
inside both the old and the new block. -/
def array_realloc {α : Type} (word_bits : Nat) (r : Option (Nat → α)) (da : array_t α)
    (capacity : Nat) : Xhci.errno_t × array_t α :=
  if capacity = da.capacity then (EOK, da)
  else
    let bytes := (da._item_size * capacity) % 2 ^ word_bits
    match r with
    | some fresh =>
      (EOK, { da with
        _data := fun i =>
          if (i + 1) * da._item_size ≤ min (block_size word_bits da) bytes then da._data i
          else fresh i
        capacity := capacity })
    | none => (ENOMEM, da)

/-- The function `array_reserve` (array.c:131-144) with the `size_t`
arithmetic of the source, for an argument `capacity` below `2 ^ word_bits`: the
product `da->capacity * factor` wraps. -/
def array_reserve {α : Type} (word_bits : Nat) (r : Option (Nat → α)) (da : array_t α)
    (capacity : Nat) : Xhci.errno_t × array_t α :=
  let factor := 2
  let new_capacity :=
    if capacity > da.capacity then max ((da.capacity * factor) % 2 ^ word_bits) capacity
    else if capacity < da.capacity / factor then min (da.capacity / factor) capacity
    else capacity
  array_realloc word_bits r da new_capacity

/-- The function `array_remove` (array.c:68-74) on top of `array_reserve` with
the `size_t` arithmetic of the source; `none` when one of its two assertions
fails. -/
def array_remove {α : Type} (word_bits : Nat) (r : Option (Nat → α)) (da : array_t α)
    (index : Nat) : Option (array_t α) :=
  if index < da.size then
    let da1 := _array_unshift da index 1
    let rc := array_reserve word_bits r da1 da1.size
    if rc.1 = EOK then some rc.2 else none
  else none

end Adt.SizeT

namespace Xhci

open errno_t usb_transfer_type_t

/-! ## Auxiliary facts -/

theorem enqueued_append (a b : List hc_call) :
    enqueued (a ++ b) = enqueued a ++ enqueued b := by
  induction a with
  | nil => rfl
  | cons c cs ih => cases c <;> simp [enqueued, ih]

theorem doorbells_append (a b : List hc_call) :
    doorbells (a ++ b) = doorbells a ++ doorbells b := by
  induction a with
  | nil => rfl
  | cons c cs ih => cases c <;> simp [doorbells, ih]

theorem finished_append (a b : List hc_call) :
    finished (a ++ b) = finished a ++ finished b := by
  induction a with
  | nil => rfl
  | cons c cs ih => cases c <;> simp [finished, ih]

theorem configured_append (a b : List hc_call) :
    configured (a ++ b) = configured a ++ configured b := by
  induction a with
  | nil => rfl
  | cons c cs ih => cases c <;> simp [configured, ih]

theorem xhci_transfer_alloc_of_succeeds (env : xhci_env) (hc : xhci_hc_t)
    (batch : usb_transfer_batch_t) (h : alloc_succeeds env hc batch) :
    ∃ (pre : List hc_call) (buf : Nat),
      xhci_transfer_alloc env hc batch =
        ({ transfers := hc.transfers, calls := hc.calls ++ pre },
          some { batch := batch, hc_buffer := buf, direction := 0, interrupt_trb_phys := 0 }) ∧
      enqueued pre = [] ∧ doorbells pre = [] ∧ finished pre = [] ∧ configured pre = [] ∧
      ¬ (buf = 0 ∧ batch.buffer_size > 0) := by
  obtain ⟨hm, hb⟩ := h
  by_cases hs : batch.buffer_size > 0
  · have hne := hb hs
    refine ⟨[.malloc true, .malloc32 batch.buffer_size
        (env.malloc32 (hc.calls ++ [.malloc true]) batch.buffer_size)],
      env.malloc32 (hc.calls ++ [.malloc true]) batch.buffer_size, ?_, rfl, rfl, rfl, rfl, ?_⟩
    · simp [xhci_transfer_alloc, hm, hs, xhci_hc_t.call]
    · exact fun h => hne h.1
  · refine ⟨[.malloc true], 0, ?_, rfl, rfl, rfl, rfl, fun h => hs h.2⟩
    simp [xhci_transfer_alloc, hm, hs, xhci_hc_t.call]

theorem xhci_schedule_control_transfer_accepted (env : xhci_env) (hc : xhci_hc_t)
    (batch : usb_transfer_batch_t) (hsetup : batch.setup_size ≠ 0)
    (hctl : batch.ep.transfer_type = USB_TRANSFER_CONTROL)
    (halloc : alloc_succeeds env hc batch) :
    ∃ (pre : List hc_call) (transfer : xhci_transfer_t) (a1 a2 a3 : errno_t × Nat)
      (rc : errno_t),
      enqueued pre = [] ∧ doorbells pre = [] ∧ finished pre = [] ∧ configured pre = [] ∧
      xhci_schedule_control_transfer env hc batch =
        some (rc,
          { transfers := hc.transfers ++ [transfer],
            calls := hc.calls ++ pre ++
              [.xhci_trb_ring_enqueue batch.ep.slot_id batch.ep.target_endpoint
                (control_trb_setup batch.setup_buffer) a1.1 a1.2] ++
              (if batch.setup_buffer.length > 0 then
                [.xhci_trb_ring_enqueue batch.ep.slot_id batch.ep.target_endpoint
                  (control_trb_data env batch batch.setup_buffer transfer) a2.1 a2.2]
               else []) ++
              [.xhci_trb_ring_enqueue batch.ep.slot_id batch.ep.target_endpoint
                (control_trb_status batch.setup_buffer) a3.1 a3.2] ++
              (if configure_endpoint_needed batch.setup_buffer then
                [.xhci_device_configure batch.ep.slot_id] else []) ++
              [.hc_ring_doorbell batch.ep.slot_id
                ((env.xhci_endpoint_index batch.ep + 1) % 256) rc] }) ∧
      transfer.batch = batch ∧
      transfer.interrupt_trb_phys = a3.2 ∧
      transfer.direction =
        (if batch.setup_buffer.length > 0 then control_data_direction batch.setup_buffer
         else 0) := by
  obtain ⟨pre, buf, he, henq, hdb, hfin, hcfg0, hbuf⟩ :=
    xhci_transfer_alloc_of_succeeds env hc batch halloc
  have hm : memcpy { transfers := hc.transfers, calls := hc.calls ++ pre } buf batch.buffer
      batch.buffer_size =
      some { transfers := hc.transfers
             calls := hc.calls ++ pre ++ [.memcpy buf batch.buffer batch.buffer_size] } := by
    simp [memcpy, hbuf, xhci_hc_t.call]
  have hpre1 : enqueued (pre ++ [.memcpy buf batch.buffer batch.buffer_size]) = [] := by
    simp [enqueued_append, henq, enqueued]
  have hpre2 : doorbells (pre ++ [.memcpy buf batch.buffer batch.buffer_size]) = [] := by
    simp [doorbells_append, hdb, doorbells]
  have hpre3 : finished (pre ++ [.memcpy buf batch.buffer batch.buffer_size]) = [] := by
    simp [finished_append, hfin, finished]
  have hpre4 : configured (pre ++ [.memcpy buf batch.buffer batch.buffer_size]) = [] := by
    simp [configured_append, hcfg0, configured]
  by_cases hl : batch.setup_buffer.length > 0
  · let c0 := hc.calls ++ pre ++ [.memcpy buf batch.buffer batch.buffer_size]
    let t0 : xhci_transfer_t :=
      { batch := batch, hc_buffer := buf, direction := 0, interrupt_trb_phys := 0 }
    let a1 := env.xhci_trb_ring_enqueue c0 batch.ep.slot_id batch.ep.target_endpoint
      (control_trb_setup batch.setup_buffer) 0
    let c1 := c0 ++ [.xhci_trb_ring_enqueue batch.ep.slot_id batch.ep.target_endpoint
      (control_trb_setup batch.setup_buffer) a1.1 a1.2]
    let a2 := env.xhci_trb_ring_enqueue c1 batch.ep.slot_id batch.ep.target_endpoint
      (control_trb_data env batch batch.setup_buffer t0) a1.2
    let c2 := c1 ++ [.xhci_trb_ring_enqueue batch.ep.slot_id batch.ep.target_endpoint
      (control_trb_data env batch batch.setup_buffer t0) a2.1 a2.2]
    let a3 := env.xhci_trb_ring_enqueue c2 batch.ep.slot_id batch.ep.target_endpoint
      (control_trb_status batch.setup_buffer) 0
    let c3 := c2 ++ [.xhci_trb_ring_enqueue batch.ep.slot_id batch.ep.target_endpoint
      (control_trb_status batch.setup_buffer) a3.1 a3.2]
    let c4 := c3 ++ (if configure_endpoint_needed batch.setup_buffer then
      [.xhci_device_configure batch.ep.slot_id] else [])
    refine ⟨pre ++ [.memcpy buf batch.buffer batch.buffer_size],
      { t0 with direction := control_data_direction batch.setup_buffer
                interrupt_trb_phys := a3.2 },
      a1, a2, a3,
      env.hc_ring_doorbell c4 batch.ep.slot_id ((env.xhci_endpoint_index batch.ep + 1) % 256),
      hpre1, hpre2, hpre3, hpre4, ?_, rfl, rfl, by simp [hl]⟩
    simp only [xhci_schedule_control_transfer, hsetup, hctl, he, hm,
      xhci_trb_ring_enqueue, hc_ring_doorbell, xhci_hc_t.call, hl]
    by_cases hcfg : configure_endpoint_needed batch.setup_buffer = true
    · simp [hcfg, c4, c3, c2, c1, c0, a1, a2, a3, t0, control_trb_data]
    · simp [hcfg, c4, c3, c2, c1, c0, a1, a2, a3, t0, control_trb_data]
  · let c0 := hc.calls ++ pre ++ [.memcpy buf batch.buffer batch.buffer_size]
    let t0 : xhci_transfer_t :=
      { batch := batch, hc_buffer := buf, direction := 0, interrupt_trb_phys := 0 }
    let a1 := env.xhci_trb_ring_enqueue c0 batch.ep.slot_id batch.ep.target_endpoint
      (control_trb_setup batch.setup_buffer) 0
    let c1 := c0 ++ [.xhci_trb_ring_enqueue batch.ep.slot_id batch.ep.target_endpoint
      (control_trb_setup batch.setup_buffer) a1.1 a1.2]
    let a3 := env.xhci_trb_ring_enqueue c1 batch.ep.slot_id batch.ep.target_endpoint
      (control_trb_status batch.setup_buffer) 0
    let c3 := c1 ++ [.xhci_trb_ring_enqueue batch.ep.slot_id batch.ep.target_endpoint
      (control_trb_status batch.setup_buffer) a3.1 a3.2]
    let c4 := c3 ++ (if configure_endpoint_needed batch.setup_buffer then
      [.xhci_device_configure batch.ep.slot_id] else [])
    refine ⟨pre ++ [.memcpy buf batch.buffer batch.buffer_size],
      { t0 with interrupt_trb_phys := a3.2 },
      a1, a1, a3,
      env.hc_ring_doorbell c4 batch.ep.slot_id ((env.xhci_endpoint_index batch.ep + 1) % 256),
      hpre1, hpre2, hpre3, hpre4, ?_, rfl, rfl, by simp [hl, t0]⟩
    simp only [xhci_schedule_control_transfer, hsetup, hctl, he, hm,
      xhci_trb_ring_enqueue, hc_ring_doorbell, xhci_hc_t.call, hl]
    by_cases hcfg : configure_endpoint_needed batch.setup_buffer = true
    · simp [hcfg, c4, c3, c1, c0, a1, a3, t0]
    · simp [hcfg, c4, c3, c1, c0, a1, a3, t0]

theorem warn_setup_transfers (hc : xhci_hc_t) (batch : usb_transfer_batch_t) :
    (warn_setup hc batch).transfers = hc.transfers := by
  unfold warn_setup
  split <;> rfl

theorem warn_setup_enqueued (hc : xhci_hc_t) (batch : usb_transfer_batch_t) :
    enqueued (warn_setup hc batch).calls = enqueued hc.calls := by
  unfold warn_setup
  split <;> simp [xhci_hc_t.call, enqueued_append, enqueued]

theorem warn_setup_doorbells (hc : xhci_hc_t) (batch : usb_transfer_batch_t) :
    doorbells (warn_setup hc batch).calls = doorbells hc.calls := by
  unfold warn_setup
  split <;> simp [xhci_hc_t.call, doorbells_append, doorbells]

theorem warn_setup_calls (hc : xhci_hc_t) (batch : usb_transfer_batch_t)
    (h : batch.setup_size > 0) :
    (warn_setup hc batch).calls = hc.calls ++ [.usb_log_warning] := by
  have h0 : batch.setup_size ≠ 0 := by omega
  simp [warn_setup, h0, xhci_hc_t.call]

theorem xhci_schedule_bulk_transfer_accepted (env : xhci_env) (hc : xhci_hc_t)
    (batch : usb_transfer_batch_t)
    (htype : batch.ep.transfer_type = USB_TRANSFER_BULK)
    (halloc : alloc_succeeds env (warn_setup hc batch) batch) :
    ∃ (pre : List hc_call) (transfer : xhci_transfer_t) (a : errno_t × Nat) (rc : errno_t),
      enqueued pre = [] ∧ doorbells pre = [] ∧ finished pre = [] ∧
      xhci_schedule_bulk_transfer env hc batch =
        some (rc,
          { transfers := hc.transfers ++ [transfer],
            calls := (warn_setup hc batch).calls ++ pre ++
              [.xhci_trb_ring_enqueue batch.ep.slot_id batch.ep.target_endpoint
                (normal_trb env batch transfer) a.1 a.2,
               .hc_ring_doorbell batch.ep.slot_id
                ((env.xhci_endpoint_index batch.ep + 1) % 256) rc] }) ∧
      transfer.batch = batch ∧
      transfer.interrupt_trb_phys = a.2 := by
  obtain ⟨pre, buf, he, henq, hdb, hfin, hcfg0, hbuf⟩ :=
    xhci_transfer_alloc_of_succeeds env (warn_setup hc batch) batch halloc
  have htr : (warn_setup hc batch).transfers = hc.transfers := by
    unfold warn_setup
    split <;> rfl
  have hm : memcpy { transfers := (warn_setup hc batch).transfers,
                     calls := (warn_setup hc batch).calls ++ pre } buf batch.buffer
      batch.buffer_size =
      some { transfers := (warn_setup hc batch).transfers
             calls := (warn_setup hc batch).calls ++ pre ++
               [.memcpy buf batch.buffer batch.buffer_size] } := by
    simp [memcpy, hbuf, xhci_hc_t.call]
  let c0 := (warn_setup hc batch).calls ++ pre ++ [.memcpy buf batch.buffer batch.buffer_size]
  let t0 : xhci_transfer_t :=
    { batch := batch, hc_buffer := buf, direction := 0, interrupt_trb_phys := 0 }
  let a := env.xhci_trb_ring_enqueue c0 batch.ep.slot_id batch.ep.target_endpoint
    (normal_trb env batch t0) 0
  let c1 := c0 ++ [.xhci_trb_ring_enqueue batch.ep.slot_id batch.ep.target_endpoint
    (normal_trb env batch t0) a.1 a.2]
  refine ⟨pre ++ [.memcpy buf batch.buffer batch.buffer_size],
    { t0 with interrupt_trb_phys := a.2 }, a,
    env.hc_ring_doorbell c1 batch.ep.slot_id ((env.xhci_endpoint_index batch.ep + 1) % 256),
    ?_, ?_, ?_, ?_, rfl, rfl⟩
  · simp [enqueued_append, henq, enqueued]
  · simp [doorbells_append, hdb, doorbells]
  · simp [finished_append, hfin, finished]
  · simp only [xhci_schedule_bulk_transfer, htype, he, hm,
      xhci_trb_ring_enqueue, hc_ring_doorbell, xhci_hc_t.call]
    simp [c1, c0, a, t0, normal_trb, htr]

theorem xhci_schedule_interrupt_transfer_accepted (env : xhci_env) (hc : xhci_hc_t)
    (batch : usb_transfer_batch_t)
    (htype : batch.ep.transfer_type = USB_TRANSFER_INTERRUPT)
    (halloc : alloc_succeeds env (warn_setup hc batch) batch) :
    ∃ (pre : List hc_call) (transfer : xhci_transfer_t) (a : errno_t × Nat) (rc : errno_t),
      enqueued pre = [] ∧ doorbells pre = [] ∧ finished pre = [] ∧
      xhci_schedule_interrupt_transfer env hc batch =
        some (rc,
          { transfers := hc.transfers ++ [transfer],
            calls := (warn_setup hc batch).calls ++ pre ++
              [.xhci_trb_ring_enqueue batch.ep.slot_id batch.ep.target_endpoint
                (normal_trb env batch transfer) a.1 a.2,
               .hc_ring_doorbell batch.ep.slot_id
                ((env.xhci_endpoint_index batch.ep + 1) % 256) rc] }) ∧
      transfer.batch = batch ∧
      transfer.interrupt_trb_phys = a.2 := by
  obtain ⟨pre, buf, he, henq, hdb, hfin, hcfg0, hbuf⟩ :=
    xhci_transfer_alloc_of_succeeds env (warn_setup hc batch) batch halloc
  have htr : (warn_setup hc batch).transfers = hc.transfers := by
    unfold warn_setup
    split <;> rfl
  have hm : memcpy { transfers := (warn_setup hc batch).transfers,
                     calls := (warn_setup hc batch).calls ++ pre } buf batch.buffer
      batch.buffer_size =
      some { transfers := (warn_setup hc batch).transfers
             calls := (warn_setup hc batch).calls ++ pre ++
               [.memcpy buf batch.buffer batch.buffer_size] } := by
    simp [memcpy, hbuf, xhci_hc_t.call]
  let c0 := (warn_setup hc batch).calls ++ pre ++ [.memcpy buf batch.buffer batch.buffer_size]
  let t0 : xhci_transfer_t :=
    { batch := batch, hc_buffer := buf, direction := 0, interrupt_trb_phys := 0 }
  let a := env.xhci_trb_ring_enqueue c0 batch.ep.slot_id batch.ep.target_endpoint
    (normal_trb env batch t0) 0
  let c1 := c0 ++ [.xhci_trb_ring_enqueue batch.ep.slot_id batch.ep.target_endpoint
    (normal_trb env batch t0) a.1 a.2]
  refine ⟨pre ++ [.memcpy buf batch.buffer batch.buffer_size],
    { t0 with interrupt_trb_phys := a.2 }, a,
    env.hc_ring_doorbell c1 batch.ep.slot_id ((env.xhci_endpoint_index batch.ep + 1) % 256),
    ?_, ?_, ?_, ?_, rfl, rfl⟩
  · simp [enqueued_append, henq, enqueued]
  · simp [doorbells_append, hdb, doorbells]
  · simp [finished_append, hfin, finished]
  · simp only [xhci_schedule_interrupt_transfer, htype, he, hm,
      xhci_trb_ring_enqueue, hc_ring_doorbell, xhci_hc_t.call]
    simp [c1, c0, a, t0, normal_trb, htr]

theorem find_transfer_some (addr : Nat) (l : List xhci_transfer_t) (i : Nat)
    (t : xhci_transfer_t) (h : find_transfer addr l = some (i, t)) :
    ∃ l1 l2 : List xhci_transfer_t,
      l = l1 ++ t :: l2 ∧ l1.length = i ∧ (∀ x ∈ l1, x.interrupt_trb_phys ≠ addr) ∧
      t.interrupt_trb_phys = addr ∧ l.eraseIdx i = l1 ++ l2 := by
  induction l generalizing i with
  | nil => simp [find_transfer] at h
  | cons x xs ih =>
    unfold find_transfer at h
    by_cases hx : x.interrupt_trb_phys = addr
    · simp only [hx, if_true, Option.some.injEq, Prod.mk.injEq] at h
      obtain ⟨hi, ht⟩ := h
      subst hi ht
      exact ⟨[], xs, rfl, rfl, by simp, hx, rfl⟩
    · simp only [hx, if_false, Option.map_eq_some'] at h
      obtain ⟨⟨j, u⟩, hj, hju⟩ := h
      simp only [Prod.mk.injEq] at hju
      obtain ⟨hi, ht⟩ := hju
      subst hi ht
      obtain ⟨l1, l2, e, hlen, hne, hu, her⟩ := ih j hj
      refine ⟨x :: l1, l2, by simp [e], by simp [hlen], ?_, hu, by simp [her]⟩
      intro y hy
      rcases List.mem_cons.mp hy with rfl | hy
      · exact hx
      · exact hne y hy

theorem find_transfer_none (addr : Nat) (l : List xhci_transfer_t)
    (h : ∀ x ∈ l, x.interrupt_trb_phys ≠ addr) : find_transfer addr l = none := by
  induction l with
  | nil => rfl
  | cons x xs ih =>
    have hx : x.interrupt_trb_phys ≠ addr := h x (by simp)
    have hxs := ih (fun y hy => h y (by simp [hy]))
    simp [find_transfer, hx, hxs]

theorem find_transfer_of_mem (addr : Nat) (l : List xhci_transfer_t)
    (h : ∃ x ∈ l, x.interrupt_trb_phys = addr) :
    ∃ i t, find_transfer addr l = some (i, t) := by
  induction l with
  | nil => simp at h
  | cons x xs ih =>
    by_cases hx : x.interrupt_trb_phys = addr
    · exact ⟨0, x, by simp [find_transfer, hx]⟩
    · obtain ⟨y, hy, hya⟩ := h
      rcases List.mem_cons.mp hy with rfl | hy
      · exact absurd hya hx
      · obtain ⟨i, t, hit⟩ := ih ⟨y, hy, hya⟩
        exact ⟨i + 1, t, by simp [find_transfer, hx, hit]⟩

theorem xhci_transfer_fini_finished (hc : xhci_hc_t) (transfer : xhci_transfer_t) :
    (xhci_transfer_fini hc transfer).transfers = hc.transfers ∧
    finished (xhci_transfer_fini hc transfer).calls = finished hc.calls := by
  unfold xhci_transfer_fini
  by_cases hb : transfer.batch.buffer_size > 0 <;>
    simp [hb, xhci_hc_t.call, finished_append, finished]

theorem xhci_handle_transfer_event_match (env : xhci_env) (hc : xhci_hc_t) (trb : xhci_trb_t)
    (h : ∃ x ∈ hc.transfers, x.interrupt_trb_phys = event_addr env trb) :
    ∃ (t : xhci_transfer_t) (hc' : xhci_hc_t),
      t ∈ hc.transfers ∧
      t.interrupt_trb_phys = event_addr env trb ∧
      xhci_handle_transfer_event env hc trb = (EOK, hc') ∧
      finished hc'.calls = finished hc.calls ++
        [(t.batch, t.hc_buffer, completion_size env t.batch trb, completion_err trb)] := by
  obtain ⟨i, t, hf⟩ := find_transfer_of_mem _ _ h
  obtain ⟨l1, l2, e, _, _, ht, _⟩ := find_transfer_some _ _ _ _ hf
  refine ⟨t,
    xhci_transfer_fini
      (xhci_hc_t.call { hc with transfers := hc.transfers.eraseIdx i }
        (.usb_transfer_batch_finish_error t.batch t.hc_buffer
          (completion_size env t.batch trb) (completion_err trb))) t,
    by simp [e], ht, ?_, ?_⟩
  · simp only [xhci_handle_transfer_event, hf]
  · simp [(xhci_transfer_fini_finished _ _).2, xhci_hc_t.call, finished_append, finished]

theorem completion_size_of_le (env : xhci_env) (batch : usb_transfer_batch_t)
    (trb : xhci_trb_t) (hrem : TRB_TRANSFER_LENGTH trb ≤ batch.buffer_size)
    (hsz : batch.buffer_size < 2 ^ env.word_bits) :
    completion_size env batch trb = batch.buffer_size - TRB_TRANSFER_LENGTH trb := by
  unfold completion_size
  have h1 : ((batch.buffer_size : Int) - (TRB_TRANSFER_LENGTH trb : Int))
      = ((batch.buffer_size - TRB_TRANSFER_LENGTH trb : Nat) : Int) := by
    rw [Nat.cast_sub hrem]
  have h2 : ((2 : Int) ^ env.word_bits) = ((2 ^ env.word_bits : Nat) : Int) := by
    push_cast
    rfl
  rw [h1, h2, ← Int.natCast_mod, Int.toNat_natCast]
  apply Nat.mod_eq_of_lt
  omega

theorem find_transfer_first (addr : Nat) (l1 l2 : List xhci_transfer_t) (t : xhci_transfer_t)
    (hfirst : ∀ x ∈ l1, x.interrupt_trb_phys ≠ addr) (ht : t.interrupt_trb_phys = addr) :
    find_transfer addr (l1 ++ t :: l2) = some (l1.length, t) := by
  induction l1 with
  | nil => simp [find_transfer, ht]
  | cons x xs ih =>
    have hx : x.interrupt_trb_phys ≠ addr := hfirst x (List.mem_cons_self x xs)
    have hxs : ∀ y ∈ xs, y.interrupt_trb_phys ≠ addr :=
      fun y hy => hfirst y (List.mem_cons_of_mem x hy)
    simp [find_transfer, hx, ih hxs]

/-! ## Control transfers -/

/-- C1: for every control batch that `xhci_schedule_control_transfer` accepts
(setup packet present, control endpoint; the allocation of the transfer
succeeds), the call returns, and the descriptors it hands to the ring of the
batch's endpoint are exactly Setup, Status when wLength is 0 and exactly Setup,
Data, Status, in that order, when wLength > 0.  The transfer is appended to the
pending list once, and its `interrupt_trb_phys` is the address the ring
returned for the Status descriptor. -/
theorem control_transfer_stages (env : xhci_env) (hc : xhci_hc_t)
    (batch : usb_transfer_batch_t) (hsetup : batch.setup_size ≠ 0)
    (hctl : batch.ep.transfer_type = USB_TRANSFER_CONTROL)
    (halloc : alloc_succeeds env hc batch) :
    ∃ (rc : errno_t) (hc' : xhci_hc_t) (transfer : xhci_transfer_t)
      (a1 a2 a3 : errno_t × Nat),
      xhci_schedule_control_transfer env hc batch = some (rc, hc') ∧
      (batch.setup_buffer.length = 0 →
        enqueued hc'.calls = enqueued hc.calls ++
          [(batch.ep.slot_id, batch.ep.target_endpoint,
              control_trb_setup batch.setup_buffer, a1),
           (batch.ep.slot_id, batch.ep.target_endpoint,
              control_trb_status batch.setup_buffer, a3)]) ∧
      (batch.setup_buffer.length > 0 →
        enqueued hc'.calls = enqueued hc.calls ++
          [(batch.ep.slot_id, batch.ep.target_endpoint,
              control_trb_setup batch.setup_buffer, a1),
           (batch.ep.slot_id, batch.ep.target_endpoint,
              control_trb_data env batch batch.setup_buffer transfer, a2),
           (batch.ep.slot_id, batch.ep.target_endpoint,
              control_trb_status batch.setup_buffer, a3)] ∧
        (control_trb_data env batch batch.setup_buffer transfer).trb_type
          = XHCI_TRB_TYPE_DATA_STAGE) ∧
      (control_trb_setup batch.setup_buffer).trb_type = XHCI_TRB_TYPE_SETUP_STAGE ∧
      (control_trb_status batch.setup_buffer).trb_type = XHCI_TRB_TYPE_STATUS_STAGE ∧
      transfer.interrupt_trb_phys = a3.2 ∧
      transfer.batch = batch ∧
      hc'.transfers = hc.transfers ++ [transfer] := by
  obtain ⟨pre, transfer, a1, a2, a3, rc, h1, _, _, _, he, hb, hp, _⟩ :=
    xhci_schedule_control_transfer_accepted env hc batch hsetup hctl halloc
  refine ⟨rc, _, transfer, a1, a2, a3, he, ?_, ?_, rfl, rfl, hp, hb, rfl⟩
  · intro h0
    have hl : ¬ batch.setup_buffer.length > 0 := by omega
    by_cases hcfg : configure_endpoint_needed batch.setup_buffer = true <;>
      simp [enqueued_append, enqueued, h1, hl, hcfg]
  · intro hl
    refine ⟨?_, by simp [control_trb_data, hl]⟩
    by_cases hcfg : configure_endpoint_needed batch.setup_buffer = true <;>
      simp [enqueued_append, enqueued, h1, hl, hcfg]

/-- Witness for C1: the sample device-to-host request with wLength 64. -/
theorem control_transfer_stages_witness :
    sample_control_in.setup_size ≠ 0 ∧
    sample_control_in.ep.transfer_type = USB_TRANSFER_CONTROL ∧
    alloc_succeeds sample_env sample_hc sample_control_in ∧
    ∃ (rc : errno_t) (hc' : xhci_hc_t) (transfer : xhci_transfer_t)
      (a1 a2 a3 : errno_t × Nat),
      xhci_schedule_control_transfer sample_env sample_hc sample_control_in = some (rc, hc') ∧
      (sample_control_in.setup_buffer.length = 0 →
        enqueued hc'.calls = enqueued sample_hc.calls ++
          [(sample_control_in.ep.slot_id, sample_control_in.ep.target_endpoint,
              control_trb_setup sample_control_in.setup_buffer, a1),
           (sample_control_in.ep.slot_id, sample_control_in.ep.target_endpoint,
              control_trb_status sample_control_in.setup_buffer, a3)]) ∧
      (sample_control_in.setup_buffer.length > 0 →
        enqueued hc'.calls = enqueued sample_hc.calls ++
          [(sample_control_in.ep.slot_id, sample_control_in.ep.target_endpoint,
              control_trb_setup sample_control_in.setup_buffer, a1),
           (sample_control_in.ep.slot_id, sample_control_in.ep.target_endpoint,
              control_trb_data sample_env sample_control_in sample_control_in.setup_buffer transfer, a2),
           (sample_control_in.ep.slot_id, sample_control_in.ep.target_endpoint,
              control_trb_status sample_control_in.setup_buffer, a3)] ∧
        (control_trb_data sample_env sample_control_in sample_control_in.setup_buffer transfer).trb_type
          = XHCI_TRB_TYPE_DATA_STAGE) ∧
      (control_trb_setup sample_control_in.setup_buffer).trb_type = XHCI_TRB_TYPE_SETUP_STAGE ∧
      (control_trb_status sample_control_in.setup_buffer).trb_type = XHCI_TRB_TYPE_STATUS_STAGE ∧
      transfer.interrupt_trb_phys = a3.2 ∧
      transfer.batch = sample_control_in ∧
      hc'.transfers = sample_hc.transfers ++ [transfer] :=
  ⟨by decide, by decide, by decide,
    control_transfer_stages sample_env sample_hc sample_control_in
      (by decide) (by decide) (by decide)⟩

/-- C2: whenever `xhci_schedule_control_transfer` produces a Data stage
(wLength > 0), the direction of the Data descriptor is IN if bit 0x80 of
bmRequestType is set and OUT otherwise, and the direction recorded in the
transfer is that value. -/
theorem control_data_stage_direction (env : xhci_env) (hc : xhci_hc_t)
    (batch : usb_transfer_batch_t) (hsetup : batch.setup_size ≠ 0)
    (hctl : batch.ep.transfer_type = USB_TRANSFER_CONTROL)
    (halloc : alloc_succeeds env hc batch)
    (hlen : batch.setup_buffer.length > 0) :
    ∃ (rc : errno_t) (hc' : xhci_hc_t) (transfer : xhci_transfer_t) (data : xhci_trb_t)
      (a1 a2 a3 : errno_t × Nat),
      xhci_schedule_control_transfer env hc batch = some (rc, hc') ∧
      hc'.transfers = hc.transfers ++ [transfer] ∧
      enqueued hc'.calls = enqueued hc.calls ++
        [(batch.ep.slot_id, batch.ep.target_endpoint,
            control_trb_setup batch.setup_buffer, a1),
         (batch.ep.slot_id, batch.ep.target_endpoint, data, a2),
         (batch.ep.slot_id, batch.ep.target_endpoint,
            control_trb_status batch.setup_buffer, a3)] ∧
      data.trb_type = XHCI_TRB_TYPE_DATA_STAGE ∧
      data.dir = (if batch.setup_buffer.request_type &&& 0x80 ≠ 0 then STAGE_IN
                  else STAGE_OUT) ∧
      transfer.direction = data.dir := by
  obtain ⟨pre, transfer, a1, a2, a3, rc, h1, _, _, _, he, _, _, hd⟩ :=
    xhci_schedule_control_transfer_accepted env hc batch hsetup hctl halloc
  refine ⟨rc, _, transfer, control_trb_data env batch batch.setup_buffer transfer,
    a1, a2, a3, he, rfl, ?_, ?_, ?_, ?_⟩
  · by_cases hcfg : configure_endpoint_needed batch.setup_buffer = true <;>
      simp [enqueued_append, enqueued, h1, hlen, hcfg]
  · simp [control_trb_data, hlen]
  · simp [control_trb_data, hlen, control_data_direction, REQUEST_TYPE_IS_DEVICE_TO_HOST,
      REQUEST_TYPE_DTD]
  · simp [hd, control_trb_data, hlen]

/-- Witness for C2: the sample device-to-host request with wLength 64. -/
theorem control_data_stage_direction_witness :
    sample_control_in.setup_size ≠ 0 ∧
    sample_control_in.ep.transfer_type = USB_TRANSFER_CONTROL ∧
    alloc_succeeds sample_env sample_hc sample_control_in ∧
    sample_control_in.setup_buffer.length > 0 ∧
    ∃ (rc : errno_t) (hc' : xhci_hc_t) (transfer : xhci_transfer_t) (data : xhci_trb_t)
      (a1 a2 a3 : errno_t × Nat),
      xhci_schedule_control_transfer sample_env sample_hc sample_control_in = some (rc, hc') ∧
      hc'.transfers = sample_hc.transfers ++ [transfer] ∧
      enqueued hc'.calls = enqueued sample_hc.calls ++
        [(sample_control_in.ep.slot_id, sample_control_in.ep.target_endpoint,
            control_trb_setup sample_control_in.setup_buffer, a1),
         (sample_control_in.ep.slot_id, sample_control_in.ep.target_endpoint, data, a2),
         (sample_control_in.ep.slot_id, sample_control_in.ep.target_endpoint,
            control_trb_status sample_control_in.setup_buffer, a3)] ∧
      data.trb_type = XHCI_TRB_TYPE_DATA_STAGE ∧
      data.dir = (if sample_control_in.setup_buffer.request_type &&& 0x80 ≠ 0 then STAGE_IN
                  else STAGE_OUT) ∧
      transfer.direction = data.dir :=
  ⟨by decide, by decide, by decide, by decide,
    control_data_stage_direction sample_env sample_hc sample_control_in
      (by decide) (by decide) (by decide) (by decide)⟩

/-- C3: for every bmRequestType and wLength, the direction that
`get_status_direction_flag` computes, which is the direction written into the
Status descriptor, is the inverse of the direction of the Data descriptor when
there is a Data stage (wLength > 0) and IN when there is none; it is OUT exactly
when the request is device-to-host with wLength > 0. -/
theorem status_direction_inverse (env : xhci_env) (batch : usb_transfer_batch_t)
    (transfer : xhci_transfer_t) (setup : usb_device_request_setup_packet_t) :
    (control_trb_status setup).dir
      = get_status_direction_flag setup.request_type setup.length ∧
    get_status_direction_flag setup.request_type setup.length =
      (if setup.length > 0 then
        (if (control_trb_data env batch setup transfer).dir = STAGE_IN then STAGE_OUT
         else STAGE_IN)
       else STAGE_IN) ∧
    (get_status_direction_flag setup.request_type setup.length = STAGE_OUT ↔
      (setup.request_type &&& 0x80 ≠ 0 ∧ setup.length > 0)) ∧
    (get_status_direction_flag setup.request_type setup.length = STAGE_IN ↔
      ¬ (setup.request_type &&& 0x80 ≠ 0 ∧ setup.length > 0)) := by
  refine ⟨rfl, ?_, ?_, ?_⟩
  · by_cases hl : setup.length > 0 <;>
      by_cases hd : setup.request_type &&& 128 = 0 <;>
      simp [get_status_direction_flag, control_trb_data, control_data_direction,
        REQUEST_TYPE_IS_DEVICE_TO_HOST, REQUEST_TYPE_DTD, STAGE_IN, STAGE_OUT, hl, hd]
  · by_cases hl : setup.length > 0 <;>
      by_cases hd : setup.request_type &&& 128 = 0 <;>
      simp [get_status_direction_flag, REQUEST_TYPE_IS_DEVICE_TO_HOST, REQUEST_TYPE_DTD,
        STAGE_IN, STAGE_OUT, hl, hd]
  · by_cases hl : setup.length > 0 <;>
      by_cases hd : setup.request_type &&& 128 = 0 <;>
      simp [get_status_direction_flag, REQUEST_TYPE_IS_DEVICE_TO_HOST, REQUEST_TYPE_DTD,
        STAGE_IN, STAGE_OUT, hl, hd]

/-- C4: `xhci_schedule_control_transfer` returns EINVAL when the batch has no
setup packet or the endpoint is not a control endpoint; no descriptor is
enqueued, the pending list is unchanged and no doorbell is rung. -/
theorem control_transfer_rejected (env : xhci_env) (hc : xhci_hc_t)
    (batch : usb_transfer_batch_t)
    (h : batch.setup_size = 0 ∨ batch.ep.transfer_type ≠ USB_TRANSFER_CONTROL) :
    ∃ hc' : xhci_hc_t,
      xhci_schedule_control_transfer env hc batch = some (EINVAL, hc') ∧
      hc'.transfers = hc.transfers ∧
      enqueued hc'.calls = enqueued hc.calls ∧
      doorbells hc'.calls = doorbells hc.calls := by
  refine ⟨hc.call .usb_log_error, ?_, rfl, ?_, ?_⟩
  · by_cases h0 : batch.setup_size = 0
    · simp [xhci_schedule_control_transfer, h0]
    · have h1 := h.resolve_left h0
      simp [xhci_schedule_control_transfer, h0, h1]
  · simp [xhci_hc_t.call, enqueued_append, enqueued]
  · simp [xhci_hc_t.call, doorbells_append, doorbells]

/-- Witness for C4: a control endpoint without setup packet, and a batch with a
setup packet on a bulk endpoint. -/
theorem control_transfer_rejected_witness :
    ((sample_data USB_TRANSFER_CONTROL 0).setup_size = 0 ∧
      ∃ hc' : xhci_hc_t,
        xhci_schedule_control_transfer sample_env sample_hc
            (sample_data USB_TRANSFER_CONTROL 0) = some (EINVAL, hc') ∧
        hc'.transfers = sample_hc.transfers ∧
        enqueued hc'.calls = enqueued sample_hc.calls ∧
        doorbells hc'.calls = doorbells sample_hc.calls) ∧
    ((sample_data USB_TRANSFER_BULK 8).ep.transfer_type ≠ USB_TRANSFER_CONTROL ∧
      ∃ hc' : xhci_hc_t,
        xhci_schedule_control_transfer sample_env sample_hc
            (sample_data USB_TRANSFER_BULK 8) = some (EINVAL, hc') ∧
        hc'.transfers = sample_hc.transfers ∧
        enqueued hc'.calls = enqueued sample_hc.calls ∧
        doorbells hc'.calls = doorbells sample_hc.calls) :=
  ⟨⟨by decide, control_transfer_rejected sample_env sample_hc
      (sample_data USB_TRANSFER_CONTROL 0) (Or.inl (by decide))⟩,
   ⟨by decide, control_transfer_rejected sample_env sample_hc
      (sample_data USB_TRANSFER_BULK 8) (Or.inr (by decide))⟩⟩

/-! ## Bulk, interrupt and isochronous transfers -/

/-- C5: for every batch accepted by `xhci_schedule_bulk_transfer` or by
`xhci_schedule_interrupt_transfer` (the endpoint type matches; the allocation
of the transfer succeeds), the call returns and exactly one descriptor is handed
to the ring of the endpoint: a Normal descriptor whose transfer length is the
buffer size of the batch, with interrupt-on-completion set and with the
physical address of the DMA buffer of the transfer as parameter.  The pending
list gains exactly that transfer, tracked under the address the ring returned
for the descriptor. -/
theorem bulk_interrupt_single_descriptor (env : xhci_env) (hc : xhci_hc_t)
    (batch : usb_transfer_batch_t) :
    (batch.ep.transfer_type = USB_TRANSFER_BULK →
      alloc_succeeds env (warn_setup hc batch) batch →
      ∃ (rc : errno_t) (hc' : xhci_hc_t) (transfer : xhci_transfer_t) (trb : xhci_trb_t)
        (a : errno_t × Nat),
        xhci_schedule_bulk_transfer env hc batch = some (rc, hc') ∧
        enqueued hc'.calls = enqueued hc.calls ++
          [(batch.ep.slot_id, batch.ep.target_endpoint, trb, a)] ∧
        trb.trb_type = XHCI_TRB_TYPE_NORMAL ∧
        trb.xfer_len = batch.buffer_size ∧
        trb.ioc = 1 ∧
        trb.parameter = env.addr_to_phys transfer.hc_buffer ∧
        hc'.transfers = hc.transfers ++ [transfer] ∧
        transfer.batch = batch ∧
        transfer.interrupt_trb_phys = a.2) ∧
    (batch.ep.transfer_type = USB_TRANSFER_INTERRUPT →
      alloc_succeeds env (warn_setup hc batch) batch →
      ∃ (rc : errno_t) (hc' : xhci_hc_t) (transfer : xhci_transfer_t) (trb : xhci_trb_t)
        (a : errno_t × Nat),
        xhci_schedule_interrupt_transfer env hc batch = some (rc, hc') ∧
        enqueued hc'.calls = enqueued hc.calls ++
          [(batch.ep.slot_id, batch.ep.target_endpoint, trb, a)] ∧
        trb.trb_type = XHCI_TRB_TYPE_NORMAL ∧
        trb.xfer_len = batch.buffer_size ∧
        trb.ioc = 1 ∧
        trb.parameter = env.addr_to_phys transfer.hc_buffer ∧
        hc'.transfers = hc.transfers ++ [transfer] ∧
        transfer.batch = batch ∧
        transfer.interrupt_trb_phys = a.2) := by
  constructor
  · intro htype halloc
    obtain ⟨pre, transfer, a, rc, h1, _, _, he, hb, hp⟩ :=
      xhci_schedule_bulk_transfer_accepted env hc batch htype halloc
    refine ⟨rc, _, transfer, normal_trb env batch transfer, a, he, ?_, rfl, rfl, rfl, rfl,
      rfl, hb, hp⟩
    simp [enqueued_append, enqueued, h1, warn_setup_enqueued]
  · intro htype halloc
    obtain ⟨pre, transfer, a, rc, h1, _, _, he, hb, hp⟩ :=
      xhci_schedule_interrupt_transfer_accepted env hc batch htype halloc
    refine ⟨rc, _, transfer, normal_trb env batch transfer, a, he, ?_, rfl, rfl, rfl, rfl,
      rfl, hb, hp⟩
    simp [enqueued_append, enqueued, h1, warn_setup_enqueued]

/-- Witness for C5: a 512-byte batch on a bulk endpoint and one on an interrupt
endpoint. -/
theorem bulk_interrupt_single_descriptor_witness :
    ((sample_data USB_TRANSFER_BULK 0).ep.transfer_type = USB_TRANSFER_BULK ∧
      alloc_succeeds sample_env (warn_setup sample_hc (sample_data USB_TRANSFER_BULK 0))
        (sample_data USB_TRANSFER_BULK 0) ∧
      ∃ (rc : errno_t) (hc' : xhci_hc_t) (transfer : xhci_transfer_t) (trb : xhci_trb_t)
        (a : errno_t × Nat),
        xhci_schedule_bulk_transfer sample_env sample_hc (sample_data USB_TRANSFER_BULK 0) = some (rc, hc') ∧
        enqueued hc'.calls = enqueued sample_hc.calls ++
          [((sample_data USB_TRANSFER_BULK 0).ep.slot_id, (sample_data USB_TRANSFER_BULK 0).ep.target_endpoint, trb, a)] ∧
        trb.trb_type = XHCI_TRB_TYPE_NORMAL ∧
        trb.xfer_len = (sample_data USB_TRANSFER_BULK 0).buffer_size ∧
        trb.ioc = 1 ∧
        trb.parameter = sample_env.addr_to_phys transfer.hc_buffer ∧
        hc'.transfers = sample_hc.transfers ++ [transfer] ∧
        transfer.batch = (sample_data USB_TRANSFER_BULK 0) ∧
        transfer.interrupt_trb_phys = a.2) ∧
    ((sample_data USB_TRANSFER_INTERRUPT 0).ep.transfer_type = USB_TRANSFER_INTERRUPT ∧
      alloc_succeeds sample_env
        (warn_setup sample_hc (sample_data USB_TRANSFER_INTERRUPT 0))
        (sample_data USB_TRANSFER_INTERRUPT 0) ∧
      ∃ (rc : errno_t) (hc' : xhci_hc_t) (transfer : xhci_transfer_t) (trb : xhci_trb_t)
        (a : errno_t × Nat),
        xhci_schedule_interrupt_transfer sample_env sample_hc (sample_data USB_TRANSFER_INTERRUPT 0) = some (rc, hc') ∧
        enqueued hc'.calls = enqueued sample_hc.calls ++
          [((sample_data USB_TRANSFER_INTERRUPT 0).ep.slot_id, (sample_data USB_TRANSFER_INTERRUPT 0).ep.target_endpoint, trb, a)] ∧
        trb.trb_type = XHCI_TRB_TYPE_NORMAL ∧
        trb.xfer_len = (sample_data USB_TRANSFER_INTERRUPT 0).buffer_size ∧
        trb.ioc = 1 ∧
        trb.parameter = sample_env.addr_to_phys transfer.hc_buffer ∧
        hc'.transfers = sample_hc.transfers ++ [transfer] ∧
        transfer.batch = (sample_data USB_TRANSFER_INTERRUPT 0) ∧
        transfer.interrupt_trb_phys = a.2) :=
  ⟨⟨by decide, by decide,
    (bulk_interrupt_single_descriptor sample_env sample_hc
      (sample_data USB_TRANSFER_BULK 0)).1 (by decide) (by decide)⟩,
   ⟨by decide, by decide,
    (bulk_interrupt_single_descriptor sample_env sample_hc
      (sample_data USB_TRANSFER_INTERRUPT 0)).2 (by decide) (by decide)⟩⟩

/-- C6: `xhci_schedule_bulk_transfer` returns EINVAL for every batch whose
endpoint is not a bulk endpoint, and `xhci_schedule_interrupt_transfer` returns
EINVAL for every batch whose endpoint is not an interrupt endpoint; in both
cases no descriptor is enqueued, the pending list is unchanged and no doorbell
is rung. -/
theorem bulk_interrupt_rejected (env : xhci_env) (hc : xhci_hc_t)
    (batch : usb_transfer_batch_t) :
    (batch.ep.transfer_type ≠ USB_TRANSFER_BULK →
      ∃ hc' : xhci_hc_t,
        xhci_schedule_bulk_transfer env hc batch = some (EINVAL, hc') ∧
        hc'.transfers = hc.transfers ∧
        enqueued hc'.calls = enqueued hc.calls ∧
        doorbells hc'.calls = doorbells hc.calls) ∧
    (batch.ep.transfer_type ≠ USB_TRANSFER_INTERRUPT →
      ∃ hc' : xhci_hc_t,
        xhci_schedule_interrupt_transfer env hc batch = some (EINVAL, hc') ∧
        hc'.transfers = hc.transfers ∧
        enqueued hc'.calls = enqueued hc.calls ∧
        doorbells hc'.calls = doorbells hc.calls) := by
  constructor
  · intro htype
    refine ⟨(warn_setup hc batch).call .usb_log_error, ?_, ?_, ?_, ?_⟩
    · simp [xhci_schedule_bulk_transfer, htype]
    · simp [xhci_hc_t.call, warn_setup_transfers]
    · simp [xhci_hc_t.call, enqueued_append, enqueued, warn_setup_enqueued]
    · simp [xhci_hc_t.call, doorbells_append, doorbells, warn_setup_doorbells]
  · intro htype
    refine ⟨(warn_setup hc batch).call .usb_log_error, ?_, ?_, ?_, ?_⟩
    · simp [xhci_schedule_interrupt_transfer, htype]
    · simp [xhci_hc_t.call, warn_setup_transfers]
    · simp [xhci_hc_t.call, enqueued_append, enqueued, warn_setup_enqueued]
    · simp [xhci_hc_t.call, doorbells_append, doorbells, warn_setup_doorbells]

/-- Witness for C6: a batch on a control endpoint, handed to the bulk and to the
interrupt scheduler. -/
theorem bulk_interrupt_rejected_witness :
    ((sample_data USB_TRANSFER_CONTROL 0).ep.transfer_type ≠ USB_TRANSFER_BULK ∧
      ∃ hc' : xhci_hc_t,
        xhci_schedule_bulk_transfer sample_env sample_hc (sample_data USB_TRANSFER_CONTROL 0) = some (EINVAL, hc') ∧
        hc'.transfers = sample_hc.transfers ∧
        enqueued hc'.calls = enqueued sample_hc.calls ∧
        doorbells hc'.calls = doorbells sample_hc.calls) ∧
    ((sample_data USB_TRANSFER_CONTROL 0).ep.transfer_type ≠ USB_TRANSFER_INTERRUPT ∧
      ∃ hc' : xhci_hc_t,
        xhci_schedule_interrupt_transfer sample_env sample_hc (sample_data USB_TRANSFER_CONTROL 0) = some (EINVAL, hc') ∧
        hc'.transfers = sample_hc.transfers ∧
        enqueued hc'.calls = enqueued sample_hc.calls ∧
        doorbells hc'.calls = doorbells sample_hc.calls) :=
  ⟨⟨by decide,
    (bulk_interrupt_rejected sample_env sample_hc
      (sample_data USB_TRANSFER_CONTROL 0)).1 (by decide)⟩,
   ⟨by decide,
    (bulk_interrupt_rejected sample_env sample_hc
      (sample_data USB_TRANSFER_CONTROL 0)).2 (by decide)⟩⟩

/-- C7, counterexample: a batch that carries a setup packet (setup_size 8) on a
bulk endpoint is scheduled by `xhci_schedule_bulk_transfer`, which returns EOK
and not EINVAL; likewise for the interrupt scheduler on an interrupt endpoint. -/
theorem bulk_interrupt_setup_packet_accepted :
    (sample_data USB_TRANSFER_BULK 8).setup_size > 0 ∧
    (sample_data USB_TRANSFER_BULK 8).ep.transfer_type = USB_TRANSFER_BULK ∧
    (xhci_schedule_bulk_transfer sample_env sample_hc (sample_data USB_TRANSFER_BULK 8)).map Prod.fst = some EOK ∧
    (xhci_schedule_bulk_transfer sample_env sample_hc (sample_data USB_TRANSFER_BULK 8)).map Prod.fst ≠ some EINVAL ∧
    (sample_data USB_TRANSFER_INTERRUPT 8).setup_size > 0 ∧
    (sample_data USB_TRANSFER_INTERRUPT 8).ep.transfer_type = USB_TRANSFER_INTERRUPT ∧
    (xhci_schedule_interrupt_transfer sample_env sample_hc (sample_data USB_TRANSFER_INTERRUPT 8)).map Prod.fst = some EOK ∧
    (xhci_schedule_interrupt_transfer sample_env sample_hc (sample_data USB_TRANSFER_INTERRUPT 8)).map Prod.fst
      ≠ some EINVAL := by
  decide

/-- C7, amended: a setup packet does not make `xhci_schedule_bulk_transfer` or
`xhci_schedule_interrupt_transfer` fail.  For every batch that carries a setup
packet (setup_size > 0) the scheduler first logs a warning and then ignores the
setup packet: when the endpoint type matches (and the allocation of the
transfer succeeds) the batch is scheduled like any other, with one Normal
descriptor enqueued, the transfer appended to the pending list and the doorbell
rung, and the value returned is the one the doorbell returned; when the endpoint
type does not match, the call logs an error and returns EINVAL. -/
theorem bulk_interrupt_setup_packet_ignored (env : xhci_env) (hc : xhci_hc_t)
    (batch : usb_transfer_batch_t) (hs : batch.setup_size > 0) :
    (batch.ep.transfer_type = USB_TRANSFER_BULK →
      alloc_succeeds env (warn_setup hc batch) batch →
      ∃ (rc : errno_t) (hc' : xhci_hc_t) (transfer : xhci_transfer_t) (pre : List hc_call)
        (trb : xhci_trb_t) (a : errno_t × Nat),
        xhci_schedule_bulk_transfer env hc batch = some (rc, hc') ∧
        hc'.calls = hc.calls ++ [.usb_log_warning] ++ pre ++
          [.xhci_trb_ring_enqueue batch.ep.slot_id batch.ep.target_endpoint trb a.1 a.2,
           .hc_ring_doorbell batch.ep.slot_id
              ((env.xhci_endpoint_index batch.ep + 1) % 256) rc] ∧
        enqueued pre = [] ∧ doorbells pre = [] ∧
        trb.trb_type = XHCI_TRB_TYPE_NORMAL ∧
        hc'.transfers = hc.transfers ++ [transfer] ∧
        transfer.batch = batch ∧
        transfer.interrupt_trb_phys = a.2) ∧
    (batch.ep.transfer_type ≠ USB_TRANSFER_BULK →
      xhci_schedule_bulk_transfer env hc batch =
        some (EINVAL, { hc with calls := hc.calls ++ [.usb_log_warning, .usb_log_error] })) ∧
    (batch.ep.transfer_type = USB_TRANSFER_INTERRUPT →
      alloc_succeeds env (warn_setup hc batch) batch →
      ∃ (rc : errno_t) (hc' : xhci_hc_t) (transfer : xhci_transfer_t) (pre : List hc_call)
        (trb : xhci_trb_t) (a : errno_t × Nat),
        xhci_schedule_interrupt_transfer env hc batch = some (rc, hc') ∧
        hc'.calls = hc.calls ++ [.usb_log_warning] ++ pre ++
          [.xhci_trb_ring_enqueue batch.ep.slot_id batch.ep.target_endpoint trb a.1 a.2,
           .hc_ring_doorbell batch.ep.slot_id
              ((env.xhci_endpoint_index batch.ep + 1) % 256) rc] ∧
        enqueued pre = [] ∧ doorbells pre = [] ∧
        trb.trb_type = XHCI_TRB_TYPE_NORMAL ∧
        hc'.transfers = hc.transfers ++ [transfer] ∧
        transfer.batch = batch ∧
        transfer.interrupt_trb_phys = a.2) ∧
    (batch.ep.transfer_type ≠ USB_TRANSFER_INTERRUPT →
      xhci_schedule_interrupt_transfer env hc batch =
        some (EINVAL, { hc with calls := hc.calls ++ [.usb_log_warning, .usb_log_error] })) := by
  have hw := warn_setup_calls hc batch hs
  have hw0 : warn_setup hc batch = { hc with calls := hc.calls ++ [.usb_log_warning] } := by
    have h0 : batch.setup_size ≠ 0 := by omega
    simp [warn_setup, h0, xhci_hc_t.call]
  refine ⟨?_, ?_, ?_, ?_⟩
  · intro htype halloc
    obtain ⟨pre, transfer, a, rc, h1, h2, _, he, hb, hp⟩ :=
      xhci_schedule_bulk_transfer_accepted env hc batch htype halloc
    refine ⟨rc, _, transfer, pre, normal_trb env batch transfer, a, he, ?_, h1, h2, rfl, rfl,
      hb, hp⟩
    simp [hw]
  · intro htype
    simp [xhci_schedule_bulk_transfer, htype, hw0, xhci_hc_t.call]
  · intro htype halloc
    obtain ⟨pre, transfer, a, rc, h1, h2, _, he, hb, hp⟩ :=
      xhci_schedule_interrupt_transfer_accepted env hc batch htype halloc
    refine ⟨rc, _, transfer, pre, normal_trb env batch transfer, a, he, ?_, h1, h2, rfl, rfl,
      hb, hp⟩
    simp [hw]
  · intro htype
    simp [xhci_schedule_interrupt_transfer, htype, hw0, xhci_hc_t.call]

/-- Witness for C7, amended: the bulk batch with a setup packet of 8 bytes is
scheduled by the bulk scheduler and rejected by the interrupt scheduler. -/
theorem bulk_interrupt_setup_packet_ignored_witness :
    (sample_data USB_TRANSFER_BULK 8).setup_size > 0 ∧
    (sample_data USB_TRANSFER_BULK 8).ep.transfer_type = USB_TRANSFER_BULK ∧
    alloc_succeeds sample_env (warn_setup sample_hc (sample_data USB_TRANSFER_BULK 8)) (sample_data USB_TRANSFER_BULK 8) ∧
    (∃ (rc : errno_t) (hc' : xhci_hc_t) (transfer : xhci_transfer_t) (pre : List hc_call)
        (trb : xhci_trb_t) (a : errno_t × Nat),
        xhci_schedule_bulk_transfer sample_env sample_hc (sample_data USB_TRANSFER_BULK 8) = some (rc, hc') ∧
        hc'.calls = sample_hc.calls ++ [.usb_log_warning] ++ pre ++
          [.xhci_trb_ring_enqueue (sample_data USB_TRANSFER_BULK 8).ep.slot_id (sample_data USB_TRANSFER_BULK 8).ep.target_endpoint trb a.1 a.2,
           .hc_ring_doorbell (sample_data USB_TRANSFER_BULK 8).ep.slot_id
              ((sample_env.xhci_endpoint_index (sample_data USB_TRANSFER_BULK 8).ep + 1) % 256) rc] ∧
        enqueued pre = [] ∧ doorbells pre = [] ∧
        trb.trb_type = XHCI_TRB_TYPE_NORMAL ∧
        hc'.transfers = sample_hc.transfers ++ [transfer] ∧
        transfer.batch = (sample_data USB_TRANSFER_BULK 8) ∧
        transfer.interrupt_trb_phys = a.2) ∧
    (sample_data USB_TRANSFER_BULK 8).ep.transfer_type ≠ USB_TRANSFER_INTERRUPT ∧
    xhci_schedule_interrupt_transfer sample_env sample_hc (sample_data USB_TRANSFER_BULK 8) =
      some (EINVAL,
        { sample_hc with calls := sample_hc.calls ++ [.usb_log_warning, .usb_log_error] }) :=
  ⟨by decide, by decide, by decide,
    (bulk_interrupt_setup_packet_ignored sample_env sample_hc (sample_data USB_TRANSFER_BULK 8) (by decide)).1
      (by decide) (by decide),
    by decide,
    (bulk_interrupt_setup_packet_ignored sample_env sample_hc (sample_data USB_TRANSFER_BULK 8) (by decide)).2.2.2
      (by decide)⟩

/-- C8, counterexample: for a batch on a bulk endpoint
`xhci_schedule_isochronous_transfer` returns EINVAL, not ENOTSUP. -/
theorem isochronous_transfer_wrong_endpoint :
    (xhci_schedule_isochronous_transfer sample_hc (sample_data USB_TRANSFER_BULK 0)).1
      = EINVAL ∧
    (xhci_schedule_isochronous_transfer sample_hc (sample_data USB_TRANSFER_BULK 0)).1
      ≠ ENOTSUP := by
  decide

/-- C8, amended: for every batch, whether or not it carries a setup packet,
`xhci_schedule_isochronous_transfer` returns ENOTSUP when the endpoint of the
batch is an isochronous endpoint and EINVAL when it is of any other type; in
every case no descriptor is enqueued, the pending list is unchanged and no
doorbell is rung. -/
theorem isochronous_transfer_rejected (hc : xhci_hc_t) (batch : usb_transfer_batch_t) :
    (xhci_schedule_isochronous_transfer hc batch).1 =
      (if batch.ep.transfer_type = USB_TRANSFER_ISOCHRONOUS then ENOTSUP else EINVAL) ∧
    (xhci_schedule_isochronous_transfer hc batch).2.transfers = hc.transfers ∧
    enqueued (xhci_schedule_isochronous_transfer hc batch).2.calls = enqueued hc.calls ∧
    doorbells (xhci_schedule_isochronous_transfer hc batch).2.calls
      = doorbells hc.calls := by
  by_cases htype : batch.ep.transfer_type = USB_TRANSFER_ISOCHRONOUS <;>
    simp [xhci_schedule_isochronous_transfer, htype, xhci_hc_t.call, warn_setup_transfers,
      enqueued_append, doorbells_append, enqueued, doorbells, warn_setup_enqueued,
      warn_setup_doorbells]

/-! ## Completion events -/

/-- C9: when the address of a transfer event equals the tracked address
`interrupt_trb_phys` of at least one pending transfer,
`xhci_handle_transfer_event` returns EOK and removes exactly one transfer from
the pending list, the first one in list order with that address; the batch of
that transfer is finished exactly once, and all other pending transfers stay in
the list in their original order. -/
theorem transfer_event_matches_first (env : xhci_env) (hc : xhci_hc_t) (trb : xhci_trb_t)
    (h : ∃ x ∈ hc.transfers, x.interrupt_trb_phys = event_addr env trb) :
    ∃ (l1 l2 : List xhci_transfer_t) (t : xhci_transfer_t) (hc' : xhci_hc_t),
      hc.transfers = l1 ++ t :: l2 ∧
      (∀ x ∈ l1, x.interrupt_trb_phys ≠ event_addr env trb) ∧
      t.interrupt_trb_phys = event_addr env trb ∧
      xhci_handle_transfer_event env hc trb = (EOK, hc') ∧
      hc'.transfers = l1 ++ l2 ∧
      finished hc'.calls = finished hc.calls ++
        [(t.batch, t.hc_buffer, completion_size env t.batch trb, completion_err trb)] := by
  obtain ⟨i, t, hf⟩ := find_transfer_of_mem _ _ h
  obtain ⟨l1, l2, e, _, hne, ht, her⟩ := find_transfer_some _ _ _ _ hf
  refine ⟨l1, l2, t,
    xhci_transfer_fini
      (xhci_hc_t.call { hc with transfers := hc.transfers.eraseIdx i }
        (.usb_transfer_batch_finish_error t.batch t.hc_buffer
          (completion_size env t.batch trb) (completion_err trb))) t,
    e, hne, ht, ?_, ?_, ?_⟩
  · simp only [xhci_handle_transfer_event, hf]
  · simp [(xhci_transfer_fini_finished _ _).1, xhci_hc_t.call, her]
  · simp [(xhci_transfer_fini_finished _ _).2, xhci_hc_t.call, finished_append, finished]

/-- Witness for C9: of two pending transfers tracked under 0x2010 the event
removes the first. -/
theorem transfer_event_matches_first_witness :
    (∃ x ∈ sample_pending.transfers,
      x.interrupt_trb_phys = event_addr sample_env (sample_event 0x2010)) ∧
    ∃ (l1 l2 : List xhci_transfer_t) (t : xhci_transfer_t) (hc' : xhci_hc_t),
      sample_pending.transfers = l1 ++ t :: l2 ∧
      (∀ x ∈ l1, x.interrupt_trb_phys ≠ event_addr sample_env (sample_event 0x2010)) ∧
      t.interrupt_trb_phys = event_addr sample_env (sample_event 0x2010) ∧
      xhci_handle_transfer_event sample_env sample_pending (sample_event 0x2010)
        = (EOK, hc') ∧
      hc'.transfers = l1 ++ l2 ∧
      finished hc'.calls = finished sample_pending.calls ++
        [(t.batch, t.hc_buffer, completion_size sample_env t.batch (sample_event 0x2010),
          completion_err (sample_event 0x2010))] :=
  ⟨by decide,
    transfer_event_matches_first sample_env sample_pending (sample_event 0x2010) (by decide)⟩

/-- C10: when no pending transfer has the address of the event as its tracked
address, in particular when the pending list is empty,
`xhci_handle_transfer_event` returns ENOENT, finishes no batch and leaves the
pending list as it was. -/
theorem transfer_event_not_found (env : xhci_env) (hc : xhci_hc_t) (trb : xhci_trb_t)
    (h : ∀ x ∈ hc.transfers, x.interrupt_trb_phys ≠ event_addr env trb) :
    (xhci_handle_transfer_event env hc trb).1 = ENOENT ∧
    (xhci_handle_transfer_event env hc trb).2.transfers = hc.transfers ∧
    finished (xhci_handle_transfer_event env hc trb).2.calls = finished hc.calls := by
  have hf := find_transfer_none _ _ h
  simp [xhci_handle_transfer_event, hf, xhci_hc_t.call, finished_append, finished]

/-- Witness for C10: an event for 0x2030, which no pending transfer is tracked
under, and an event arriving while the pending list is empty. -/
theorem transfer_event_not_found_witness :
    ((∀ x ∈ sample_pending.transfers,
        x.interrupt_trb_phys ≠ event_addr sample_env (sample_event 0x2030)) ∧
      (xhci_handle_transfer_event sample_env sample_pending (sample_event 0x2030)).1
        = ENOENT ∧
      (xhci_handle_transfer_event sample_env sample_pending (sample_event 0x2030)).2.transfers
        = sample_pending.transfers ∧
      finished (xhci_handle_transfer_event sample_env sample_pending
        (sample_event 0x2030)).2.calls = finished sample_pending.calls) ∧
    (sample_hc.transfers = [] ∧
      (xhci_handle_transfer_event sample_env sample_hc (sample_event 0x2010)).1 = ENOENT ∧
      (xhci_handle_transfer_event sample_env sample_hc (sample_event 0x2010)).2.transfers
        = sample_hc.transfers ∧
      finished (xhci_handle_transfer_event sample_env sample_hc
        (sample_event 0x2010)).2.calls = finished sample_hc.calls) :=
  ⟨⟨by decide,
    transfer_event_not_found sample_env sample_pending (sample_event 0x2030) (by decide)⟩,
   ⟨rfl,
    transfer_event_not_found sample_env sample_hc (sample_event 0x2010) (by decide)⟩⟩

/-- C11, counterexample: the pending control transfer tracked under 0x2020 has
a batch with buffer_size 0; a matching event whose remaining length is 8 makes
`xhci_handle_transfer_event` report the actual length 2^64 - 8, which is not
buffer_size minus the remaining length and exceeds buffer_size. -/
theorem transfer_event_length_wraps :
    (xhci_handle_transfer_event sample_env sample_pending
      (sample_completion 0x2020 XHCI_TRBC_SUCCESS 8)).1 = EOK ∧
    finished (xhci_handle_transfer_event sample_env sample_pending
      (sample_completion 0x2020 XHCI_TRBC_SUCCESS 8)).2.calls
      = [(sample_control_nodata, 0, 18446744073709551608, EOK)] ∧
    sample_control_nodata.buffer_size = 0 ∧
    ¬ (18446744073709551608 ≤ sample_control_nodata.buffer_size) := by
  decide

/-- C11, amended: for every completion event that matches a pending transfer,
if the remaining length of the event does not exceed the buffer size of the
batch that is finished (the batch of the first pending transfer tracked under
the address of the event), then the actual length that
`xhci_handle_transfer_event` reports to that batch is the buffer size minus the
remaining length, and it is at most the buffer size (the buffer size being a
`size_t` value).  Nothing is required of the other pending transfers, whether
tracked under the same address or not. -/
theorem transfer_event_actual_length (env : xhci_env) (hc : xhci_hc_t) (trb : xhci_trb_t)
    (l1 l2 : List xhci_transfer_t) (t : xhci_transfer_t)
    (hlist : hc.transfers = l1 ++ t :: l2)
    (hfirst : ∀ x ∈ l1, x.interrupt_trb_phys ≠ event_addr env trb)
    (ht : t.interrupt_trb_phys = event_addr env trb)
    (hrem : TRB_TRANSFER_LENGTH trb ≤ t.batch.buffer_size)
    (hsz : t.batch.buffer_size < 2 ^ env.word_bits) :
    ∃ (hc' : xhci_hc_t) (size : Nat) (err : errno_t),
      xhci_handle_transfer_event env hc trb = (EOK, hc') ∧
      finished hc'.calls = finished hc.calls ++ [(t.batch, t.hc_buffer, size, err)] ∧
      size = t.batch.buffer_size - TRB_TRANSFER_LENGTH trb ∧
      size ≤ t.batch.buffer_size := by
  have hf : find_transfer (event_addr env trb) hc.transfers = some (l1.length, t) := by
    rw [hlist]
    exact find_transfer_first _ l1 l2 t hfirst ht
  refine ⟨xhci_transfer_fini
      (xhci_hc_t.call { hc with transfers := hc.transfers.eraseIdx l1.length }
        (.usb_transfer_batch_finish_error t.batch t.hc_buffer
          (completion_size env t.batch trb) (completion_err trb))) t,
    completion_size env t.batch trb, completion_err trb, ?_, ?_,
    completion_size_of_le env t.batch trb hrem hsz, ?_⟩
  · simp only [xhci_handle_transfer_event, hf]
  · simp [(xhci_transfer_fini_finished _ _).2, xhci_hc_t.call, finished_append, finished]
  · rw [completion_size_of_le env t.batch trb hrem hsz]
    omega

/-- Witness for C11, amended: the event with remaining length 8 finishes the
512-byte transfer, the first one tracked under 0x2010, with actual length 504;
the transfer behind it under the same address has a buffer of 0 bytes. -/
theorem transfer_event_actual_length_witness :
    sample_pending_duplicate.transfers
      = [{ batch := sample_control_nodata, hc_buffer := 0, direction := 0,
           interrupt_trb_phys := 0x2020 }]
        ++ { batch := sample_data USB_TRANSFER_BULK 0, hc_buffer := 0x1000, direction := 0,
             interrupt_trb_phys := 0x2010 }
        :: [{ batch := sample_control_nodata, hc_buffer := 0, direction := 0,
              interrupt_trb_phys := 0x2010 }] ∧
    TRB_TRANSFER_LENGTH (sample_completion 0x2010 XHCI_TRBC_SUCCESS 8)
      ≤ (sample_data USB_TRANSFER_BULK 0).buffer_size ∧
    ¬ (TRB_TRANSFER_LENGTH (sample_completion 0x2010 XHCI_TRBC_SUCCESS 8)
      ≤ sample_control_nodata.buffer_size) ∧
    (∃ (hc' : xhci_hc_t) (size : Nat) (err : errno_t),
      xhci_handle_transfer_event sample_env sample_pending_duplicate
        (sample_completion 0x2010 XHCI_TRBC_SUCCESS 8) = (EOK, hc') ∧
      finished hc'.calls = finished sample_pending_duplicate.calls ++
        [((sample_data USB_TRANSFER_BULK 0), 0x1000, size, err)] ∧
      size = (sample_data USB_TRANSFER_BULK 0).buffer_size
        - TRB_TRANSFER_LENGTH (sample_completion 0x2010 XHCI_TRBC_SUCCESS 8) ∧
      size ≤ (sample_data USB_TRANSFER_BULK 0).buffer_size) ∧
    finished (xhci_handle_transfer_event sample_env sample_pending_duplicate
        (sample_completion 0x2010 XHCI_TRBC_SUCCESS 8)).2.calls
      = [(sample_data USB_TRANSFER_BULK 0, 0x1000, 504, EOK)] ∧
    finished (xhci_handle_transfer_event sample_env sample_pending
        (sample_event 0x2010)).2.calls
      = [(sample_data USB_TRANSFER_BULK 0, 0x1000, 512, EOK)] :=
  ⟨rfl, by decide, by decide,
    transfer_event_actual_length sample_env sample_pending_duplicate
      (sample_completion 0x2010 XHCI_TRBC_SUCCESS 8)
      [{ batch := sample_control_nodata, hc_buffer := 0, direction := 0,
         interrupt_trb_phys := 0x2020 }]
      [{ batch := sample_control_nodata, hc_buffer := 0, direction := 0,
         interrupt_trb_phys := 0x2010 }]
      { batch := sample_data USB_TRANSFER_BULK 0, hc_buffer := 0x1000, direction := 0,
        interrupt_trb_phys := 0x2010 }
      rfl (by decide) (by decide) (by decide) (by decide),
    by decide, by decide⟩

/-- C12, counterexample: a matching event with completion code Short packet
finishes the batch with the error ENAK, not with EOK. -/
theorem transfer_event_short_packet_is_error :
    TRB_COMPLETION_CODE (sample_completion 0x2010 XHCI_TRBC_SHORT_PACKET 12) = XHCI_TRBC_SHORT_PACKET ∧
    (xhci_handle_transfer_event sample_env sample_pending (sample_completion 0x2010 XHCI_TRBC_SHORT_PACKET 12)).1 = EOK ∧
    finished (xhci_handle_transfer_event sample_env sample_pending (sample_completion 0x2010 XHCI_TRBC_SHORT_PACKET 12)).2.calls
      = [(sample_data USB_TRANSFER_BULK 0, 0x1000, 500, ENAK)] ∧
    ENAK ≠ EOK := by
  decide

/-- C12, amended: on a matching completion event the batch is finished without
error (EOK) exactly when the hardware completion code is Success; Short packet,
Stall and every other completion code finish the batch with the error ENAK. -/
theorem transfer_event_completion_code (env : xhci_env) (hc : xhci_hc_t) (trb : xhci_trb_t)
    (h : ∃ x ∈ hc.transfers, x.interrupt_trb_phys = event_addr env trb) :
    ∃ (t : xhci_transfer_t) (hc' : xhci_hc_t) (size : Nat) (err : errno_t),
      t ∈ hc.transfers ∧
      t.interrupt_trb_phys = event_addr env trb ∧
      xhci_handle_transfer_event env hc trb = (EOK, hc') ∧
      finished hc'.calls = finished hc.calls ++ [(t.batch, t.hc_buffer, size, err)] ∧
      (TRB_COMPLETION_CODE trb = XHCI_TRBC_SUCCESS → err = EOK) ∧
      (TRB_COMPLETION_CODE trb ≠ XHCI_TRBC_SUCCESS → err = ENAK) ∧
      (TRB_COMPLETION_CODE trb = XHCI_TRBC_SHORT_PACKET → err = ENAK) ∧
      (TRB_COMPLETION_CODE trb = XHCI_TRBC_STALL_ERROR → err = ENAK) := by
  obtain ⟨t, hc', hmem, ht, he, hf⟩ := xhci_handle_transfer_event_match env hc trb h
  refine ⟨t, hc', _, _, hmem, ht, he, hf, ?_, ?_, ?_, ?_⟩
  · intro hcode
    simp [completion_err, hcode]
  · intro hcode
    simp [completion_err, hcode]
  · intro hcode
    simp [completion_err, hcode, XHCI_TRBC_SHORT_PACKET, XHCI_TRBC_SUCCESS]
  · intro hcode
    simp [completion_err, hcode, XHCI_TRBC_STALL_ERROR, XHCI_TRBC_SUCCESS]

/-- Witness for C12, amended: the Short packet event for the transfer tracked
under 0x2010. -/
theorem transfer_event_completion_code_witness :
    (∃ x ∈ sample_pending.transfers,
      x.interrupt_trb_phys = event_addr sample_env (sample_completion 0x2010 XHCI_TRBC_SHORT_PACKET 12)) ∧
    ∃ (t : xhci_transfer_t) (hc' : xhci_hc_t) (size : Nat) (err : errno_t),
      t ∈ sample_pending.transfers ∧
      t.interrupt_trb_phys = event_addr sample_env (sample_completion 0x2010 XHCI_TRBC_SHORT_PACKET 12) ∧
      xhci_handle_transfer_event sample_env sample_pending (sample_completion 0x2010 XHCI_TRBC_SHORT_PACKET 12) = (EOK, hc') ∧
      finished hc'.calls = finished sample_pending.calls ++ [(t.batch, t.hc_buffer, size, err)] ∧
      (TRB_COMPLETION_CODE (sample_completion 0x2010 XHCI_TRBC_SHORT_PACKET 12) = XHCI_TRBC_SUCCESS → err = EOK) ∧
      (TRB_COMPLETION_CODE (sample_completion 0x2010 XHCI_TRBC_SHORT_PACKET 12) ≠ XHCI_TRBC_SUCCESS → err = ENAK) ∧
      (TRB_COMPLETION_CODE (sample_completion 0x2010 XHCI_TRBC_SHORT_PACKET 12) = XHCI_TRBC_SHORT_PACKET → err = ENAK) ∧
      (TRB_COMPLETION_CODE (sample_completion 0x2010 XHCI_TRBC_SHORT_PACKET 12) = XHCI_TRBC_STALL_ERROR → err = ENAK) :=
  ⟨by decide,
    transfer_event_completion_code sample_env sample_pending (sample_completion 0x2010 XHCI_TRBC_SHORT_PACKET 12) (by decide)⟩

/-- C13: in `xhci_schedule_control_transfer` (for an accepted batch whose
transfer is allocated) `xhci_device_configure` is called if and only if the
setup packet is a standard request with bRequest SET_CONFIGURATION or
SET_INTERFACE; when it is called, it is called once, after all descriptors of
the batch are enqueued and before the doorbell, which is rung once as the last
call. -/
theorem control_transfer_configure_order (env : xhci_env) (hc : xhci_hc_t)
    (batch : usb_transfer_batch_t) (hsetup : batch.setup_size ≠ 0)
    (hctl : batch.ep.transfer_type = USB_TRANSFER_CONTROL)
    (halloc : alloc_succeeds env hc batch) :
    ∃ (rc : errno_t) (hc' : xhci_hc_t) (before : List hc_call),
      xhci_schedule_control_transfer env hc batch = some (rc, hc') ∧
      hc'.calls = hc.calls ++ before ++
        (if SETUP_REQUEST_TYPE_GET_TYPE batch.setup_buffer.request_type
              = USB_REQUEST_TYPE_STANDARD ∧
            (batch.setup_buffer.request = USB_DEVREQ_SET_CONFIGURATION ∨
             batch.setup_buffer.request = USB_DEVREQ_SET_INTERFACE)
         then [.xhci_device_configure batch.ep.slot_id] else []) ++
        [.hc_ring_doorbell batch.ep.slot_id
          ((env.xhci_endpoint_index batch.ep + 1) % 256) rc] ∧
      configured before = [] ∧
      doorbells before = [] ∧
      enqueued hc'.calls = enqueued (hc.calls ++ before) ∧
      configured hc'.calls = configured hc.calls ++
        (if SETUP_REQUEST_TYPE_GET_TYPE batch.setup_buffer.request_type
              = USB_REQUEST_TYPE_STANDARD ∧
            (batch.setup_buffer.request = USB_DEVREQ_SET_CONFIGURATION ∨
             batch.setup_buffer.request = USB_DEVREQ_SET_INTERFACE)
         then [batch.ep.slot_id] else []) ∧
      doorbells hc'.calls = doorbells hc.calls ++
        [(batch.ep.slot_id, (env.xhci_endpoint_index batch.ep + 1) % 256)] := by
  obtain ⟨pre, transfer, a1, a2, a3, rc, h1, h2, _, h4, he, _, _, _⟩ :=
    xhci_schedule_control_transfer_accepted env hc batch hsetup hctl halloc
  have hcond : configure_endpoint_needed batch.setup_buffer = true ↔
      (SETUP_REQUEST_TYPE_GET_TYPE batch.setup_buffer.request_type
          = USB_REQUEST_TYPE_STANDARD ∧
        (batch.setup_buffer.request = USB_DEVREQ_SET_CONFIGURATION ∨
         batch.setup_buffer.request = USB_DEVREQ_SET_INTERFACE)) := by
    simp [configure_endpoint_needed]
  refine ⟨rc, _, pre ++
      [.xhci_trb_ring_enqueue batch.ep.slot_id batch.ep.target_endpoint
        (control_trb_setup batch.setup_buffer) a1.1 a1.2] ++
      (if batch.setup_buffer.length > 0 then
        [.xhci_trb_ring_enqueue batch.ep.slot_id batch.ep.target_endpoint
          (control_trb_data env batch batch.setup_buffer transfer) a2.1 a2.2]
       else []) ++
      [.xhci_trb_ring_enqueue batch.ep.slot_id batch.ep.target_endpoint
        (control_trb_status batch.setup_buffer) a3.1 a3.2],
    he, ?_, ?_, ?_, ?_, ?_, ?_⟩
  · by_cases hc0 : configure_endpoint_needed batch.setup_buffer = true
    · simp [hc0, hcond.mp hc0]
    · simp [hc0, mt hcond.mpr hc0]
  · by_cases hl : batch.setup_buffer.length > 0 <;>
      simp [configured_append, configured, h4, hl]
  · by_cases hl : batch.setup_buffer.length > 0 <;>
      simp [doorbells_append, doorbells, h2, hl]
  · by_cases hl : batch.setup_buffer.length > 0 <;>
      by_cases hc0 : configure_endpoint_needed batch.setup_buffer = true <;>
      simp [enqueued_append, enqueued, h1, hl, hc0]
  · by_cases hl : batch.setup_buffer.length > 0 <;>
      by_cases hc0 : configure_endpoint_needed batch.setup_buffer = true
    · simp [configured_append, configured, h4, hl, hc0, hcond.mp hc0]
    · simp [configured_append, configured, h4, hl, hc0, mt hcond.mpr hc0]
    · simp [configured_append, configured, h4, hl, hc0, hcond.mp hc0]
    · simp [configured_append, configured, h4, hl, hc0, mt hcond.mpr hc0]
  · by_cases hl : batch.setup_buffer.length > 0 <;>
      by_cases hc0 : configure_endpoint_needed batch.setup_buffer = true <;>
      simp [doorbells_append, doorbells, h2, hl, hc0]

/-- Witness for C13: the sample SET_CONFIGURATION request. -/
theorem control_transfer_configure_order_witness :
    sample_set_configuration.setup_size ≠ 0 ∧
    sample_set_configuration.ep.transfer_type = USB_TRANSFER_CONTROL ∧
    alloc_succeeds sample_env sample_hc sample_set_configuration ∧
    (∃ (rc : errno_t) (hc' : xhci_hc_t) (before : List hc_call),
      xhci_schedule_control_transfer sample_env sample_hc sample_set_configuration = some (rc, hc') ∧
      hc'.calls = sample_hc.calls ++ before ++
        (if SETUP_REQUEST_TYPE_GET_TYPE sample_set_configuration.setup_buffer.request_type
              = USB_REQUEST_TYPE_STANDARD ∧
            (sample_set_configuration.setup_buffer.request = USB_DEVREQ_SET_CONFIGURATION ∨
             sample_set_configuration.setup_buffer.request = USB_DEVREQ_SET_INTERFACE)
         then [.xhci_device_configure sample_set_configuration.ep.slot_id] else []) ++
        [.hc_ring_doorbell sample_set_configuration.ep.slot_id
          ((sample_env.xhci_endpoint_index sample_set_configuration.ep + 1) % 256) rc] ∧
      configured before = [] ∧
      doorbells before = [] ∧
      enqueued hc'.calls = enqueued (sample_hc.calls ++ before) ∧
      configured hc'.calls = configured sample_hc.calls ++
        (if SETUP_REQUEST_TYPE_GET_TYPE sample_set_configuration.setup_buffer.request_type
              = USB_REQUEST_TYPE_STANDARD ∧
            (sample_set_configuration.setup_buffer.request = USB_DEVREQ_SET_CONFIGURATION ∨
             sample_set_configuration.setup_buffer.request = USB_DEVREQ_SET_INTERFACE)
         then [sample_set_configuration.ep.slot_id] else []) ∧
      doorbells hc'.calls = doorbells sample_hc.calls ++
        [(sample_set_configuration.ep.slot_id, (sample_env.xhci_endpoint_index sample_set_configuration.ep + 1) % 256)]) ∧
    (xhci_schedule_control_transfer sample_env sample_hc sample_set_configuration).map
        (fun r => r.2.calls.drop 2)
      = some [.xhci_trb_ring_enqueue 3 0 (control_trb_setup
                sample_set_configuration.setup_buffer) EOK 0x2000,
              .xhci_trb_ring_enqueue 3 0 (control_trb_status
                sample_set_configuration.setup_buffer) EOK 0x2010,
              .xhci_device_configure 3,
              .hc_ring_doorbell 3 1 EOK] :=
  ⟨by decide, by decide, by decide,
    control_transfer_configure_order sample_env sample_hc sample_set_configuration
      (by decide) (by decide) (by decide),
    by decide⟩

/-- C14, the code at failing inputs.  When the ring refuses every descriptor
with ENOMEM, `xhci_schedule_bulk_transfer` and `xhci_schedule_control_transfer`
still append the transfer to the pending list, ring the doorbell and return EOK.
When the ring accepts only the Setup descriptor, the control scheduler leaves
it on the ring, appends the transfer, tracked under address 0, and rings the
doorbell.  When `malloc` returns NULL, the three schedulers dereference the NULL
transfer instead of returning an error. -/
theorem schedule_failures_not_reported :
    ((xhci_schedule_bulk_transfer ring_full_env sample_hc (sample_data USB_TRANSFER_BULK 0)).map
        (fun r => (r.1, (enqueued r.2.calls).map (fun e => e.2.2.2.1),
          r.2.transfers.length, doorbells r.2.calls))
      = some (EOK, [ENOMEM], 1, [(3, 3)])) ∧
    ((xhci_schedule_control_transfer ring_full_env sample_hc sample_control_in).map
        (fun r => (r.1, (enqueued r.2.calls).map (fun e => e.2.2.2.1),
          r.2.transfers.length, doorbells r.2.calls))
      = some (EOK, [ENOMEM, ENOMEM, ENOMEM], 1, [(3, 1)])) ∧
    ((xhci_schedule_control_transfer ring_one_slot_env sample_hc sample_control_in).map
        (fun r => (r.1, (enqueued r.2.calls).map (fun e => (e.2.2.1.trb_type, e.2.2.2.1)),
          r.2.transfers.map (fun t => t.interrupt_trb_phys), doorbells r.2.calls))
      = some (EOK,
          [(XHCI_TRB_TYPE_SETUP_STAGE, EOK), (XHCI_TRB_TYPE_DATA_STAGE, ENOMEM),
           (XHCI_TRB_TYPE_STATUS_STAGE, ENOMEM)],
          [0], [(3, 1)])) ∧
    xhci_schedule_control_transfer malloc_null_env sample_hc sample_control_in = none ∧
    xhci_schedule_bulk_transfer malloc_null_env sample_hc (sample_data USB_TRANSFER_BULK 0) = none ∧
    xhci_schedule_interrupt_transfer malloc_null_env sample_hc
      (sample_data USB_TRANSFER_INTERRUPT 0) = none := by
  refine ⟨?_, ?_, ?_, ?_, ?_, ?_⟩ <;> decide

/-! ## Commands -/

/-- C16, counterexample: a NO_OP command whose timeout is the sentinel
XHCI_BLOCK_INDEFINITELY reaches `xhci_cmd_sync` with the timeout
XHCI_DEFAULT_TIMEOUT, which is not the sentinel. -/
theorem cmd_sync_inline_replaces_sentinel :
    ((xhci_cmd_sync_inline_wrapper sample_cmd_sync []
        { xhci_cmd_zeroed .XHCI_CMD_NO_OP with timeout := XHCI_BLOCK_INDEFINITELY }).2.map
      (fun c => c.timeout)) = [XHCI_DEFAULT_TIMEOUT] ∧
    XHCI_DEFAULT_TIMEOUT ≠ XHCI_BLOCK_INDEFINITELY := by
  decide

/-- C16, amended: a command issued through `xhci_cmd_sync_inline_wrapper` with
its timeout equal to XHCI_BLOCK_INDEFINITELY, which is 0, the value of a timeout
that was not set, is handed to `xhci_cmd_sync` with the timeout
XHCI_DEFAULT_TIMEOUT; every other timeout is handed over unchanged, as are all
other fields of the command. -/
theorem cmd_sync_inline_timeout {σ : Type} (xhci_cmd_sync : σ → xhci_cmd_t → Int × σ)
    (hc : σ) (cmd : xhci_cmd_t) :
    xhci_cmd_sync_inline_wrapper xhci_cmd_sync hc cmd =
      xhci_cmd_sync hc
        { cmd with
          timeout := if cmd.timeout = XHCI_BLOCK_INDEFINITELY then XHCI_DEFAULT_TIMEOUT
                     else cmd.timeout } := by
  unfold xhci_cmd_sync_inline_wrapper XHCI_BLOCK_INDEFINITELY
  by_cases h : cmd.timeout = 0 <;> simp [h]

end Xhci

/-! # Bus operation tables -/

namespace UsbHost

theorem ops_chain_ne_zero (mem : Nat → bus_ops_t) (start : Nat) (chain : List Nat)
    (h : ops_chain mem start chain) : ∀ a ∈ chain, a ≠ 0 := by
  induction chain generalizing start with
  | nil => simp
  | cons a rest ih =>
    obtain ⟨_, ha, hrest⟩ := h
    intro b hb
    rcases List.mem_cons.mp hb with rfl | hb
    · exact ha
    · exact ih _ hrest b hb

theorem BUS_OPS_LOOKUP_chain (mem : Nat → bus_ops_t) (fn : bus_ops_t → Option bus_fn)
    (start : Nat) (chain : List Nat) (fuel : Nat)
    (hchain : ops_chain mem start chain) (hfuel : chain.length < fuel) :
    BUS_OPS_LOOKUP mem fn fuel start
      = some ((chain.find? (fun a => (fn (mem a)).isSome)).getD 0) := by
  induction chain generalizing start fuel with
  | nil =>
    have h0 : start = 0 := hchain
    obtain ⟨f, rfl⟩ : ∃ f, fuel = f + 1 := ⟨fuel - 1, by simp at hfuel; omega⟩
    simp [BUS_OPS_LOOKUP, h0]
  | cons a rest ih =>
    obtain ⟨hs, ha, hrest⟩ := hchain
    obtain ⟨f, rfl⟩ : ∃ f, fuel = f + 1 := ⟨fuel - 1, by simp at hfuel; omega⟩
    have hf : rest.length < f := by simp at hfuel; omega
    subst hs
    by_cases hslot : fn (mem start) = none
    · simp [BUS_OPS_LOOKUP, ha, hslot, ih _ f hrest hf]
    · have hsome : (fn (mem start)).isSome = true := by
        cases h : fn (mem start) with
        | none => exact absurd h hslot
        | some _ => rfl
      simp [BUS_OPS_LOOKUP, hslot, hsome]

/-- C15: for every finite chain of operation tables linked by `parent` and ending
in NULL, and every slot `fn`, `BUS_OPS_LOOKUP(start, fn)` ends and yields the
first table of the chain, `start` first, whose slot `fn` is set; it yields NULL
exactly when no table of the chain sets `fn`.  Starting at `ehci_bus_ops`, a
lookup of `endpoint_register` yields `ehci_bus_ops` itself and a lookup of
`reserve_default_address` yields what the lookup from its parent yields. -/
theorem bus_ops_lookup_first (mem : Nat → bus_ops_t) (fn : bus_ops_t → Option bus_fn)
    (start : Nat) (chain : List Nat) (fuel : Nat)
    (hchain : ops_chain mem start chain) (hfuel : chain.length < fuel) :
    BUS_OPS_LOOKUP mem fn fuel start
      = some ((chain.find? (fun a => (fn (mem a)).isSome)).getD 0) ∧
    ((chain.find? (fun a => (fn (mem a)).isSome)).getD 0 = 0 ↔
      ∀ a ∈ chain, fn (mem a) = none) ∧
    (∀ (ehci usb2 : Nat), mem ehci = ehci_bus_ops usb2 → ehci ≠ 0 →
      BUS_OPS_LOOKUP mem (fun t => t.endpoint_register) fuel ehci = some ehci ∧
      BUS_OPS_LOOKUP mem (fun t => t.reserve_default_address) fuel ehci
        = BUS_OPS_LOOKUP mem (fun t => t.reserve_default_address) (fuel - 1) usb2) := by
  refine ⟨BUS_OPS_LOOKUP_chain mem fn start chain fuel hchain hfuel, ?_, ?_⟩
  · have hne := ops_chain_ne_zero mem start chain hchain
    cases hfind : chain.find? (fun a => (fn (mem a)).isSome) with
    | none =>
      simp only [Option.getD_none, true_iff]
      intro a ha
      have := List.find?_eq_none.mp hfind a ha
      simpa using this
    | some a =>
      have hmem := List.mem_of_find?_eq_some hfind
      have hp := List.find?_some hfind
      simp only [Option.getD_some]
      constructor
      · intro h0
        exact absurd h0 (hne a hmem)
      · intro hall
        have := hall a hmem
        simp [this] at hp
  · intro ehci usb2 hmem hne
    obtain ⟨f, rfl⟩ : ∃ f, fuel = f + 1 := ⟨fuel - 1, by omega⟩
    constructor
    · simp [BUS_OPS_LOOKUP, hmem, ehci_bus_ops]
    · simp [BUS_OPS_LOOKUP, hmem, ehci_bus_ops, hne]

/-- Witness for C15: the chain of `ehci_bus_ops` at 0x100 and its parent at
0x200 in the sample memory; `reserve_default_address` is found in the parent,
`endpoint_register` in `ehci_bus_ops`, and `device_enumerate` in no table. -/
theorem bus_ops_lookup_first_witness :
    ops_chain sample_mem 0x100 [0x100, 0x200] ∧
    [0x100, 0x200].length < 3 ∧
    (BUS_OPS_LOOKUP sample_mem (fun t => t.reserve_default_address) 3 0x100
      = some (([0x100, 0x200].find?
          (fun a => (sample_mem a).reserve_default_address.isSome)).getD 0) ∧
    (([0x100, 0x200].find?
        (fun a => (sample_mem a).reserve_default_address.isSome)).getD 0 = 0 ↔
      ∀ a ∈ [0x100, 0x200], (sample_mem a).reserve_default_address = none) ∧
    (∀ (ehci usb2 : Nat), sample_mem ehci = ehci_bus_ops usb2 → ehci ≠ 0 →
      BUS_OPS_LOOKUP sample_mem (fun t => t.endpoint_register) 3 ehci = some ehci ∧
      BUS_OPS_LOOKUP sample_mem (fun t => t.reserve_default_address) 3 ehci
        = BUS_OPS_LOOKUP sample_mem (fun t => t.reserve_default_address) (3 - 1) usb2)) ∧
    BUS_OPS_LOOKUP sample_mem (fun t => t.reserve_default_address) 3 0x100 = some 0x200 ∧
    BUS_OPS_LOOKUP sample_mem (fun t => t.endpoint_register) 3 0x100 = some 0x100 ∧
    BUS_OPS_LOOKUP sample_mem (fun t => t.device_enumerate) 3 0x100 = some 0 :=
  ⟨⟨rfl, by decide, rfl, by decide, rfl⟩, by decide,
    bus_ops_lookup_first sample_mem (fun t => t.reserve_default_address) 0x100
      [0x100, 0x200] 3 ⟨rfl, by decide, rfl, by decide, rfl⟩ (by decide),
    by decide, by decide, by decide⟩

end UsbHost

/-! # DMA buffers -/

namespace Usb

/-- C17, the code at a failing input: a page-aligned buffer of two pages whose
second page is mapped at 4 GiB, not contiguously after the first, passes
`dma_buffer_check_policy` with both policy flags set, because the loop over the
pages is not entered for a size above PAGE_SIZE. -/
theorem dma_buffer_check_policy_second_page_unchecked :
    dma_buffer_check_policy sample_dma_env 3 0x10000 8192
        ⟨DMA_POLICY_F_4GiB ||| DMA_POLICY_F_CONTIGUOUS⟩ = some true ∧
    0x10000 % sample_dma_env.PAGE_SIZE = 0 ∧
    sample_dma_env.as_get_physical_mapping 0x10000 = some 0x1000 ∧
    sample_dma_env.as_get_physical_mapping (0x10000 + sample_dma_env.PAGE_SIZE)
      = some 0x100000000 ∧
    phys_above_4GiB sample_dma_env 0x100000000 = true ∧
    0x100000000 ≠ 0x1000 + sample_dma_env.PAGE_SIZE := by
  refine ⟨?_, ?_, ?_, ?_, ?_, ?_⟩ <;> decide

end Usb

/-! # Dynamic arrays -/

namespace Adt

open Xhci.errno_t

theorem map_range_congr {α : Type} (f g : Nat → α) (n : Nat) (h : ∀ k, k < n → f k = g k) :
    (List.range n).map f = (List.range n).map g := by
  apply List.map_congr_left
  intro k hk
  exact h k (List.mem_range.mp hk)

theorem map_range_add {α : Type} (f : Nat → α) (a b : Nat) :
    (List.range (a + b)).map f
      = (List.range a).map f ++ (List.range b).map (fun k => f (a + k)) := by
  rw [List.range_add, List.map_append, List.map_map]
  rfl

theorem take_map_range {α : Type} (f : Nat → α) (n i : Nat) (h : i ≤ n) :
    ((List.range n).map f).take i = (List.range i).map f := by
  obtain ⟨b, rfl⟩ : ∃ b, n = i + b := ⟨n - i, by omega⟩
  rw [map_range_add, List.take_left']
  simp

theorem drop_map_range {α : Type} (f : Nat → α) (n i : Nat) (h : i ≤ n) :
    ((List.range n).map f).drop i = (List.range (n - i)).map (fun k => f (i + k)) := by
  obtain ⟨b, rfl⟩ : ∃ b, n = i + b := ⟨n - i, by omega⟩
  rw [map_range_add, List.drop_left']
  · simp
  · simp

theorem array_realloc_ok {α : Type} (r : Option (Nat → α)) (da : array_t α) (nc : Nat)
    (h : (array_realloc r da nc).1 = EOK) :
    (array_realloc r da nc).2.size = da.size ∧
    (array_realloc r da nc).2.capacity = nc ∧
    (∀ i, i < da.capacity → i < nc → (array_realloc r da nc).2._data i = da._data i) := by
  unfold array_realloc at h ⊢
  by_cases hcap : nc = da.capacity
  · simp [hcap]
  · cases r with
    | none => simp [hcap] at h
    | some fresh =>
      have hmin : ∀ i, i < da.capacity → i < nc → i < min da.capacity nc :=
        fun i hi hic => lt_min hi hic
      simp only [hcap, if_false]
      refine ⟨trivial, trivial, ?_⟩
      intro i hi hic
      simp [hmin i hi hic]

theorem array_reserve_eq {α : Type} (r : Option (Nat → α)) (da : array_t α) (c : Nat) :
    ∃ nc, c ≤ nc ∧ (c ≤ da.capacity → nc = c) ∧
      array_reserve r da c = array_realloc r da nc := by
  refine ⟨if c > da.capacity then max (da.capacity * 2) c
    else if c < da.capacity / 2 then min (da.capacity / 2) c else c, ?_, ?_, rfl⟩
  · split
    · exact le_max_right _ _
    · split
      · rename_i h1 h2
        rw [min_eq_right (le_of_lt h2)]
      · exact le_refl _
  · intro hle
    have h1 : ¬ c > da.capacity := by omega
    simp only [h1, if_false]
    split
    · rename_i h2
      exact min_eq_right (le_of_lt h2)
    · rfl

theorem array_reserve_ok {α : Type} (r : Option (Nat → α)) (da : array_t α) (c : Nat)
    (h : (array_reserve r da c).1 = EOK) :
    (array_reserve r da c).2.size = da.size ∧
    c ≤ (array_reserve r da c).2.capacity ∧
    (∀ i, i < da.capacity → i < c → (array_reserve r da c).2._data i = da._data i) := by
  obtain ⟨nc, hnc, _, e⟩ := array_reserve_eq r da c
  rw [e] at h ⊢
  obtain ⟨h1, h2, h3⟩ := array_realloc_ok r da nc h
  exact ⟨h1, by omega, fun i hi hic => h3 i hi (by omega)⟩

theorem array_reserve_of_some {α : Type} (r : Option (Nat → α)) (da : array_t α) (c : Nat)
    (h : r.isSome = true) : (array_reserve r da c).1 = EOK := by
  obtain ⟨fresh, rfl⟩ := Option.isSome_iff_exists.mp h
  obtain ⟨nc, _, _, e⟩ := array_reserve_eq (some fresh) da c
  rw [e]
  unfold array_realloc
  split <;> rfl

theorem array_insert_of_ok {α : Type} (r : Option (Nat → α)) (da : array_t α) (index : Nat)
    (value : α) (h : (array_reserve r da (da.size + 1)).1 = EOK) :
    array_insert r da index value =
      some (EOK,
        { (array_reserve r da (da.size + 1)).2 with
          _data := fun i => if i = index then value
            else memmove (array_reserve r da (da.size + 1)).2._data (index + 1) index
              (da.size - index) i
          size := da.size + 1 }) := by
  obtain ⟨hsize, hcap, _⟩ := array_reserve_ok r da (da.size + 1) h
  have hassert : (array_reserve r da (da.size + 1)).2.capacity ≥ da.size + 1 := hcap
  simp only [array_insert, h, if_true, _array_shift, hsize, hassert]

theorem array_insert_of_fail {α : Type} (r : Option (Nat → α)) (da : array_t α) (index : Nat)
    (value : α) (h : (array_reserve r da (da.size + 1)).1 ≠ EOK) :
    array_insert r da index value =
      some ((array_reserve r da (da.size + 1)).1, (array_reserve r da (da.size + 1)).2) := by
  simp only [array_insert, h, if_false]

theorem array_insert_inv {α : Type} (r : Option (Nat → α)) (da da' : array_t α) (index : Nat)
    (value : α) (hwf : da.size ≤ da.capacity) (hi : index ≤ da.size)
    (h : array_insert r da index value = some (EOK, da')) :
    da'.size = da.size + 1 ∧
    (∀ k, k < index → da'._data k = da._data k) ∧
    da'._data index = value ∧
    (∀ k, k < da.size - index → da'._data (index + (1 + k)) = da._data (index + k)) := by
  by_cases hrc : (array_reserve r da (da.size + 1)).1 = EOK
  · obtain ⟨_, _, hdata⟩ := array_reserve_ok r da (da.size + 1) hrc
    rw [array_insert_of_ok r da index value hrc] at h
    simp only [Option.some.injEq, Prod.mk.injEq, true_and] at h
    subst h
    refine ⟨rfl, ?_, ?_, ?_⟩
    · intro k hk
      have h1 : ¬ k = index := by omega
      have h2 : ¬ (index + 1 ≤ k ∧ k < index + 1 + (da.size - index)) := by omega
      simp only [h1, if_false, memmove, h2]
      exact hdata k (by omega) (by omega)
    · simp
    · intro k hk
      have h1 : ¬ index + (1 + k) = index := by omega
      have h2 : index + 1 ≤ index + (1 + k) ∧
          index + (1 + k) < index + 1 + (da.size - index) := by omega
      have h3 : index + (index + (1 + k) - (index + 1)) = index + k := by omega
      simp only [h1, if_false, memmove, h2, and_self, if_true, h3]
      exact hdata (index + k) (by omega) (by omega)
  · rw [array_insert_of_fail r da index value hrc] at h
    simp only [Option.some.injEq, Prod.mk.injEq] at h
    exact absurd h.1 hrc

theorem contents_of_insert {α : Type} (da da' : array_t α) (index : Nat) (value : α)
    (hi : index ≤ da.size)
    (hsize : da'.size = da.size + 1)
    (hlow : ∀ k, k < index → da'._data k = da._data k)
    (hmid : da'._data index = value)
    (hhigh : ∀ k, k < da.size - index → da'._data (index + (1 + k)) = da._data (index + k)) :
    contents da' = (contents da).take index ++ value :: (contents da).drop index := by
  unfold contents
  rw [take_map_range _ _ _ hi, drop_map_range _ _ _ hi, hsize]
  have e : da.size + 1 = index + (1 + (da.size - index)) := by omega
  rw [e, map_range_add, map_range_add]
  congr 1
  · exact map_range_congr _ _ _ hlow
  · have h1 : List.map (fun k => da'._data (index + k)) (List.range 1) = [value] := by
      have h0 : List.range 1 = [0] := rfl
      rw [h0, List.map_singleton, Nat.add_zero, hmid]
    rw [h1, List.singleton_append]
    congr 1
    exact map_range_congr _ _ _ hhigh

theorem array_unshift_reserve {α : Type} (r : Option (Nat → α)) (da : array_t α)
    (index offset : Nat) (hwf : da.size ≤ da.capacity) (hio : index + offset ≤ da.size)
    (hrc : (array_reserve r (_array_unshift da index offset)
      (_array_unshift da index offset).size).1 = EOK) :
    (array_reserve r (_array_unshift da index offset)
      (_array_unshift da index offset).size).2.size = da.size - offset ∧
    (∀ k, k < index →
      (array_reserve r (_array_unshift da index offset)
        (_array_unshift da index offset).size).2._data k = da._data k) ∧
    (∀ k, k < da.size - (index + offset) →
      (array_reserve r (_array_unshift da index offset)
        (_array_unshift da index offset).size).2._data (index + k)
        = da._data (index + offset + k)) := by
  obtain ⟨hsize, _, hdata⟩ := array_reserve_ok r _ _ hrc
  have hs1 : (_array_unshift da index offset).size = da.size - offset := rfl
  have hc1 : (_array_unshift da index offset).capacity = da.capacity := rfl
  have hd1 : (_array_unshift da index offset)._data
      = memmove da._data index (index + offset) (da.size - index - offset) := rfl
  refine ⟨by rw [hsize, hs1], ?_, ?_⟩
  · intro k hk
    rw [hdata k (by rw [hc1]; omega) (by rw [hs1]; omega), hd1]
    have h2 : ¬ (index ≤ k ∧ k < index + (da.size - index - offset)) := by omega
    simp only [memmove, h2, if_false]
  · intro k hk
    rw [hdata (index + k) (by rw [hc1]; omega) (by rw [hs1]; omega), hd1]
    have h2 : index ≤ index + k ∧ index + k < index + (da.size - index - offset) := by omega
    have h3 : index + offset + (index + k - index) = index + offset + k := by omega
    simp only [memmove, h2, and_self, if_true, h3]

theorem contents_of_unshift {α : Type} (da da' : array_t α) (index offset : Nat)
    (hio : index + offset ≤ da.size)
    (hsize : da'.size = da.size - offset)
    (hlow : ∀ k, k < index → da'._data k = da._data k)
    (hhigh : ∀ k, k < da.size - (index + offset) →
      da'._data (index + k) = da._data (index + offset + k)) :
    contents da' = (contents da).take index ++ (contents da).drop (index + offset) := by
  unfold contents
  rw [take_map_range _ _ _ (by omega), drop_map_range _ _ _ hio, hsize]
  have e : da.size - offset = index + (da.size - (index + offset)) := by omega
  rw [e, map_range_add]
  congr 1
  · exact map_range_congr _ _ _ hlow
  · exact map_range_congr _ _ _ hhigh

/-- C18: for every array with contents a[0..n), every index i <= n and every
value v, `array_insert` at i succeeds when the reallocation succeeds, and a
successful `array_insert` makes the contents a[0..i), v, a[i..n) with size
n + 1.  `array_append` is `array_insert` at i = n: the appended item is read by
`array_at` at index n, behind the items already there. -/
theorem array_insert_contents {α : Type} (r : Option (Nat → α)) (da : array_t α)
    (index : Nat) (value : α) (hwf : da.size ≤ da.capacity) (hi : index ≤ da.size) :
    (r.isSome = true → ∃ da', array_insert r da index value = some (EOK, da')) ∧
    (∀ da', array_insert r da index value = some (EOK, da') →
      contents da' = (contents da).take index ++ value :: (contents da).drop index ∧
      da'.size = da.size + 1) ∧
    array_append r da value = array_insert r da da.size value ∧
    (∀ da', array_append r da value = some (EOK, da') →
      contents da' = contents da ++ [value] ∧
      da'.size = da.size + 1 ∧
      array_at da' da.size = value ∧
      ∀ j, j < da.size → array_at da' j = array_at da j) := by
  refine ⟨?_, ?_, rfl, ?_⟩
  · intro hr
    exact ⟨_, array_insert_of_ok r da index value (array_reserve_of_some r da _ hr)⟩
  · intro da' h
    obtain ⟨hsize, hlow, hmid, hhigh⟩ := array_insert_inv r da da' index value hwf hi h
    exact ⟨contents_of_insert da da' index value hi hsize hlow hmid hhigh, hsize⟩
  · intro da' h
    obtain ⟨hsize, hlow, hmid, hhigh⟩ :=
      array_insert_inv r da da' da.size value hwf (le_refl _) h
    refine ⟨?_, hsize, hmid, hlow⟩
    rw [contents_of_insert da da' da.size value (le_refl _) hsize hlow hmid hhigh]
    have hlen : (contents da).length = da.size := by simp [contents]
    rw [List.take_of_length_le (by omega), List.drop_of_length_le (by omega)]

/-- Witness for C18: the test `insert`: inserting 99 at index 1 of 10, 11, 12
gives 10, 99, 11, 12; appending 99 gives 10, 11, 12, 99. -/
theorem array_insert_contents_witness :
    (sample_array [10, 11, 12]).size ≤ (sample_array [10, 11, 12]).capacity ∧
    1 ≤ (sample_array [10, 11, 12]).size ∧
    ((((some (fun _ => 0)) : Option (Nat → Nat)).isSome = true →
        ∃ da', array_insert (some (fun _ => 0)) (sample_array [10, 11, 12]) 1 99 = some (EOK, da')) ∧
     (∀ da', array_insert (some (fun _ => 0)) (sample_array [10, 11, 12]) 1 99 = some (EOK, da') →
        contents da' = (contents (sample_array [10, 11, 12])).take 1 ++ 99 :: (contents (sample_array [10, 11, 12])).drop 1 ∧
        da'.size = (sample_array [10, 11, 12]).size + 1) ∧
     array_append (some (fun _ => 0)) (sample_array [10, 11, 12]) 99 = array_insert (some (fun _ => 0)) (sample_array [10, 11, 12]) (sample_array [10, 11, 12]).size 99 ∧
     (∀ da', array_append (some (fun _ => 0)) (sample_array [10, 11, 12]) 99 = some (EOK, da') →
        contents da' = contents (sample_array [10, 11, 12]) ++ [99] ∧
        da'.size = (sample_array [10, 11, 12]).size + 1 ∧
        array_at da' (sample_array [10, 11, 12]).size = 99 ∧
        ∀ j, j < (sample_array [10, 11, 12]).size → array_at da' j = array_at (sample_array [10, 11, 12]) j)) ∧
    (array_insert (some (fun _ => 0)) (sample_array [10, 11, 12]) 1 99).map (fun x => (x.1, contents x.2))
      = some (EOK, [10, 99, 11, 12]) ∧
    (array_append (some (fun _ => 0)) (sample_array [10, 11, 12]) 99).map (fun x => (x.1, contents x.2))
      = some (EOK, [10, 11, 12, 99]) :=
  ⟨by decide, by decide,
    array_insert_contents (some (fun _ => 0)) (sample_array [10, 11, 12]) 1 99 (by decide) (by decide),
    by decide, by decide⟩

/-- C19: for every array with contents a[0..n) and every index i < n,
`array_remove(da, i)`, whose reallocation succeeds, leaves the contents a[0..i)
followed by a[i+1..n), in the original order, with size n - 1. -/
theorem array_remove_contents {α : Type} (r : Option (Nat → α)) (da : array_t α)
    (index : Nat) (hwf : da.size ≤ da.capacity) (hi : index < da.size)
    (hr : r.isSome = true) :
    ∃ da', array_remove r da index = some da' ∧
      contents da' = (contents da).take index ++ (contents da).drop (index + 1) ∧
      da'.size = da.size - 1 := by
  have hrc := array_reserve_of_some r (_array_unshift da index 1)
    (_array_unshift da index 1).size hr
  obtain ⟨hsize, hlow, hhigh⟩ := array_unshift_reserve r da index 1 hwf (by omega) hrc
  refine ⟨_, ?_, contents_of_unshift da _ index 1 (by omega) hsize hlow hhigh, hsize⟩
  simp only [array_remove, hi, if_true, hrc]

/-- Witness for C19: the test `remove`: removing index 0 of 10, 11 leaves 11. -/
theorem array_remove_contents_witness :
    (sample_array [10, 11]).size ≤ (sample_array [10, 11]).capacity ∧
    0 < (sample_array [10, 11]).size ∧
    ((some (fun _ => 0)) : Option (Nat → Nat)).isSome = true ∧
    (∃ da', array_remove (some (fun _ => 0)) (sample_array [10, 11]) 0 = some da' ∧
      contents da' = (contents (sample_array [10, 11])).take 0
        ++ (contents (sample_array [10, 11])).drop (0 + 1) ∧
      da'.size = (sample_array [10, 11]).size - 1) ∧
    (array_remove (some (fun _ => 0)) (sample_array [10, 11]) 0).map (fun x => (x.size, contents x))
      = some (1, [11]) :=
  ⟨by decide, by decide, rfl,
    array_remove_contents (some (fun _ => 0)) (sample_array [10, 11]) 0 (by decide) (by decide) rfl,
    by decide⟩

/-- C20: for every array with contents a[0..n) and every begin <= end <= n with
begin < n, `array_clear_range(da, begin, end)`, whose reallocation succeeds,
leaves the contents a[0..begin) followed by a[end..n), with size
n - (end - begin); with begin = end the array keeps its contents and its
size. -/
theorem array_clear_range_contents {α : Type} (r : Option (Nat → α)) (da : array_t α)
    (begin_ end_ : Nat) (hwf : da.size ≤ da.capacity) (hb : begin_ < da.size)
    (he : end_ ≤ da.size) (hbe : begin_ ≤ end_) (hr : r.isSome = true) :
    ∃ da', array_clear_range r da begin_ end_ = some da' ∧
      contents da' = (contents da).take begin_ ++ (contents da).drop end_ ∧
      da'.size = da.size - (end_ - begin_) ∧
      (begin_ = end_ → contents da' = contents da ∧ da'.size = da.size) := by
  have hrc := array_reserve_of_some r (_array_unshift da begin_ (end_ - begin_))
    (_array_unshift da begin_ (end_ - begin_)).size hr
  obtain ⟨hsize, hlow, hhigh⟩ :=
    array_unshift_reserve r da begin_ (end_ - begin_) hwf (by omega) hrc
  have hc := contents_of_unshift da _ begin_ (end_ - begin_) (by omega) hsize hlow hhigh
  have hend : begin_ + (end_ - begin_) = end_ := by omega
  rw [hend] at hc
  refine ⟨_, ?_, hc, hsize, ?_⟩
  · simp only [array_clear_range, hb, he, hbe, and_self, if_true, hrc]
  · intro hbe'
    subst hbe'
    refine ⟨?_, by rw [hsize]; omega⟩
    rw [hc, List.take_append_drop]

/-- Witness for C20: the test `clear_range_middle`: clearing the range 1 to 3 of
10, 11, 12, 99 leaves 10, 99. -/
theorem array_clear_range_contents_witness :
    (sample_array [10, 11, 12, 99]).size ≤ (sample_array [10, 11, 12, 99]).capacity ∧
    1 < (sample_array [10, 11, 12, 99]).size ∧
    3 ≤ (sample_array [10, 11, 12, 99]).size ∧
    1 ≤ 3 ∧
    ((some (fun _ => 0)) : Option (Nat → Nat)).isSome = true ∧
    (∃ da', array_clear_range (some (fun _ => 0)) (sample_array [10, 11, 12, 99]) 1 3 = some da' ∧
      contents da' = (contents (sample_array [10, 11, 12, 99])).take 1 ++ (contents (sample_array [10, 11, 12, 99])).drop 3 ∧
      da'.size = (sample_array [10, 11, 12, 99]).size - (3 - 1) ∧
      (1 = 3 → contents da' = contents (sample_array [10, 11, 12, 99]) ∧ da'.size = (sample_array [10, 11, 12, 99]).size)) ∧
    (array_clear_range (some (fun _ => 0)) (sample_array [10, 11, 12, 99]) 1 3).map (fun x => (x.size, contents x))
      = some (2, [10, 99]) ∧
    (array_clear_range (some (fun _ => 0)) (sample_array [10, 11, 12, 99]) 0 0).map (fun x => (x.size, contents x))
      = some (4, [10, 11, 12, 99]) :=
  ⟨by decide, by decide, by decide, by decide, rfl,
    array_clear_range_contents (some (fun _ => 0)) (sample_array [10, 11, 12, 99]) 1 3 (by decide) (by decide) (by decide)
      (by decide) rfl,
    by decide, by decide⟩

end Adt

namespace Adt

open Xhci.errno_t

theorem array_concat_of_ok {α : Type} (r : Option (Nat → α)) (mem : Nat → array_t α)
    (da1 da2 : Nat) (hitem : (mem da1)._item_size = (mem da2)._item_size)
    (hwf1 : (mem da1).size ≤ (mem da1).capacity)
    (hwf2 : (mem da2).size ≤ (mem da2).capacity)
    (hrc : (array_reserve r (mem da1) ((mem da1).size + (mem da2).size)).1 = EOK) :
    ∃ mem', array_concat r mem da1 da2 = some (EOK, mem') ∧
      (mem' da1).size = (mem da1).size + (mem da2).size ∧
      (mem' da1).size ≤ (mem' da1).capacity ∧
      (∀ k, k < (mem da1).size → (mem' da1)._data k = (mem da1)._data k) ∧
      (∀ k, k < (mem da2).size → (mem' da1)._data ((mem da1).size + k) = (mem da2)._data k) ∧
      (da1 ≠ da2 → mem' da2 = mem da2) := by
  obtain ⟨hsize, hcap, hdata⟩ := array_reserve_ok r (mem da1) _ hrc
  have hsrc_size : (Function.update mem da1
      (array_reserve r (mem da1) ((mem da1).size + (mem da2).size)).2 da2).size
      = (mem da2).size := by
    by_cases hd : da2 = da1
    · subst hd
      simp [hsize]
    · simp [Function.update_noteq hd]
  have hsrc_data : ∀ k, k < (mem da2).size →
      (Function.update mem da1
        (array_reserve r (mem da1) ((mem da1).size + (mem da2).size)).2 da2)._data k
      = (mem da2)._data k := by
    intro k hk
    by_cases hd : da2 = da1
    · subst hd
      simp only [Function.update_same]
      exact hdata k (by omega) (by omega)
    · simp [Function.update_noteq hd]
  have hbound : (array_reserve r (mem da1) ((mem da1).size + (mem da2).size)).2.size
        + (Function.update mem da1
          (array_reserve r (mem da1) ((mem da1).size + (mem da2).size)).2 da2).size
        ≤ (array_reserve r (mem da1) ((mem da1).size + (mem da2).size)).2.capacity ∧
      (Function.update mem da1
          (array_reserve r (mem da1) ((mem da1).size + (mem da2).size)).2 da2).size
        ≤ (Function.update mem da1
          (array_reserve r (mem da1) ((mem da1).size + (mem da2).size)).2 da2).capacity := by
    constructor
    · rw [hsize, hsrc_size]
      exact hcap
    · by_cases hd : da2 = da1
      · subst hd
        simp only [Function.update_same]
        omega
      · simp only [Function.update_noteq hd]
        exact hwf2
  have hrun : ∃ mem', array_concat r mem da1 da2 = some (EOK, mem') ∧
      mem' = Function.update
        (Function.update (Function.update mem da1
          (array_reserve r (mem da1) ((mem da1).size + (mem da2).size)).2) da1
          { (array_reserve r (mem da1) ((mem da1).size + (mem da2).size)).2 with
            _data := memcpy
              (array_reserve r (mem da1) ((mem da1).size + (mem da2).size)).2._data
              ((Function.update mem da1
                (array_reserve r (mem da1) ((mem da1).size + (mem da2).size)).2) da2)._data
              (array_reserve r (mem da1) ((mem da1).size + (mem da2).size)).2.size
              ((Function.update mem da1
                (array_reserve r (mem da1) ((mem da1).size + (mem da2).size)).2) da2).size })
        da1
        { (array_reserve r (mem da1) ((mem da1).size + (mem da2).size)).2 with
          _data := memcpy
            (array_reserve r (mem da1) ((mem da1).size + (mem da2).size)).2._data
            ((Function.update mem da1
              (array_reserve r (mem da1) ((mem da1).size + (mem da2).size)).2) da2)._data
            (array_reserve r (mem da1) ((mem da1).size + (mem da2).size)).2.size
            ((Function.update mem da1
              (array_reserve r (mem da1) ((mem da1).size + (mem da2).size)).2) da2).size
          size := (array_reserve r (mem da1) ((mem da1).size + (mem da2).size)).2.size
            + ((Function.update mem da1
              (array_reserve r (mem da1) ((mem da1).size + (mem da2).size)).2) da2).size } := by
    refine ⟨_, ?_, rfl⟩
    simp only [array_concat, hitem, if_true, hrc, ne_eq, not_true_eq_false, if_false,
      Function.update_same]
    rw [if_pos hbound]
    simp only [Function.update_idem, Option.some.injEq, Prod.mk.injEq, true_and]
    by_cases hd : da2 = da1
    · subst hd
      simp only [Function.update_same]
    · simp only [Function.update_noteq hd]
  obtain ⟨mem', hmem, hdef⟩ := hrun
  subst hdef
  refine ⟨_, hmem, ?_, ?_, ?_, ?_, ?_⟩
  · simp only [Function.update_same]
    rw [hsize, hsrc_size]
  · simp only [Function.update_same]
    exact hbound.1
  · intro k hk
    simp only [Function.update_same, memcpy]
    have h2 : ¬ ((array_reserve r (mem da1) ((mem da1).size + (mem da2).size)).2.size ≤ k ∧
        k < (array_reserve r (mem da1) ((mem da1).size + (mem da2).size)).2.size
          + (Function.update mem da1
            (array_reserve r (mem da1) ((mem da1).size + (mem da2).size)).2 da2).size) := by
      rw [hsize]
      omega
    simp only [h2, if_false]
    exact hdata k (by omega) (by omega)
  · intro k hk
    simp only [Function.update_same, memcpy]
    have h2 : (array_reserve r (mem da1) ((mem da1).size + (mem da2).size)).2.size
          ≤ (mem da1).size + k ∧
        (mem da1).size + k
          < (array_reserve r (mem da1) ((mem da1).size + (mem da2).size)).2.size
          + (Function.update mem da1
            (array_reserve r (mem da1) ((mem da1).size + (mem da2).size)).2 da2).size := by
      rw [hsize, hsrc_size]
      omega
    have h3 : (mem da1).size + k
        - (array_reserve r (mem da1) ((mem da1).size + (mem da2).size)).2.size = k := by
      rw [hsize]
      omega
    simp only [h2, and_self, if_true, h3]
    exact hsrc_data k hk
  · intro hne
    simp [Function.update_noteq (Ne.symm hne)]

theorem array_concat_of_fail {α : Type} (r : Option (Nat → α)) (mem : Nat → array_t α)
    (da1 da2 : Nat) (mem' : Nat → array_t α)
    (hrc : (array_reserve r (mem da1) ((mem da1).size + (mem da2).size)).1 ≠ EOK) :
    array_concat r mem da1 da2 ≠ some (EOK, mem') := by
  unfold array_concat
  by_cases hitem : (mem da1)._item_size = (mem da2)._item_size
  · simp only [hitem, if_true, ne_eq, hrc, not_false_eq_true, Option.some.injEq,
      Prod.mk.injEq, not_and]
    exact fun h => h.elim
  · simp [hitem]

theorem contents_of_concat {α : Type} (da da1 da2 : array_t α)
    (hsize : da.size = da1.size + da2.size)
    (hlow : ∀ k, k < da1.size → da._data k = da1._data k)
    (hhigh : ∀ k, k < da2.size → da._data (da1.size + k) = da2._data k) :
    contents da = contents da1 ++ contents da2 := by
  unfold contents
  rw [hsize, map_range_add]
  congr 1
  · exact map_range_congr _ _ _ hlow
  · exact map_range_congr _ _ _ hhigh


/-- C21: for two arrays of the same item size, each holding no more items
than its buffer has slots, `array_concat(da1, da2)` succeeds whenever the
reallocation does, without a copy behind the end of a buffer.  A successful
call makes the contents of `da1` its old contents followed by the contents of
`da2`, with size the sum of both sizes, and that size is at most the capacity of
`da1` after the call; a distinct `da2` is left untouched, and when `da1` and
`da2` are the same array the result is the old contents repeated twice. -/
theorem array_concat_contents {α : Type} (r : Option (Nat → α)) (mem : Nat → array_t α)
    (da1 da2 : Nat) (hitem : (mem da1)._item_size = (mem da2)._item_size)
    (hwf1 : (mem da1).size ≤ (mem da1).capacity)
    (hwf2 : (mem da2).size ≤ (mem da2).capacity) :
    (r.isSome = true → ∃ mem', array_concat r mem da1 da2 = some (EOK, mem')) ∧
    (∃ out, array_concat r mem da1 da2 = some out) ∧
    ∀ mem', array_concat r mem da1 da2 = some (EOK, mem') →
      contents (mem' da1) = contents (mem da1) ++ contents (mem da2) ∧
      (mem' da1).size = (mem da1).size + (mem da2).size ∧
      (mem' da1).size ≤ (mem' da1).capacity ∧
      (da1 ≠ da2 → mem' da2 = mem da2 ∧ (mem' da2).size = (mem da2).size ∧
        contents (mem' da2) = contents (mem da2)) ∧
      (da1 = da2 → contents (mem' da1) = contents (mem da1) ++ contents (mem da1) ∧
        (mem' da1).size = (mem da1).size + (mem da1).size) := by
  refine ⟨?_, ?_, ?_⟩
  · intro hr
    obtain ⟨mem', h, _⟩ := array_concat_of_ok r mem da1 da2 hitem hwf1 hwf2
      (array_reserve_of_some r _ _ hr)
    exact ⟨mem', h⟩
  · by_cases hrc : (array_reserve r (mem da1) ((mem da1).size + (mem da2).size)).1 = EOK
    · obtain ⟨mem', h, _⟩ := array_concat_of_ok r mem da1 da2 hitem hwf1 hwf2 hrc
      exact ⟨_, h⟩
    · refine ⟨((array_reserve r (mem da1) ((mem da1).size + (mem da2).size)).1,
        Function.update mem da1
          (array_reserve r (mem da1) ((mem da1).size + (mem da2).size)).2), ?_⟩
      simp only [array_concat, hitem, if_true, ne_eq, hrc, not_false_eq_true]
  · intro mem' hok
    have hrc : (array_reserve r (mem da1) ((mem da1).size + (mem da2).size)).1 = EOK := by
      by_contra hne
      exact array_concat_of_fail r mem da1 da2 mem' hne hok
    obtain ⟨mem'', h, hsize, hcap, hlow, hhigh, hother⟩ :=
      array_concat_of_ok r mem da1 da2 hitem hwf1 hwf2 hrc
    rw [h] at hok
    simp only [Option.some.injEq, Prod.mk.injEq, true_and] at hok
    subst hok
    have hcont := contents_of_concat (mem'' da1) (mem da1) (mem da2) hsize hlow hhigh
    refine ⟨hcont, hsize, hcap, ?_, ?_⟩
    · intro hne
      rw [hother hne]
      exact ⟨rfl, rfl, rfl⟩
    · intro heq
      subst heq
      exact ⟨hcont, hsize⟩

theorem array_concat_contents_witness :
    (sample_arrays 1)._item_size = (sample_arrays 2)._item_size ∧
    (sample_arrays 1).size ≤ (sample_arrays 1).capacity ∧
    (sample_arrays 2).size ≤ (sample_arrays 2).capacity ∧
    ((Option.isSome (some (fun _ : Nat => 0)) = true →
        ∃ mem', array_concat (some (fun _ => 0)) sample_arrays 1 2 = some (EOK, mem')) ∧
      (∃ out, array_concat (some (fun _ => 0)) sample_arrays 1 2 = some out) ∧
      ∀ mem', array_concat (some (fun _ => 0)) sample_arrays 1 2 = some (EOK, mem') →
        contents (mem' 1) = contents (sample_arrays 1) ++ contents (sample_arrays 2) ∧
        (mem' 1).size = (sample_arrays 1).size + (sample_arrays 2).size ∧
        (mem' 1).size ≤ (mem' 1).capacity ∧
        (1 ≠ 2 → mem' 2 = sample_arrays 2 ∧ (mem' 2).size = (sample_arrays 2).size ∧
          contents (mem' 2) = contents (sample_arrays 2)) ∧
        (1 = 2 → contents (mem' 1) = contents (sample_arrays 1) ++ contents (sample_arrays 1) ∧
          (mem' 1).size = (sample_arrays 1).size + (sample_arrays 1).size)) ∧
    (array_concat (some (fun _ => 0)) sample_arrays 1 2).map
        (fun x => (x.1, contents (x.2 1), (x.2 1).size, (x.2 1).capacity))
      = some (EOK, [10, 99, 30, 31], 4, 4) ∧
    (array_concat (some (fun _ => 0)) sample_arrays 1 2).map
        (fun x => (contents (x.2 2), (x.2 2).size))
      = some ([30, 31], 2) ∧
    (array_concat (some (fun _ => 0)) sample_arrays 1 1).map
        (fun x => (x.1, contents (x.2 1), (x.2 1).size, (x.2 1).capacity))
      = some (EOK, [10, 99, 10, 99], 4, 4) :=
  ⟨by decide, by decide, by decide,
    array_concat_contents (some (fun _ => 0)) sample_arrays 1 2 (by decide) (by decide)
      (by decide),
    by decide, by decide, by decide⟩

end Adt

namespace Xhci

open errno_t usb_transfer_type_t

/-! ## Transfer type of the Setup stage -/

/-- C24, the code at the failing input.  `get_transfer_type` gives
DATA_STAGE_NO (0) when wLength is 0, DATA_STAGE_IN (3) when wLength > 0 and the
request is device to host, and DATA_STAGE_NO (0) again when wLength > 0 and the
request is host to device: it never gives DATA_STAGE_OUT (2).  For a
host-to-device request with wLength 8, `xhci_schedule_control_transfer`
enqueues a Setup descriptor with transfer type 0 followed by a Data descriptor
with direction OUT, so the field disagrees with the stages enqueued. -/
theorem setup_transfer_type_never_out :
    (∀ bmRequestType wLength, wLength = 0 →
      get_transfer_type bmRequestType wLength = DATA_STAGE_NO) ∧
    (∀ bmRequestType wLength, wLength > 0 → REQUEST_TYPE_IS_DEVICE_TO_HOST bmRequestType ≠ 0 →
      get_transfer_type bmRequestType wLength = DATA_STAGE_IN) ∧
    (∀ bmRequestType wLength, wLength > 0 → REQUEST_TYPE_IS_DEVICE_TO_HOST bmRequestType = 0 →
      get_transfer_type bmRequestType wLength = DATA_STAGE_NO) ∧
    (∀ bmRequestType wLength, get_transfer_type bmRequestType wLength ≠ DATA_STAGE_OUT) ∧
    REQUEST_TYPE_IS_DEVICE_TO_HOST sample_control_out.setup_buffer.request_type = 0 ∧
    sample_control_out.setup_buffer.length = 8 ∧
    get_transfer_type sample_control_out.setup_buffer.request_type
      sample_control_out.setup_buffer.length = DATA_STAGE_NO ∧
    DATA_STAGE_NO ≠ DATA_STAGE_OUT ∧
    ((xhci_schedule_control_transfer sample_env sample_hc sample_control_out).map
        (fun r => (r.1, (enqueued r.2.calls).map
          (fun e => (e.2.2.1.trb_type, e.2.2.1.trt, e.2.2.1.dir, e.2.2.1.xfer_len))))
      = some (EOK,
          [(XHCI_TRB_TYPE_SETUP_STAGE, DATA_STAGE_NO, 0, 8),
           (XHCI_TRB_TYPE_DATA_STAGE, 0, STAGE_OUT, 8),
           (XHCI_TRB_TYPE_STATUS_STAGE, 0, STAGE_IN, 0)])) := by
  refine ⟨?_, ?_, ?_, ?_, ?_, ?_, ?_, ?_, ?_⟩
  · intro t l h
    simp [get_transfer_type, h]
  · intro t l h hd
    have hl : l ≠ 0 := by omega
    simp [get_transfer_type, hl, hd]
  · intro t l h hd
    simp [get_transfer_type, hd]
  · intro t l
    unfold get_transfer_type
    split
    · decide
    · split <;> decide
  all_goals decide

end Xhci

namespace Usb

/-- C26, the code at a failing input: a page-aligned buffer of 100 bytes whose
single page is mapped below 4 GiB is checked against the 4 GiB policy in three
address spaces that agree on every address of the buffer's page.  The result is
false when the page after the buffer is mapped at 4 GiB, false when that page
is not mapped, and true when it is mapped below 4 GiB: the loop over the pages
is entered for a size of at most PAGE_SIZE and reads the mapping of the page
after the buffer. -/
theorem dma_buffer_check_policy_reads_next_page :
    0x10000 % sample_dma_env.PAGE_SIZE = 0 ∧
    100 ≤ sample_dma_env.PAGE_SIZE ∧
    sample_dma_env.as_get_physical_mapping 0x10000 = some 0x1000 ∧
    phys_above_4GiB sample_dma_env 0x1000 = false ∧
    (∀ a, 0x10000 ≤ a → a < 0x10000 + sample_dma_env.PAGE_SIZE →
      low_dma_env.as_get_physical_mapping a = sample_dma_env.as_get_physical_mapping a ∧
      single_page_dma_env.as_get_physical_mapping a
        = sample_dma_env.as_get_physical_mapping a) ∧
    dma_buffer_check_policy sample_dma_env 3 0x10000 100 ⟨DMA_POLICY_F_4GiB⟩ = some false ∧
    dma_buffer_check_policy single_page_dma_env 3 0x10000 100 ⟨DMA_POLICY_F_4GiB⟩
      = some false ∧
    dma_buffer_check_policy low_dma_env 3 0x10000 100 ⟨DMA_POLICY_F_4GiB⟩ = some true := by
  refine ⟨by decide, by decide, by decide, by decide, ?_, by decide, by decide, by decide⟩
  intro a h1 h2
  have h3 : a ≠ 0x11000 := by
    simp only [sample_dma_env] at h2
    omega
  simp [sample_dma_env, low_dma_env, single_page_dma_env, h3]

end Usb

namespace Taskman

open task_exit_t retval_t

/-- C25: for every task state, `event_flags task` contains TASK_WAIT_EXIT if
and only if the exit status is not TASK_EXIT_RUNNING, and contains
TASK_WAIT_RETVAL if and only if the task is still running with retval_type
RVAL_SET or has exited with retval_type RVAL_SET_EXIT; for an exited task with
retval_type RVAL_SET the flags are TASK_WAIT_EXIT alone. -/
theorem event_flags_contains (task : task_t) :
    (has_flag (event_flags task) TASK_WAIT_EXIT ↔ task.exit ≠ TASK_EXIT_RUNNING) ∧
    (has_flag (event_flags task) TASK_WAIT_RETVAL ↔
      (task.exit = TASK_EXIT_RUNNING ∧ task.retval_type = RVAL_SET) ∨
      (task.exit ≠ TASK_EXIT_RUNNING ∧ task.retval_type = RVAL_SET_EXIT)) ∧
    event_flags { exit := TASK_EXIT_NORMAL, retval_type := RVAL_SET } = TASK_WAIT_EXIT ∧
    event_flags { exit := TASK_EXIT_UNEXPECTED, retval_type := RVAL_SET } = TASK_WAIT_EXIT ∧
    event_flags { exit := TASK_EXIT_RUNNING, retval_type := RVAL_SET } = TASK_WAIT_RETVAL ∧
    event_flags { exit := TASK_EXIT_NORMAL, retval_type := RVAL_SET_EXIT }
      = TASK_WAIT_EXIT ||| TASK_WAIT_RETVAL ∧
    event_flags { exit := TASK_EXIT_RUNNING, retval_type := RVAL_SET_EXIT } = TASK_WAIT_NONE := by
  obtain ⟨e, t⟩ := task
  cases e <;> cases t <;> decide

end Taskman

namespace Ui

/-- C27, the code at a failing input.  For every menu and starting position
the bottom edge of the entries rectangle is computed from the x coordinate of
its top-left corner: `entries_rect.p1.y = entries_rect.p0.x + total_h`.  For the
sample menu (graphics mode, entries 100 by 50) at the starting position
(10, 30) the entries rectangle is (14, 34)-(114, 64): its height is 30, not
50, and the outer rectangle, (10, 30)-(118, 88), extends it by 24 at the
bottom, not by the frame height 4. -/
theorem ui_menu_get_geom_entries_height :
    (∀ menu spos, (ui_menu_get_geom menu spos).entries_rect.p1.y
      = (ui_menu_get_geom menu spos).entries_rect.p0.x + menu.total_h) ∧
    ui_menu_get_geom sample_menu { x := 10, y := 30 }
      = { outer_rect := { p0 := { x := 10, y := 30 }, p1 := { x := 118, y := 88 } },
          entries_rect := { p0 := { x := 14, y := 34 }, p1 := { x := 114, y := 64 } } } ∧
    (ui_menu_get_geom sample_menu { x := 10, y := 30 }).entries_rect.p1.y
      - (ui_menu_get_geom sample_menu { x := 10, y := 30 }).entries_rect.p0.y = 30 ∧
    (ui_menu_get_geom sample_menu { x := 10, y := 30 }).entries_rect.p1.y
      - (ui_menu_get_geom sample_menu { x := 10, y := 30 }).entries_rect.p0.y
      ≠ sample_menu.total_h ∧
    (ui_menu_get_geom sample_menu { x := 10, y := 30 }).outer_rect.p1.y
      - (ui_menu_get_geom sample_menu { x := 10, y := 30 }).entries_rect.p1.y = 24 ∧
    (ui_menu_get_geom sample_menu { x := 10, y := 30 }).outer_rect.p1.y
      ≠ (ui_menu_get_geom sample_menu { x := 10, y := 30 }).entries_rect.p1.y
        + menu_frame_h := by
  refine ⟨fun _ _ => rfl, ?_, ?_, ?_, ?_, ?_⟩ <;> decide

end Ui

namespace Configuration

open errno_t unit_state_t

theorem configuration_rollback_unit_by_handle (c : configuration_t) (unit : Nat) :
    (configuration_rollback_unit c unit).units_by_handle = c.units_by_handle := by
  unfold configuration_rollback_unit
  simp only
  split <;> rfl

theorem foldl_rollback_by_handle (l : List Nat) (c : configuration_t) :
    (l.foldl configuration_rollback_unit c).units_by_handle = c.units_by_handle := by
  induction l generalizing c with
  | nil => rfl
  | cons a l ih =>
    rw [List.foldl_cons, ih, configuration_rollback_unit_by_handle]

/-- C23, the code at a failing input.  `configuration_rollback` leaves the
table `units_by_handle` as it was, for every configuration.  In the sample,
unit 1 is added and committed, then unit 2 is added and the configuration is
rolled back: unit 2 is destroyed, is no longer in the list of units and is no
longer found by name, but it is still linked into `units_by_handle` and
`configuration_find_unit_by_handle` still returns its address.  The committed
unit 1 is found by both lookups. -/
theorem configuration_rollback_keeps_handle :
    (∀ c, (configuration_rollback c).units_by_handle = c.units_by_handle) ∧
    sample_configuration.map (fun c => (c.units, c.units_by_name, c.units_by_handle))
      = some ([1, 2], [1, 2], [1, 2]) ∧
    sample_configuration.map (fun c =>
        ((c.mem 1).state, (c.mem 1).handle, (c.mem 2).state, (c.mem 2).handle))
      = some (STATE_STOPPED, 1, STATE_EMBRYO, 2) ∧
    sample_configuration.map (fun c =>
        ((configuration_rollback c).units, (configuration_rollback c).units_by_name,
          (configuration_rollback c).units_by_handle, (configuration_rollback c).destroyed))
      = some ([1], [1], [1, 2], [2]) ∧
    sample_configuration.map (fun c =>
        (configuration_find_unit_by_name (configuration_rollback c) "b",
          configuration_find_unit_by_handle (configuration_rollback c) 2))
      = some (none, some 2) ∧
    sample_configuration.map (fun c =>
        (configuration_find_unit_by_name (configuration_rollback c) "a",
          configuration_find_unit_by_handle (configuration_rollback c) 1))
      = some (some 1, some 1) := by
  refine ⟨?_, ?_, ?_, ?_, ?_, ?_⟩
  · intro c
    exact foldl_rollback_by_handle c.units_by_name c
  all_goals decide

end Configuration

namespace Devman

open errno_t call_handle_t

/-- C29, the code at a failing input.  `devman_function_get_handle` and
`devman_dev_get_functions` leave `device_tree.rwlock` balanced on every path.
`devman_driver_get_devices` never acquires the lock, and on the path where
`driver_get_devices` fails it releases it: in the sample request its calls are
`malloc`, the read unlock and the two error answers. -/
theorem devman_driver_get_devices_unlocks :
    (∀ env, read_locks_held (devman_function_get_handle env) 0 = some 0) ∧
    (∀ env, read_locks_held (devman_dev_get_functions env) 0 = some 0) ∧
    (∀ env, client_call.fibril_rwlock_read_lock ∉ devman_driver_get_devices env) ∧
    (∀ env, read_locks_held (devman_driver_get_devices env) 0 = none ↔
      (env.async_data_read_receive = true ∧ env.driver_find = true ∧ env.malloc = true ∧
        env.driver_get_devices ≠ EOK)) ∧
    devman_driver_get_devices sample_client_env
      = [.malloc, .fibril_rwlock_read_unlock, .async_answer_0 chandle EIO,
          .async_answer_0 icall_handle EIO] ∧
    read_locks_held (devman_driver_get_devices sample_client_env) 0 = none ∧
    devman_dev_get_functions sample_client_env
      = [.fibril_rwlock_read_lock, .malloc, .fibril_rwlock_read_unlock,
          .async_answer_0 chandle EIO, .async_answer_0 icall_handle EIO] ∧
    read_locks_held (devman_dev_get_functions sample_client_env) 0 = some 0 := by
  refine ⟨?_, ?_, ?_, ?_, by decide, by decide, by decide, by decide⟩
  · intro env
    unfold devman_function_get_handle
    simp only
    split
    · rfl
    · split
      · rfl
      · split <;> rfl
  · intro env
    unfold devman_dev_get_functions
    simp only
    split
    · rfl
    · split
      · rfl
      · split
        · rfl
        · split <;> rfl
  · intro env
    unfold devman_driver_get_devices
    simp only
    split
    · simp
    · split
      · simp
      · split
        · simp
        · split <;> simp
  · intro env
    unfold devman_driver_get_devices
    simp only
    by_cases h1 : env.async_data_read_receive = true <;>
      by_cases h2 : env.driver_find = true <;>
      by_cases h3 : env.malloc = true <;>
      by_cases h4 : env.driver_get_devices = EOK <;>
      simp [h1, h2, h3, h4, read_locks_held]

end Devman

namespace Bdsh

open cmd_status

/-- C30, the code at a failing input.  For the arguments `dir/ab` and `r/ab`
the name `ab` starts at offset 4 of the path and the suffix is longer than the
name: `str_str` is handed the pointer at offset 2, in the directory part of the
path, finds the suffix there and line 72 stores a NUL at offset 2, outside the
name; the line printed is `ab`.  For the arguments `ab` and `xxab` the pointer
handed to `str_str` lies two characters before the start of the path.  With a
suffix not longer than the name the search stays inside the name, and without a
path argument the command fails and prints no name. -/
theorem cmd_basename_suffix_longer_than_name :
    gnu_basename "dir/ab".toList = 4 ∧
    cmd_basename ["basename".toList, "dir/ab".toList, "r/ab".toList]
      = some { status := CMD_SUCCESS, stdout := some "ab".toList,
               buffer := "di".toList ++ [NUL] ++ "/ab".toList ++ [NUL],
               search := some 2, store := some 2 } ∧
    cmd_basename ["basename".toList, "ab".toList, "xxab".toList] = none ∧
    cmd_basename ["basename".toList, "dir/file.c".toList, ".c".toList]
      = some { status := CMD_SUCCESS, stdout := some "file".toList,
               buffer := "dir/file".toList ++ [NUL] ++ "c".toList ++ [NUL],
               search := some 8, store := some 8 } ∧
    (cmd_basename ["basename".toList, "dir/file.c".toList, ".h".toList]).map
        (fun r => (r.status, r.stdout, r.store))
      = some (CMD_SUCCESS, some "file.c".toList, none) ∧
    (cmd_basename ["basename".toList, "file.c".toList]).map (fun r => (r.status, r.stdout))
      = some (CMD_SUCCESS, some "file.c".toList) ∧
    (cmd_basename ["basename".toList]).map (fun r => (r.status, r.stdout))
      = some (CMD_FAILURE, none) := by
  refine ⟨?_, ?_, ?_, ?_, ?_, ?_, ?_⟩ <;> decide

end Bdsh

namespace JobClosure

open errno_t bfs_direction

/-- C28, the code at a failing input.  In the sample unit 1 has edges to
units 2 and 3 and the main job starts unit 1.  When every allocation succeeds,
`job_create_closure` returns EOK with three jobs in the closure and every unit
has `bfs_tag` false and `bfs_data` NULL.  When the `job_create` for unit 3
fails, unit 2 already has its job 101 in the closure and still waits in the BFS
queue: `traverse_clean` sets its `bfs_data` to NULL, the traversal returns
ENOMEM, and the final loop of `job_create_closure` reaches job 101 with
`bfs_data` NULL, so its assertion fails. -/
theorem job_create_closure_assertion_fails :
    (job_create_closure alloc_always 10 sample_sysman 100 0).map
        (fun r => (r.1, r.2.closure,
          r.2.repo.map (fun u => ((r.2.units u).bfs_tag, (r.2.units u).bfs_data))))
      = .ok (EOK, [100, 101, 102], [(false, none), (false, none), (false, none)]) ∧
    (bfs_traverse_component alloc_fifth_fails
          { direction := BFS_FORWARD, visit := .visit_propagate_job } 10
          (job_add_ref (array_append alloc_fifth_fails sample_sysman 100).2 100) 1).map
        (fun r => (r.1, r.2.closure, (r.2.jobs 101).unit))
      = .ok (ENOMEM, [100, 101], 2) ∧
    (bfs_traverse_component alloc_fifth_fails
          { direction := BFS_FORWARD, visit := .visit_propagate_job } 10
          (job_add_ref (array_append alloc_fifth_fails sample_sysman 100).2 100) 1).map
        (fun r => r.2.repo.map (fun u => ((r.2.units u).bfs_tag, (r.2.units u).bfs_data)))
      = .ok [(false, some 100), (false, none), (false, none)] ∧
    (job_create_closure alloc_fifth_fails 10 sample_sysman 100 0).map
        (fun r => (r.1, r.2.closure))
      = .assertion_failed := by
  refine ⟨?_, ?_, ?_, ?_⟩ <;> decide

end JobClosure
